import Mathlib

/-!
Session establishment layer of the naali viewer.

A shallow embedding of

* `src/OpenSimProtocol/XMLRPCLoginThread.cpp` (the login worker), and
* `src/KristalliProtocolModule/KristalliProtocolModule.cpp` (the transport
  connection manager),

followed by theorems about them.  Stateful C++ members become functions on
explicit state records.  Everything the two files call but do not define (the
XML-RPC client, the MD5 wrapper, the hardware identifiers, the kNet network
object and its timer) is an explicit input of the model, and every call made
to such a collaborator is written to a ghost log so that "which calls were
made, in which order" is a statement about a list.
-/

namespace OpenSimProtocol

/-! ## Data model of the login worker -/

/-- The values of `Connection::State` that `XMLRPCLoginThread.cpp` reads or writes. -/
inductive State
  | STATE_DISCONNECTED
  | STATE_INIT_XMLRPC
  | STATE_WAITING_FOR_XMLRPC_REPLY
  | STATE_XMLRPC_AUTH_REPLY_RECEIVED
  | STATE_XMLRPC_REPLY_RECEIVED
  | STATE_LOGIN_FAILED
  deriving DecidableEq, Repr

/-- Modelled from the spec: `RexUUID` is declared in a header that is not part of the
sources.  The spec treats `sessionID` and `agentID` as identifiers that are either
empty or non-empty, so the model keeps the text the identifier was read from. -/
structure RexUUID where
  text : String
  deriving DecidableEq, Repr

/-- The call `RexUUID::FromString`. -/
def RexUUID.FromString (_old : RexUUID) (s : String) : RexUUID := ⟨s⟩

/-- The call `RexUUID::ToString`. -/
def RexUUID.ToString (u : RexUUID) : String := u.text

/-- The output parameters of a login (`threadState_->parameters`), restricted to the
fields the worker writes. -/
structure ClientParameters where
  sessionID : RexUUID
  agentID : RexUUID
  circuitCode : Int
  gridUrl : String
  sessionHash : String
  avatarStorageUrl : String
  deriving DecidableEq, Repr

/-- The record `ConnectionThreadState` shared between the worker and the foreground. -/
structure ConnectionThreadState where
  state : State
  parameters : ClientParameters
  errorMessage : String
  deriving DecidableEq, Repr

/-- A typed value of an XML-RPC request or reply. -/
inductive XMLRPCValue
  | str (s : String)
  | int (i : Int)
  deriving DecidableEq, Repr

/-- One call as `XMLRPCEPI` has it when `Send` is reached: the address and port given
to `Connect`, the method given to `CreateCall`, the members added with `AddMember` in
order, and the strings added to the `options` array in order. -/
structure XMLRPCCall where
  address : String
  port : String
  method : String
  members : List (String × XMLRPCValue)
  options : List String
  deriving DecidableEq, Repr

/-- The exceptions (`XMLRPCException`) the client can throw at the worker. -/
inductive XMLRPCException
  | initialisation (msg : String)
  | send (msg : String)
  | noSuchReply (name : String)
  deriving DecidableEq, Repr

/-- What the XML-RPC client does with one call.  `XMLRPCEPI` is not part of the
sources, so its behaviour is an input: `Connect`/`CreateCall` throw, or one of the
`AddMember`/`AddStringToArray` calls throws, or `Send` throws, or `Send` returns and
the reply is the given mapping from field name to typed value. -/
inductive RpcOutcome
  | initError (msg : String)
  | memberError (msg : String)
  | sendError (msg : String)
  | reply (fields : List (String × XMLRPCValue))
  deriving DecidableEq, Repr

/-- Whether `call.Send()` is reached under an outcome: an exception of the first two
`try` blocks returns before it, the other two outcomes come from `Send` itself. -/
def RpcOutcome.reachesSend : RpcOutcome → Bool
  | .initError _ => false
  | .memberError _ => false
  | .sendError _ => true
  | .reply _ => true

/-- Everything outside the worker that `PerformXMLRPCLogin` consults: the MD5 wrapper,
`GetMACaddressString()`, `GetId0String()` and the XML-RPC peer.  The peer answers the
`n`-th call of a run (counted from 0) as a function of that call. -/
structure Host where
  md5 : String → String
  macAddress : String
  id0 : String
  rpc : Nat → XMLRPCCall → RpcOutcome

/-- Ghost log of a run of the worker. -/
inductive Event
  | setState (s : State)
  | connect (address port method : String)
  | send (c : XMLRPCCall)
  deriving DecidableEq, Repr

/-- The members of `XMLRPCLoginThread`. `threadState_` is a pointer in the source; it
is `none` until `SetupXMLRPCLogin` stores one, and holds the pointed-to record after. -/
structure XMLRPCLoginThread where
  beginLogin_ : Bool
  ready_ : Bool
  firstName_ : String
  lastName_ : String
  password_ : String
  worldAddress_ : String
  worldPort_ : String
  callMethod_ : String
  authenticationLogin_ : String
  authenticationAddress_ : String
  authenticationPort_ : String
  authentication_ : Bool
  threadState_ : Option ConnectionThreadState
  deriving DecidableEq, Repr

/-- The constructor: `beginLogin_(false), ready_(false)`; the strings are empty, the
pointer is not set, and `authentication_` is left with an indeterminate value, which is
the argument. -/
def XMLRPCLoginThread.new (indeterminate : Bool) : XMLRPCLoginThread :=
  { beginLogin_ := false, ready_ := false,
    firstName_ := "", lastName_ := "", password_ := "",
    worldAddress_ := "", worldPort_ := "", callMethod_ := "",
    authenticationLogin_ := "", authenticationAddress_ := "", authenticationPort_ := "",
    authentication_ := indeterminate, threadState_ := none }

/-- The method `XMLRPCLoginThread::SetupXMLRPCLogin`. -/
def XMLRPCLoginThread.SetupXMLRPCLogin (t : XMLRPCLoginThread)
    (first_name last_name password worldAddress worldPort callMethod : String)
    (thread_state : ConnectionThreadState)
    (authentication_login authentication_address authentication_port : String)
    (authentication : Bool) : XMLRPCLoginThread :=
  { t with
    firstName_ := first_name
    lastName_ := last_name
    password_ := password
    worldAddress_ := worldAddress
    worldPort_ := worldPort
    callMethod_ := callMethod
    authenticationLogin_ := authentication_login
    authenticationAddress_ := authentication_address
    authenticationPort_ := authentication_port
    authentication_ := authentication
    ready_ := true
    threadState_ := some { thread_state with state := State.STATE_INIT_XMLRPC }
    beginLogin_ := true }

/-- The method `XMLRPCLoginThread::GetState`. -/
def XMLRPCLoginThread.GetState (t : XMLRPCLoginThread) : Option State :=
  if !t.ready_ then some State.STATE_DISCONNECTED
  else t.threadState_.map (fun ts => ts.state)

/-! ## `std::string::find` and the request built by `PerformXMLRPCLogin` -/

/-- The value `std::string::npos` for a 64-bit `size_t`. -/
def npos : Nat := 2 ^ 64 - 1

/-- Position of the first occurrence of `pat` in `s` at or after offset `i`, as
`std::string::find` computes it on the characters. -/
def findFrom (pat : List Char) : List Char → Nat → Nat
  | [], i => if pat = [] then i else npos
  | c :: cs, i => if pat.isPrefixOf (c :: cs) then i else findFrom pat cs (i + 1)

/-- The call `s.find(pat)`. -/
def stdFind (s pat : String) : Nat := findFrom pat.data s.data 0

/-- The condition `!worldAddress_.find("http") != std::string::npos` of the source, with
the precedence C++ gives it: `!` applies to the position returned by `find` (a position
is true when non-zero), the resulting `bool` is promoted to 0 or 1 and compared with
`npos`. -/
def loginuriCondition (worldAddress : String) : Bool :=
  let negated : Bool := stdFind worldAddress "http" == 0
  (if negated then 1 else 0) != npos

/-- The fixed `options` array, in the order of the `AddStringToArray` calls. -/
def loginOptions : List String :=
  ["inventory-root", "inventory-skeleton", "inventory-lib-root", "inventory-lib-owner",
   "inventory-skel-lib", "initial-outfit", "gestures", "event_categories",
   "event_notifications", "classified_categories", "buddy-list", "ui-config",
   "tutorial_setting", "login-flags", "global-textures"]

/-- The members every call ends with (`start` .. `last_exec_event`). -/
def commonMembers (mac_hash id0_hash : String) : List (String × XMLRPCValue) :=
  [("start", .str "last"),
   ("version", .str "realXtend 1.20.13.91224"),
   ("channel", .str "realXtend"),
   ("platform", .str "Win"),
   ("mac", .str mac_hash),
   ("id0", .str id0_hash),
   ("last_exec_event", .int 0)]

/-- The members added by the three-way branch on `authentication_` and `callMethod_`
(none when no branch applies). `sessionHash` is `threadState_->parameters.sessionHash`. -/
def identityMembers (t : XMLRPCLoginThread) (password_hash sessionHash : String) :
    List (String × XMLRPCValue) :=
  if !t.authentication_ && t.callMethod_ == "login_to_simulator" then
    [("first", .str t.firstName_), ("last", .str t.lastName_), ("passwd", .str password_hash)]
  else if t.authentication_ && t.callMethod_ == "ClientAuthentication" then
    let account := t.authenticationLogin_ ++ "@" ++ t.authenticationAddress_ ++ ":"
      ++ t.authenticationPort_
    let loginuri := "" ++ t.worldAddress_ ++ ":" ++ t.worldPort_
    [("account", .str account), ("passwd", .str password_hash), ("loginuri", .str loginuri)]
  else if t.authentication_ && t.callMethod_ == "login_to_simulator" then
    let account := t.authenticationLogin_ ++ "@" ++ t.authenticationAddress_ ++ ":"
      ++ t.authenticationPort_
    let address := t.authenticationAddress_ ++ ":" ++ t.authenticationPort_
    let loginuri := if loginuriCondition t.worldAddress_ then "http://" else ""
    let loginuri := loginuri ++ t.worldAddress_ ++ ":" ++ t.worldPort_
    [("sessionhash", .str sessionHash), ("account", .str account),
     ("first", .str t.firstName_), ("last", .str t.lastName_), ("passwd", .str password_hash),
     ("AuthenticationAddress", .str address), ("loginuri", .str loginuri)]
  else []

/-- The call object as it stands when `call.Send()` is reached; `sessionHash` is the
value of `threadState_->parameters.sessionHash` at that time. -/
def buildCall (h : Host) (t : XMLRPCLoginThread) (sessionHash : String) : XMLRPCCall :=
  let password_hash := "$1$" ++ h.md5 t.password_
  let mac_hash := h.md5 h.macAddress
  let id0_hash := h.md5 h.id0
  let toAuth := t.authentication_ && t.callMethod_ == "ClientAuthentication"
  { address := if toAuth then t.authenticationAddress_ else t.worldAddress_
    port := if toAuth then t.authenticationPort_ else t.worldPort_
    method := t.callMethod_
    members := identityMembers t password_hash sessionHash
      ++ commonMembers mac_hash id0_hash
    options := loginOptions }

/-! ## Reading the reply -/

/-- Modelled from the spec: `XMLRPCEPI::GetReply<std::string>` is not part of the
sources.  Per the reply contract a reply maps field names to typed values and a
missing field is a failure: the call returns the string stored under `name` and throws
when the reply has no string of that name. -/
def GetReplyString (reply : List (String × XMLRPCValue)) (name : String) :
    Except XMLRPCException String :=
  match reply.lookup name with
  | some (.str s) => .ok s
  | _ => .error (.noSuchReply name)

/-- Modelled from the spec: `XMLRPCEPI::GetReply<int>` is not part of the sources; it
returns the integer stored under `name` and throws when the reply has no integer of
that name. -/
def GetReplyInt (reply : List (String × XMLRPCValue)) (name : String) :
    Except XMLRPCException Int :=
  match reply.lookup name with
  | some (.int i) => .ok i
  | _ => .error (.noSuchReply name)

/-- The statements `std::string gridUrl = call.GetReply("sim_ip"); if (gridUrl.size() != 0)
{ int port = call.GetReply("sim_port"); if (port > 0) { ... parameters.gridUrl = gridUrl; } }`
of the branch without authentication. -/
def readGridUrl (reply : List (String × XMLRPCValue)) (ts : ConnectionThreadState) :
    ConnectionThreadState × Except XMLRPCException Unit :=
  match GetReplyString reply "sim_ip" with
  | .error e => (ts, .error e)
  | .ok gridUrl =>
    if gridUrl.length != 0 then
      match GetReplyInt reply "sim_port" with
      | .error e => (ts, .error e)
      | .ok port =>
        if port > 0 then
          ({ ts with parameters := { ts.parameters with
                gridUrl := gridUrl ++ (":" ++ toString port) } }, .ok ())
        else (ts, .ok ())
    else (ts, .ok ())

/-- The check that closes the branch without authentication, and the two assignments
to `loginresult` that follow it: `false` inside the `if`, then `true` unconditionally. -/
def validateLogin (reply : List (String × XMLRPCValue)) (ts : ConnectionThreadState) :
    ConnectionThreadState × Except XMLRPCException Bool :=
  if ts.parameters.sessionID.ToString == "" || ts.parameters.agentID.ToString == ""
      || ts.parameters.circuitCode == 0 then
    match GetReplyString reply "message" with
    | .error e => (ts, .error e)
    | .ok m =>
      -- `loginresult = false;` is executed here and `loginresult = true;` right after the `if`
      ({ ts with errorMessage := m }, .ok true)
  else (ts, .ok true)

/-- The three reads `session_id`, `agent_id`, `circuit_code`, shared by the branch
without authentication and the `login_to_simulator` branch with authentication. -/
def readSession (reply : List (String × XMLRPCValue)) (ts : ConnectionThreadState) :
    ConnectionThreadState × Except XMLRPCException Unit :=
  match GetReplyString reply "session_id" with
  | .error e => (ts, .error e)
  | .ok sid =>
    let ts := { ts with parameters := { ts.parameters with
      sessionID := ts.parameters.sessionID.FromString sid } }
    match GetReplyString reply "agent_id" with
    | .error e => (ts, .error e)
    | .ok aid =>
      let ts := { ts with parameters := { ts.parameters with
        agentID := ts.parameters.agentID.FromString aid } }
      match GetReplyInt reply "circuit_code" with
      | .error e => (ts, .error e)
      | .ok code =>
        ({ ts with parameters := { ts.parameters with circuitCode := code } }, .ok ())

/-- The results of the authentication round: `sessionHash`, `gridUrl`,
`avatarStorageUrl`. -/
def readAuthentication (reply : List (String × XMLRPCValue)) (ts : ConnectionThreadState) :
    ConnectionThreadState × Except XMLRPCException Unit :=
  match GetReplyString reply "sessionHash" with
  | .error e => (ts, .error e)
  | .ok sh =>
    let ts := { ts with parameters := { ts.parameters with sessionHash := sh } }
    match GetReplyString reply "gridUrl" with
    | .error e => (ts, .error e)
    | .ok g =>
      let ts := { ts with parameters := { ts.parameters with gridUrl := g } }
      match GetReplyString reply "avatarStorageUrl" with
      | .error e => (ts, .error e)
      | .ok a =>
        ({ ts with parameters := { ts.parameters with avatarStorageUrl := a } }, .ok ())

/-- The body of the last `try` block: the value of `loginresult` at its end, or the
exception that left it, together with the writes made up to that point. -/
def readReply (t : XMLRPCLoginThread) (reply : List (String × XMLRPCValue))
    (ts : ConnectionThreadState) : ConnectionThreadState × Except XMLRPCException Bool :=
  if !t.authentication_ then
    match readSession reply ts with
    | (ts, .error e) => (ts, .error e)
    | (ts, .ok ()) =>
      match readGridUrl reply ts with
      | (ts, .error e) => (ts, .error e)
      | (ts, .ok ()) => validateLogin reply ts
  else if t.authentication_ && t.callMethod_ != "login_to_simulator" then
    match readAuthentication reply ts with
    | (ts, .error e) => (ts, .error e)
    | (ts, .ok ()) => (ts, .ok true)
  else if t.authentication_ && t.callMethod_ == "login_to_simulator" then
    match readSession reply ts with
    | (ts, .error e) => (ts, .error e)
    | (ts, .ok ()) => (ts, .ok true)
  else (ts, .ok false)

/-- The result of one `PerformXMLRPCLogin`: the shared record after it, the events it
added to the log, and either the returned `bool` or the exception that escaped. -/
structure PerformResult where
  ts : ConnectionThreadState
  log : List Event
  ret : Except XMLRPCException Bool

/-- The method `XMLRPCLoginThread::PerformXMLRPCLogin`, as call number `round` of the
run.  An exception thrown by `GetReply("message")` inside the last `catch` block is
not caught by anything and escapes. -/
def XMLRPCLoginThread.PerformXMLRPCLogin (h : Host) (round : Nat) (t : XMLRPCLoginThread)
    (ts : ConnectionThreadState) : PerformResult :=
  let call := buildCall h t ts.parameters.sessionHash
  let opened := Event.connect call.address call.port call.method
  match h.rpc round call with
  | .initError _ => { ts := ts, log := [opened], ret := .ok false }
  | .memberError _ => { ts := ts, log := [opened], ret := .ok false }
  | .sendError _ => { ts := ts, log := [opened, .send call], ret := .ok false }
  | .reply fields =>
    match readReply t fields ts with
    | (ts, .ok loginresult) => { ts := ts, log := [opened, .send call], ret := .ok loginresult }
    | (ts, .error _) =>
      match GetReplyString fields "message" with
      | .error e => { ts := ts, log := [opened, .send call], ret := .error e }
      | .ok m =>
        { ts := { ts with errorMessage := m }, log := [opened, .send call], ret := .ok false }

/-- How a run of the worker ended. -/
inductive Completion
  | returned
  | uncaught (e : XMLRPCException)
  | invalidPointer
  deriving DecidableEq, Repr

/-- The worker after a run, the log of the run, and how the run ended. -/
structure RunResult where
  thread : XMLRPCLoginThread
  log : List Event
  completion : Completion
  deriving DecidableEq, Repr

/-- The phase stored in the shared record after a run. -/
def RunResult.phase (r : RunResult) : Option State := r.thread.threadState_.map (·.state)

/-- The error text stored in the shared record after a run. -/
def RunResult.errorMessage (r : RunResult) : Option String :=
  r.thread.threadState_.map (·.errorMessage)

/-- The output parameters stored in the shared record after a run. -/
def RunResult.parameters (r : RunResult) : Option ClientParameters :=
  r.thread.threadState_.map (·.parameters)

/-- The calls opened during a run, as (address, port, method), in order. -/
def callsIssued : List Event → List (String × String × String)
  | [] => []
  | .connect a p m :: es => (a, p, m) :: callsIssued es
  | _ :: es => callsIssued es

/-- The calls for which `Send` was reached during a run, in order. -/
def callsSent : List Event → List XMLRPCCall
  | [] => []
  | .send c :: es => c :: callsSent es
  | _ :: es => callsSent es

/-- The method `XMLRPCLoginThread::operator()`.  A run that finds `beginLogin_` set
without a record to write to has no defined behaviour (`invalidPointer`). -/
def XMLRPCLoginThread.operatorCall (h : Host) (t : XMLRPCLoginThread) : RunResult :=
  if t.beginLogin_ then
    match t.threadState_ with
    | none => { thread := t, log := [], completion := .invalidPointer }
    | some ts =>
      let ts := { ts with state := State.STATE_WAITING_FOR_XMLRPC_REPLY }
      let r1 := t.PerformXMLRPCLogin h 0 ts
      let log := Event.setState State.STATE_WAITING_FOR_XMLRPC_REPLY :: r1.log
      match r1.ret with
      | .error e =>
        { thread := { t with threadState_ := some r1.ts }, log := log, completion := .uncaught e }
      | .ok success =>
        if success && !t.authentication_ then
          { thread := { t with
              threadState_ := some { r1.ts with state := State.STATE_XMLRPC_REPLY_RECEIVED }
              beginLogin_ := false }
            log := log ++ [.setState State.STATE_XMLRPC_REPLY_RECEIVED]
            completion := .returned }
        else if success && t.authentication_ then
          let ts := { r1.ts with state := State.STATE_XMLRPC_AUTH_REPLY_RECEIVED }
          let log := log ++ [.setState State.STATE_XMLRPC_AUTH_REPLY_RECEIVED]
          let t := { t with callMethod_ := "login_to_simulator" }
          let r2 := t.PerformXMLRPCLogin h 1 ts
          let log := log ++ r2.log
          match r2.ret with
          | .error e =>
            { thread := { t with threadState_ := some r2.ts }, log := log,
              completion := .uncaught e }
          | .ok success2 =>
            let final := if success2 then State.STATE_XMLRPC_REPLY_RECEIVED
              else State.STATE_LOGIN_FAILED
            { thread := { t with
                threadState_ := some { r2.ts with state := final }
                beginLogin_ := false }
              log := log ++ [.setState final]
              completion := .returned }
        else
          { thread := { t with
              threadState_ := some { r1.ts with state := State.STATE_LOGIN_FAILED }
              beginLogin_ := false }
            log := log ++ [.setState State.STATE_LOGIN_FAILED]
            completion := .returned }
  else { thread := t, log := [], completion := .returned }

/-! ## Concrete collaborators used to run the model -/

/-- A host whose peer answers the calls of a run from a list, in order, and refuses to
send once the list is used up. -/
def scriptedHost (answers : List RpcOutcome) : Host :=
  { md5 := fun s => "md5(" ++ s ++ ")"
    macAddress := "00:11:22:33:44:55"
    id0 := "disk0"
    rpc := fun n _ => answers.getD n (.sendError "no peer") }

/-- The reply of the login scenario: session "S1", agent "A1", circuit code 7 and
simulator 10.0.0.5:9010. -/
def scenarioReply : List (String × XMLRPCValue) :=
  [("session_id", .str "S1"), ("agent_id", .str "A1"), ("circuit_code", .int 7),
   ("sim_ip", .str "10.0.0.5"), ("sim_port", .int 9010)]

/-- The scenario reply without `circuit_code` and with a message. -/
def replyWithoutCircuitCode : List (String × XMLRPCValue) :=
  [("session_id", .str "S1"), ("agent_id", .str "A1"),
   ("sim_ip", .str "10.0.0.5"), ("sim_port", .int 9010), ("message", .str "no circuit")]

/-- The scenario reply with `circuit_code = 0` and a message. -/
def replyZeroCircuitCode : List (String × XMLRPCValue) :=
  [("session_id", .str "S1"), ("agent_id", .str "A1"), ("circuit_code", .int 0),
   ("sim_ip", .str "10.0.0.5"), ("sim_port", .int 9010), ("message", .str "bad circuit")]

/-- A reply of the authentication round that reports an error and no session hash. -/
def authenticationRefused : List (String × XMLRPCValue) :=
  [("login", .str "false"), ("message", .str "wrong password")]

/-- A reply of the authentication round that reports an error and carries neither a
session hash nor a message. -/
def authenticationRefusedWithoutMessage : List (String × XMLRPCValue) :=
  [("login", .str "false")]

/-- A reply of the authentication round that carries the three results. -/
def authenticationGranted : List (String × XMLRPCValue) :=
  [("sessionHash", .str "H1"), ("gridUrl", .str "http://grid.example.org"),
   ("avatarStorageUrl", .str "http://avatar.example.org")]

/-- A reply that has none of the login fields and an empty message. -/
def replyWithEmptyMessage : List (String × XMLRPCValue) := [("message", .str "")]

/-- A shared record as the caller hands it to `SetupXMLRPCLogin`. -/
def blankState : ConnectionThreadState :=
  { state := State.STATE_DISCONNECTED
    parameters := { sessionID := ⟨""⟩, agentID := ⟨""⟩, circuitCode := 0, gridUrl := "",
                    sessionHash := "", avatarStorageUrl := "" }
    errorMessage := "" }

/-- A worker set up for a direct login of "Jane Doe" to `example.org:9000`. -/
def directWorker : XMLRPCLoginThread :=
  (XMLRPCLoginThread.new false).SetupXMLRPCLogin "Jane" "Doe" "secret" "example.org" "9000"
    "login_to_simulator" blankState "" "" "" false

/-- A worker set up for an authenticated login through `auth.example.org:10001`. -/
def authWorker : XMLRPCLoginThread :=
  (XMLRPCLoginThread.new false).SetupXMLRPCLogin "Jane" "Doe" "secret" "example.org" "9000"
    "ClientAuthentication" blankState "jane" "auth.example.org" "10001" true

/-- A worker set up for an authenticated login whose world address is written with its
scheme. -/
def authWorkerWithScheme : XMLRPCLoginThread :=
  (XMLRPCLoginThread.new false).SetupXMLRPCLogin "Jane" "Doe" "secret" "http://example.org"
    "9000" "ClientAuthentication" blankState "jane" "auth.example.org" "10001" true

end OpenSimProtocol

namespace KristalliProtocol

/-! ## Data model of the transport connection manager -/

/-- The two transports named in the candidate table. -/
inductive SocketTransportLayer
  | SocketOverUDP
  | SocketOverTCP
  deriving DecidableEq, Repr

/-- One entry of the table `destinationPorts`. -/
structure DestinationPort where
  transport : SocketTransportLayer
  portNumber : Nat
  deriving DecidableEq, Repr

/-- The table `destinationPorts`; the entries inside the comment block of the source
are not part of it. -/
def destinationPorts : List DestinationPort :=
  [ { transport := .SocketOverUDP, portNumber := 2345 },
    { transport := .SocketOverTCP, portNumber := 2345 } ]

/-- The constant `cNumPortChoices = sizeof(destinationPorts) / sizeof(destinationPorts[0])`. -/
def cNumPortChoices : Nat := destinationPorts.length

/-- The states a kNet connection reports through `GetConnectionState()`. The source
names `ConnectionClosed`, `ConnectionPending` and `ConnectionOK`; the others stand for
the remaining phases of the connection state machine. -/
inductive ConnectionState
  | ConnectionPending
  | ConnectionOK
  | ConnectionDisconnecting
  | ConnectionPeerClosed
  | ConnectionClosed
  deriving DecidableEq, Repr

/-- A `MessageConnection` as far as the manager looks at it: an identity (the pointer),
the text of `GetEndPoint().ToString()` and the value of `GetConnectionState()`. -/
structure MessageConnection where
  id : Nat
  endPoint : String
  state : ConnectionState
  deriving DecidableEq, Repr

/-- Modelled from the spec: the reconnect timer (`PolledTimer`, declared outside the
sources) is a single-shot countdown.  `enabled` says whether it is armed and
`alarmTime` is the clock reading, in milliseconds, after which it fires. -/
structure PolledTimer where
  enabled : Bool
  alarmTime : Nat
  deriving DecidableEq, Repr

/-- The call `PolledTimer::Enabled`. -/
def PolledTimer.Enabled (t : PolledTimer) : Bool := t.enabled

/-- The call `PolledTimer::Test` at clock reading `now`: true once when an armed timer
has run out, which also disarms it. -/
def PolledTimer.Test (t : PolledTimer) (now : Nat) : Bool × PolledTimer :=
  if t.enabled && decide (t.alarmTime < now) then (true, { t with enabled := false })
  else (false, t)

/-- The call `PolledTimer::StartMSecs` at clock reading `now`. -/
def PolledTimer.StartMSecs (_t : PolledTimer) (now msecs : Nat) : PolledTimer :=
  { enabled := true, alarmTime := now + msecs }

/-- Ghost log of the calls the manager makes on its collaborators. -/
inductive NetEvent
  | CloseMessageConnection (id : Nat)
  | Connect (ip : String) (port : Nat) (transport : SocketTransportLayer)
  | ProcessMessages (id : Nat)
  | TimerTest
  | StartMSecs (msecs : Nat)
  deriving DecidableEq, Repr

/-- The behaviour of `network.Connect(ip, port, transport, this)`: the new connection,
or `none` for a null pointer. -/
abbrev NetworkConnect := String → Nat → SocketTransportLayer → Option MessageConnection

/-- The members of `KristalliProtocolModule` the session layer uses, and the ghost log.
`nextPortAttempt` is an `int` in the source; the values it takes are table indices. -/
structure KristalliProtocolModule where
  serverConnection : Option MessageConnection
  nextPortAttempt : Nat
  serverIp : String
  reconnectTimer : PolledTimer
  log : List NetEvent
  deriving DecidableEq, Repr

/-- The constructor: `serverConnection(0), nextPortAttempt(0)`, an empty `serverIp` and
a timer that is not armed. -/
def KristalliProtocolModule.new : KristalliProtocolModule :=
  { serverConnection := none, nextPortAttempt := 0, serverIp := "",
    reconnectTimer := { enabled := false, alarmTime := 0 }, log := [] }

/-- Modelled from the spec: `Connected()` is defined in the header, which is not part of
the sources; the manager is connected when it holds a connection whose state is
`ConnectionOK`. -/
def KristalliProtocolModule.Connected (m : KristalliProtocolModule) : Bool :=
  match m.serverConnection with
  | none => false
  | some c => c.state == ConnectionState.ConnectionOK

/-- The method `KristalliProtocolModule::Disconnect`. -/
def KristalliProtocolModule.Disconnect (m : KristalliProtocolModule) : KristalliProtocolModule :=
  let m := match m.serverConnection with
    | some c =>
      { m with log := m.log ++ [NetEvent.CloseMessageConnection c.id], serverConnection := none }
    | none => m
  { m with nextPortAttempt := 0, serverIp := "" }

/-- The method `KristalliProtocolModule::PerformConnection`.  The result is `none` when
`destinationPorts[nextPortAttempt]` would be read outside the table. -/
def KristalliProtocolModule.PerformConnection (net : NetworkConnect)
    (m : KristalliProtocolModule) : Option KristalliProtocolModule :=
  let m := match m.Connected, m.serverConnection with
    | true, some c =>
      { m with log := m.log ++ [NetEvent.CloseMessageConnection c.id], serverConnection := none }
    | _, _ => m
  match destinationPorts[m.nextPortAttempt]? with
  | none => none
  | some d =>
    some { m with
      serverConnection := net m.serverIp d.portNumber d.transport
      log := m.log ++ [NetEvent.Connect m.serverIp d.portNumber d.transport] }

/-- The method `KristalliProtocolModule::Connect`; the `port` argument is not used by
the source. -/
def KristalliProtocolModule.Connect (net : NetworkConnect) (ip : String) (_port : Nat)
    (m : KristalliProtocolModule) : Option KristalliProtocolModule :=
  let m := { m with serverIp := ip }
  let m :=
    match m.Connected, m.serverConnection with
    | true, some c => if c.endPoint != m.serverIp then m.Disconnect else m
    | _, _ => m
  if !m.Connected then m.PerformConnection net else some m

/-- The constant `cReconnectTimeout = 5 * 1000.f` converted to `int`. -/
def cReconnectTimeout : Nat := 5000

/-- The method `KristalliProtocolModule::Update`, run at clock reading `now`. -/
def KristalliProtocolModule.Update (net : NetworkConnect) (now : Nat)
    (m : KristalliProtocolModule) : Option KristalliProtocolModule :=
  let m := match m.serverConnection with
    | some c => { m with log := m.log ++ [NetEvent.ProcessMessages c.id] }
    | none => m
  let lost := match m.serverConnection with
    | none => true
    | some c => c.state == ConnectionState.ConnectionClosed
        || c.state == ConnectionState.ConnectionPending
  if lost && m.serverIp.length != 0 then
    let (fired, timer) := m.reconnectTimer.Test now
    let m := { m with reconnectTimer := timer, log := m.log ++ [NetEvent.TimerTest] }
    if fired then
      let m := { m with nextPortAttempt := (m.nextPortAttempt + 1) % cNumPortChoices }
      m.PerformConnection net
    else if !m.reconnectTimer.Enabled then
      some { m with
        reconnectTimer := m.reconnectTimer.StartMSecs now cReconnectTimeout
        log := m.log ++ [NetEvent.StartMSecs cReconnectTimeout] }
    else some m
  else some m

/-- A change of the live connection's state reported by the transport between two calls
of the manager; without a connection nothing changes. -/
def KristalliProtocolModule.transportNotify (s : ConnectionState)
    (m : KristalliProtocolModule) : KristalliProtocolModule :=
  { m with serverConnection := m.serverConnection.map (fun c => { c with state := s }) }

/-- One tick of the scheduler: what the network would answer and the clock reading. -/
structure Tick where
  net : NetworkConnect
  now : Nat

/-- A sequence of `Update` calls, one per tick, in order. -/
def KristalliProtocolModule.Updates :
    List Tick → KristalliProtocolModule → Option KristalliProtocolModule
  | [], m => some m
  | k :: ks, m =>
    match m.Update k.net k.now with
    | none => none
    | some m => KristalliProtocolModule.Updates ks m

/-- The first disjunct of the condition in `Update`: there is no connection, or its state
is `ConnectionClosed` or `ConnectionPending`. -/
def KristalliProtocolModule.connectionLost (m : KristalliProtocolModule) : Bool :=
  match m.serverConnection with
  | none => true
  | some c => c.state == ConnectionState.ConnectionClosed
      || c.state == ConnectionState.ConnectionPending

/-- The events of the first statement of `Update`: `ProcessMessages` on the connection
when there is one. -/
def KristalliProtocolModule.messagesProcessed (m : KristalliProtocolModule) : List NetEvent :=
  match m.serverConnection with
  | some c => [NetEvent.ProcessMessages c.id]
  | none => []

/-- The candidates of the `network.Connect` calls of a log, in order. -/
def attempts : List NetEvent → List DestinationPort
  | [] => []
  | .Connect _ port transport :: es => { transport := transport, portNumber := port } :: attempts es
  | _ :: es => attempts es

/-- The table entries that `k` successive advances of the candidate index select when
the index starts at `i`: entry `(i + 1) % cNumPortChoices` first. -/
def candidatesAfter : Nat → Nat → List DestinationPort
  | _, 0 => []
  | i, k + 1 =>
    (destinationPorts[(i + 1) % cNumPortChoices]?).toList
      ++ candidatesAfter ((i + 1) % cNumPortChoices) k

/-- The calls made on the manager and the notifications of the transport, as inputs of
a run. -/
inductive Op
  | Connect (net : NetworkConnect) (ip : String) (port : Nat)
  | Disconnect
  | Update (net : NetworkConnect) (now : Nat)
  | transportNotify (s : ConnectionState)

/-- One input applied to the manager. -/
def KristalliProtocolModule.step (m : KristalliProtocolModule) :
    Op → Option KristalliProtocolModule
  | .Connect net ip port => m.Connect net ip port
  | .Disconnect => some m.Disconnect
  | .Update net now => m.Update net now
  | .transportNotify s => some (m.transportNotify s)

/-- A sequence of inputs applied in order. -/
def KristalliProtocolModule.run :
    List Op → KristalliProtocolModule → Option KristalliProtocolModule
  | [], m => some m
  | op :: ops, m =>
    match m.step op with
    | none => none
    | some m => KristalliProtocolModule.run ops m

/-- The states a manager can be in: those a run from the constructor ends in. -/
def KristalliProtocolModule.Reachable (m : KristalliProtocolModule) : Prop :=
  ∃ ops, KristalliProtocolModule.run ops KristalliProtocolModule.new = some m

/-! ## Concrete collaborators used to run the model -/

/-- A network on which every `Connect` fails with a null pointer. -/
def refusingNetwork : NetworkConnect := fun _ _ _ => none

/-- Four ticks against the refusing network: arm the timer, let it fire, arm it again,
let it fire again. -/
def twoRetries : List Tick :=
  [ { net := refusingNetwork, now := 0 }, { net := refusingNetwork, now := 5001 },
    { net := refusingNetwork, now := 5002 }, { net := refusingNetwork, now := 10003 } ]

/-- A manager whose `Connect` to `addr` was refused: no connection, the address stored. -/
def refusedManager (addr : String) : KristalliProtocolModule :=
  { serverConnection := none
    nextPortAttempt := 0
    serverIp := addr
    reconnectTimer := { enabled := false, alarmTime := 0 }
    log := [NetEvent.Connect addr 2345 SocketTransportLayer.SocketOverUDP] }

/-- The refused manager after an `Update` at clock reading 0: the timer is armed for
5000. -/
def armedManager (addr : String) : KristalliProtocolModule :=
  { refusedManager addr with
    reconnectTimer := { enabled := true, alarmTime := 5000 }
    log := [NetEvent.Connect addr 2345 SocketTransportLayer.SocketOverUDP,
      NetEvent.TimerTest, NetEvent.StartMSecs 5000] }

/-- A network that answers every `Connect` with a pending connection numbered `id`
whose end point prints as the requested address. -/
def acceptingNetwork (id : Nat) : NetworkConnect :=
  fun ip _ _ => some { id := id, endPoint := ip, state := ConnectionState.ConnectionPending }

/-- A manager holding the established connection number 1 to `addr`, as left by
`Connect addr` on a new manager once the transport has reported `ConnectionOK`. -/
def connectedManager (addr : String) : KristalliProtocolModule :=
  { serverConnection := some { id := 1, endPoint := addr, state := ConnectionState.ConnectionOK }
    nextPortAttempt := 0
    serverIp := addr
    reconnectTimer := { enabled := false, alarmTime := 0 }
    log := [NetEvent.Connect addr 2345 SocketTransportLayer.SocketOverUDP] }

end KristalliProtocol

namespace RexLogic

/-! ## URL sanitation of the login handlers -/

/-- A `QUrl` as far as the handlers look at it: its text and the answer of `isValid()`. -/
structure QUrl where
  text : String
  isValid : Bool
  deriving DecidableEq, Repr

/-- The default-constructed `QUrl()`: empty and not valid. -/
def QUrl.empty : QUrl := { text := "", isValid := false }

/-- The constructor `QUrl(urlString)`. Qt is not part of the sources: which strings
parse to a valid URL is the input `urlValid`. -/
def QUrl.ofString (urlValid : String → Bool) (urlString : String) : QUrl :=
  { text := urlString, isValid := urlValid urlString }

/-- The call `urlString.midRef(0, 7).toString()`: the first seven characters, or all of
them when there are fewer. -/
def midRef07 (urlString : String) : String := String.mk (urlString.data.take 7)

/-- Lines 32 to 37 of `AbstractLoginHandler::ValidateServerUrl`: the string after the
`if`, and the lines logged on the way. -/
def schemeInserted (urlString : String) : String × List String :=
  let sceme := midRef07 urlString
  if sceme != "http://" then
    ("http://" ++ urlString, ["http:// was missing from url, corrected"])
  else (urlString, [])

/-- The method `AbstractLoginHandler::ValidateServerUrl`: the returned `QUrl` and the
lines given to `LogInfo`. -/
def ValidateServerUrl (urlValid : String → Bool) (urlString : String) : QUrl × List String :=
  let (urlString, logged) := schemeInserted urlString
  let returnUrl := QUrl.ofString urlValid urlString
  if returnUrl.isValid then (returnUrl, logged)
  else (QUrl.empty, logged ++ ["invalid url"])

/-! ## Credentials, sessions and the configuration store -/

/-- Modelled from the spec: the credential classes are declared in `LoginCredentials.h`,
which is not part of the sources.  Each variant carries the identity fields the handlers
set: first name, last name and password; account identity, password and authentication
URL; identity URL. -/
inductive Credentials
  | OpenSim (firstName lastName password : String)
  | RealXtend (identity password : String) (authenticationUrl : QUrl)
  | Taiga (identityUrl : String)
  deriving DecidableEq, Repr

/-- The three credential classes. -/
inductive CredentialsKind
  | OpenSim
  | RealXtend
  | Taiga
  deriving DecidableEq, Repr

/-- The three world-session classes. -/
inductive SessionKind
  | OpenSim
  | RealXtend
  | Taiga
  deriving DecidableEq, Repr

/-- The class of a credential object, as `dynamic_cast` sees it. -/
def Credentials.kind : Credentials → CredentialsKind
  | .OpenSim _ _ _ => .OpenSim
  | .RealXtend _ _ _ => .RealXtend
  | .Taiga _ => .Taiga

/-- Modelled from the spec: `GetIdentity()` of the credential classes (not part of the
sources): first and last name joined by a space, the account identity, the identity
URL. -/
def Credentials.GetIdentity : Credentials → String
  | .OpenSim firstName lastName _ => firstName ++ " " ++ lastName
  | .RealXtend identity _ _ => identity
  | .Taiga identityUrl => identityUrl

/-- Modelled from the spec: `GetPassword()` of the credential classes. -/
def Credentials.GetPassword : Credentials → String
  | .OpenSim _ _ password => password
  | .RealXtend _ password _ => password
  | .Taiga _ => ""

/-- A world session as far as the handlers look at it: the error text of its connection
thread state. -/
structure WorldSession where
  errorMessage : String
  deriving DecidableEq, Repr

/-- Modelled from the spec: the configuration manager is not part of the sources.  The
"Login" section is a key/value store. -/
abbrev ConfigStore := List (String × String)

/-- The call `HasKey("Login", key)`. -/
def ConfigStore.HasKey (c : ConfigStore) (key : String) : Bool := (c.lookup key).isSome

/-- The call `SetSetting("Login", key, value)`: the value of the key is replaced. -/
def ConfigStore.SetSetting (c : ConfigStore) (key value : String) : ConfigStore :=
  if c.HasKey key then c.map (fun e => if e.1 == key then (key, value) else e)
  else c ++ [(key, value)]

/-- The call `DeclareSetting("Login", key, value)`: the key is created with the value
when it does not exist. -/
def ConfigStore.DeclareSetting (c : ConfigStore) (key value : String) : ConfigStore :=
  if c.HasKey key then c else c ++ [(key, value)]

/-- Ghost log of what a login handler does. -/
inductive HandlerEvent
  | LogInfo (line : String)
  | deleteCredentials (kind : CredentialsKind)
  | newCredentials (kind : CredentialsKind)
  | LoginStarted
  | InstantiateWorldSession
  | UnregisterCurrentProtocolModule
  | SetCurrentProtocolType (protocol : String)
  | SetConnectionType (connection : String)
  | StoreCredentials (identity password authentication : String)
  | deleteSession (kind : SessionKind)
  | newSession (kind : SessionKind)
  | StartSession (kind : SessionKind)
  | SetSetting (key value : String)
  | DeclareSetting (key value : String)
  deriving DecidableEq, Repr

/-- What the handlers call and do not define: Qt (`QUrl` validity, `authority()`,
`host()`, `toString()`), `PrepareCurrentProtocolModule()` of the server connection, and
`StartSession` of the world sessions, which returns its result, the entry point URL as
it leaves it (it receives a pointer to it) and the error text of the session. -/
structure Services where
  urlValid : String → Bool
  authority : QUrl → String
  host : QUrl → String
  urlToString : QUrl → String
  PrepareCurrentProtocolModule : Bool
  StartSession : SessionKind → Option Credentials → QUrl → Bool × QUrl × String

/-- The value `map[key]` of a `QMap<QString,QString>`: the empty string for a key that
is not in the map. -/
def mapValue (map : List (String × String)) (key : String) : String :=
  (map.lookup key).getD ""

/-- The pieces between the occurrences of `sep`, empty pieces included. -/
def splitChars (sep : Char) : List Char → List (List Char)
  | [] => [[]]
  | c :: cs =>
    if c = sep then [] :: splitChars sep cs
    else
      match splitChars sep cs with
      | [] => [[c]]
      | piece :: pieces => (c :: piece) :: pieces

/-- The call `username.split(" ")` of `QString`, which keeps empty parts. -/
def splitOnSpace (s : String) : List String := (splitChars ' ' s.data).map String.mk

/-! ## The handler for direct and authenticated logins -/

/-- The members of `OpenSimLoginHandler` (with those of `AbstractLoginHandler`), the
configuration store it reaches through the framework, the ghost log, and ghost counts of
the credential and session objects that were created and not deleted. -/
structure OpenSimLoginHandler where
  credentials_ : Option Credentials
  server_entry_point_url_ : QUrl
  opensim_world_session_ : Option WorldSession
  realxtend_world_session_ : Option WorldSession
  config : ConfigStore
  log : List HandlerEvent
  liveCredentials : Nat
  liveOpenSimSessions : Nat
  liveRealXtendSessions : Nat
  deriving DecidableEq, Repr

/-- The constructor: null pointers and an empty URL. -/
def OpenSimLoginHandler.new (config : ConfigStore) : OpenSimLoginHandler :=
  { credentials_ := none, server_entry_point_url_ := QUrl.empty,
    opensim_world_session_ := none, realxtend_world_session_ := none,
    config := config, log := [], liveCredentials := 0,
    liveOpenSimSessions := 0, liveRealXtendSessions := 0 }

/-- The statements `SAFE_DELETE(credentials_); credentials_ = new ...` that open both
entry points. -/
def OpenSimLoginHandler.replaceCredentials (hd : OpenSimLoginHandler) (fresh : Credentials) :
    OpenSimLoginHandler :=
  let hd := match hd.credentials_ with
    | some old =>
      { hd with credentials_ := none, liveCredentials := hd.liveCredentials - 1
                log := hd.log ++ [HandlerEvent.deleteCredentials old.kind] }
    | none => hd
  { hd with credentials_ := some fresh, liveCredentials := hd.liveCredentials + 1
            log := hd.log ++ [HandlerEvent.newCredentials fresh.kind] }

/-- The statement `if (HasKey(key)) SetSetting(key, setValue); else DeclareSetting(key,
declareValue);`. -/
def OpenSimLoginHandler.saveSetting (hd : OpenSimLoginHandler)
    (key setValue declareValue : String) : OpenSimLoginHandler :=
  if hd.config.HasKey key then
    { hd with config := hd.config.SetSetting key setValue
              log := hd.log ++ [HandlerEvent.SetSetting key setValue] }
  else
    { hd with config := hd.config.DeclareSetting key declareValue
              log := hd.log ++ [HandlerEvent.DeclareSetting key declareValue] }

/-- The method `OpenSimLoginHandler::InstantiateWorldSession`. -/
def OpenSimLoginHandler.InstantiateWorldSession (w : Services) (hd : OpenSimLoginHandler) :
    OpenSimLoginHandler :=
  let hd := { hd with log := hd.log ++ [HandlerEvent.InstantiateWorldSession] }
  match hd.credentials_ with
  | some (.OpenSim firstName lastName password) =>
    let osCredentials := Credentials.OpenSim firstName lastName password
    let hd := { hd with log := hd.log ++
      [HandlerEvent.UnregisterCurrentProtocolModule,
       HandlerEvent.SetCurrentProtocolType "OpenSim",
       HandlerEvent.SetConnectionType "DirectConnection",
       HandlerEvent.StoreCredentials osCredentials.GetIdentity osCredentials.GetPassword ""] }
    if w.PrepareCurrentProtocolModule then
      let hd := match hd.opensim_world_session_ with
        | some _ =>
          { hd with opensim_world_session_ := none
                    liveOpenSimSessions := hd.liveOpenSimSessions - 1
                    log := hd.log ++ [HandlerEvent.deleteSession SessionKind.OpenSim] }
        | none => hd
      let started := w.StartSession SessionKind.OpenSim (some osCredentials)
        hd.server_entry_point_url_
      let hd := { hd with
        opensim_world_session_ := some { errorMessage := started.2.2 }
        liveOpenSimSessions := hd.liveOpenSimSessions + 1
        server_entry_point_url_ := started.2.1
        log := hd.log ++ [HandlerEvent.newSession SessionKind.OpenSim,
          HandlerEvent.StartSession SessionKind.OpenSim] }
      if started.1 then
        let hd := hd.saveSetting "server" (w.authority hd.server_entry_point_url_)
          (w.authority hd.server_entry_point_url_)
        hd.saveSetting "username" osCredentials.GetIdentity osCredentials.GetIdentity
      else hd
    else hd
  | some (.RealXtend identity password authenticationUrl) =>
    let rexCredentials := Credentials.RealXtend identity password authenticationUrl
    let hd := { hd with log := hd.log ++
      [HandlerEvent.UnregisterCurrentProtocolModule,
       HandlerEvent.SetCurrentProtocolType "OpenSim",
       HandlerEvent.SetConnectionType "AuthenticationConnection",
       HandlerEvent.StoreCredentials rexCredentials.GetIdentity rexCredentials.GetPassword
         (w.urlToString authenticationUrl)] }
    if w.PrepareCurrentProtocolModule then
      let hd := match hd.realxtend_world_session_ with
        | some _ =>
          { hd with realxtend_world_session_ := none
                    liveRealXtendSessions := hd.liveRealXtendSessions - 1
                    log := hd.log ++ [HandlerEvent.deleteSession SessionKind.RealXtend] }
        | none => hd
      let started := w.StartSession SessionKind.RealXtend (some rexCredentials)
        hd.server_entry_point_url_
      let hd := { hd with
        realxtend_world_session_ := some { errorMessage := started.2.2 }
        liveRealXtendSessions := hd.liveRealXtendSessions + 1
        server_entry_point_url_ := started.2.1
        log := hd.log ++ [HandlerEvent.newSession SessionKind.RealXtend,
          HandlerEvent.StartSession SessionKind.RealXtend] }
      if started.1 then
        let hd := hd.saveSetting "rex_server" (w.authority hd.server_entry_point_url_)
          (w.authority hd.server_entry_point_url_)
        let hd := hd.saveSetting "auth_server" (w.authority authenticationUrl)
          (w.host authenticationUrl)
        hd.saveSetting "auth_name" rexCredentials.GetIdentity rexCredentials.GetIdentity
      else hd
    else hd
  | _ => hd

/-- The lines a `ValidateServerUrl` call logs, as handler events. -/
def logged (lines : List String) : List HandlerEvent := lines.map HandlerEvent.LogInfo

/-- The method `OpenSimLoginHandler::ProcessOpenSimLogin`. -/
def OpenSimLoginHandler.ProcessOpenSimLogin (w : Services) (map : List (String × String))
    (hd : OpenSimLoginHandler) : OpenSimLoginHandler :=
  let hd := hd.replaceCredentials (Credentials.OpenSim "" "" "")
  let username := mapValue map "Username"
  let firstAndLast := splitOnSpace username
  if firstAndLast.length == 2 then
    let osCredentials := Credentials.OpenSim (firstAndLast.getD 0 "") (firstAndLast.getD 1 "")
      (mapValue map "Password")
    let validated := ValidateServerUrl w.urlValid (mapValue map "WorldAddress")
    let hd := { hd with
      credentials_ := some osCredentials
      server_entry_point_url_ := validated.1
      log := hd.log ++ logged validated.2 }
    if hd.server_entry_point_url_.isValid then
      OpenSimLoginHandler.InstantiateWorldSession w
        { hd with log := hd.log ++ [HandlerEvent.LoginStarted] }
    else hd
  else
    { hd with log := hd.log ++ [HandlerEvent.LogInfo
        "Username was not in form firstname lastname, could not perform login"] }

/-- The method `OpenSimLoginHandler::ProcessRealXtendLogin`. -/
def OpenSimLoginHandler.ProcessRealXtendLogin (w : Services) (map : List (String × String))
    (hd : OpenSimLoginHandler) : OpenSimLoginHandler :=
  let hd := hd.replaceCredentials (Credentials.RealXtend "" "" QUrl.empty)
  let authentication := ValidateServerUrl w.urlValid (mapValue map "AuthenticationAddress")
  let rexCredentials := Credentials.RealXtend (mapValue map "Username")
    (mapValue map "Password") authentication.1
  let validated := ValidateServerUrl w.urlValid (mapValue map "WorldAddress")
  let hd := { hd with
    credentials_ := some rexCredentials
    server_entry_point_url_ := validated.1
    log := hd.log ++ logged authentication.2 ++ logged validated.2 }
  if hd.server_entry_point_url_.isValid then
    OpenSimLoginHandler.InstantiateWorldSession w
      { hd with log := hd.log ++ [HandlerEvent.LoginStarted] }
  else hd

/-! ## The handler for URL logins -/

/-- The members of `TaigaLoginHandler` (with those of `AbstractLoginHandler`), the
configuration store, the ghost log and the ghost counts of live objects. -/
structure TaigaLoginHandler where
  credentials_ : Option Credentials
  server_entry_point_url_ : QUrl
  taiga_world_session_ : Option WorldSession
  config : ConfigStore
  log : List HandlerEvent
  liveCredentials : Nat
  liveSessions : Nat
  deriving DecidableEq, Repr

/-- The constructor: `credentials_ = new ProtocolUtilities::TaigaCredentials()`. -/
def TaigaLoginHandler.new (config : ConfigStore) : TaigaLoginHandler :=
  { credentials_ := some (Credentials.Taiga ""), server_entry_point_url_ := QUrl.empty,
    taiga_world_session_ := none, config := config,
    log := [HandlerEvent.newCredentials CredentialsKind.Taiga],
    liveCredentials := 1, liveSessions := 0 }

/-- The method `TaigaLoginHandler::InstantiateWorldSession`. -/
def TaigaLoginHandler.InstantiateWorldSession (w : Services) (hd : TaigaLoginHandler) :
    TaigaLoginHandler :=
  let hd := { hd with log := hd.log ++
    [HandlerEvent.InstantiateWorldSession,
     HandlerEvent.UnregisterCurrentProtocolModule,
     HandlerEvent.SetCurrentProtocolType "Taiga",
     HandlerEvent.SetConnectionType "DirectConnection"] }
  let hd := match hd.credentials_ with
    | some (.Taiga identityUrl) =>
      { hd with log := hd.log ++
        [HandlerEvent.StoreCredentials (Credentials.Taiga identityUrl).GetIdentity "" ""] }
    | _ => hd
  if w.PrepareCurrentProtocolModule then
    let hd := match hd.taiga_world_session_ with
      | some _ =>
        { hd with taiga_world_session_ := none
                  liveSessions := hd.liveSessions - 1
                  log := hd.log ++ [HandlerEvent.deleteSession SessionKind.Taiga] }
      | none => hd
    let started := w.StartSession SessionKind.Taiga hd.credentials_ hd.server_entry_point_url_
    { hd with
      taiga_world_session_ := some { errorMessage := started.2.2 }
      liveSessions := hd.liveSessions + 1
      server_entry_point_url_ := started.2.1
      log := hd.log ++ [HandlerEvent.newSession SessionKind.Taiga,
        HandlerEvent.StartSession SessionKind.Taiga] }
  else hd

/-- The statement `dynamic_cast<TaigaCredentials *>(credentials_)->SetIdentityUrl(url)`:
no result when the cast gives a null pointer. -/
def TaigaLoginHandler.SetIdentityUrl (hd : TaigaLoginHandler) (url : String) :
    Option TaigaLoginHandler :=
  match hd.credentials_ with
  | some (.Taiga _) => some { hd with credentials_ := some (Credentials.Taiga url) }
  | _ => none

/-- The method `TaigaLoginHandler::ProcessCommandParameterLogin`. -/
def TaigaLoginHandler.ProcessCommandParameterLogin (w : Services) (entry_point_url : String)
    (hd : TaigaLoginHandler) : Option TaigaLoginHandler :=
  let validated := ValidateServerUrl w.urlValid entry_point_url
  let hd := { hd with server_entry_point_url_ := validated.1
                      log := hd.log ++ logged validated.2 }
  match hd.SetIdentityUrl "NotNeeded" with
  | none => none
  | some hd =>
    if hd.server_entry_point_url_.isValid then
      some (TaigaLoginHandler.InstantiateWorldSession w
        { hd with log := hd.log ++ [HandlerEvent.LoginStarted] })
    else some hd

/-- The call `QString::indexOf(pat, 0)` on the characters: the first position at or
after `i` where `pat` occurs, or -1. -/
def indexOfFrom (pat : List Char) : List Char → Nat → Int
  | [], i => if pat = [] then i else -1
  | c :: cs, i => if pat.isPrefixOf (c :: cs) then i else indexOfFrom pat cs (i + 1)

/-- The call `QString::lastIndexOf(pat)` on the characters: the last position where
`pat` occurs, or -1 (passed as the initial `found`). -/
def lastIndexOfFrom (pat : List Char) : List Char → Nat → Int → Int
  | [], i, found => if pat = [] then i else found
  | c :: cs, i, found =>
    lastIndexOfFrom pat cs (i + 1) (if pat.isPrefixOf (c :: cs) then i else found)

/-- The call `QString::midRef(position, n).toString()`, with the clamping Qt 4 applies to
its two arguments. -/
def midRef (s : String) (position n : Int) : String :=
  let size : Int := s.data.length
  if position ≥ size then ""
  else
    let n := if n < 0 then size - position else n
    let n := if position < 0 then n + position else n
    let position := if position < 0 then 0 else position
    let n := if n + position > size then size - position else n
    String.mk ((s.data.drop position.toNat).take n.toNat)

/-- The method `TaigaLoginHandler::ProcessWebLogin`; `returnValue` is the text the web
frame gives for `ReturnSuccessValue()`. -/
def TaigaLoginHandler.ProcessWebLogin (w : Services) (returnValue : String)
    (hd : TaigaLoginHandler) : Option TaigaLoginHandler :=
  let pos1 := indexOfFrom "http://".data returnValue.data 0
  let pos2 := indexOfFrom "?".data returnValue.data 0
  let entry_point_url := midRef returnValue pos1 (pos2 - pos1)
  let pos1 := lastIndexOfFrom "&".data returnValue.data 0 (-1)
  let identityUrl := midRef returnValue (pos1 + 1) (returnValue.data.length - 1)
  match hd.SetIdentityUrl identityUrl with
  | none => none
  | some hd =>
    let validated := ValidateServerUrl w.urlValid entry_point_url
    let hd := { hd with server_entry_point_url_ := validated.1
                        log := hd.log ++ logged validated.2 }
    if hd.server_entry_point_url_.isValid then
      some (TaigaLoginHandler.InstantiateWorldSession w
        { hd with log := hd.log ++ [HandlerEvent.LoginStarted] })
    else some hd

/-! ## Predicates on the ghost state of the handlers -/

/-- The events that create or delete a credential object. -/
def HandlerEvent.isCredentialsEvent : HandlerEvent → Bool
  | .newCredentials _ => true
  | .deleteCredentials _ => true
  | _ => false

/-- The events that create or delete a world-session object. -/
def HandlerEvent.isSessionEvent : HandlerEvent → Bool
  | .newSession _ => true
  | .deleteSession _ => true
  | _ => false

/-- The session events of a call that creates a world session of class `kind`, as the
spec words them: the object the pointer held before, if there was one, is discarded
first, and then the new object is created. -/
def discardThenCreate (kind : SessionKind) (previous : Option WorldSession) :
    List HandlerEvent :=
  (match previous with
    | some _ => [HandlerEvent.deleteSession kind]
    | none => [])
  ++ [HandlerEvent.newSession kind]

/-- The number of objects a pointer holds: one when it is set, none when it is null. -/
def held {α : Type} (pointer : Option α) : Nat := if pointer.isSome then 1 else 0

/-- Every live credential or session object of the handler is the one its pointer
holds. -/
def OpenSimLoginHandler.Tidy (hd : OpenSimLoginHandler) : Prop :=
  hd.liveCredentials = held hd.credentials_
  ∧ hd.liveOpenSimSessions = held hd.opensim_world_session_
  ∧ hd.liveRealXtendSessions = held hd.realxtend_world_session_

/-- Every live credential or session object of the handler is the one its pointer
holds. -/
def TaigaLoginHandler.Tidy (hd : TaigaLoginHandler) : Prop :=
  hd.liveCredentials = held hd.credentials_
  ∧ hd.liveSessions = held hd.taiga_world_session_

/-! ## Concrete collaborators used to run the handlers -/

/-- Services with a small URL reader: a URL is valid when it has no space and something
follows "http://"; its authority is what stands between "http://" and the next "/", its
host the authority up to the first ":".  The protocol module is prepared or not, and the
session starts or not, as the two arguments say. -/
def exampleServices (prepared started : Bool) : Services :=
  { urlValid := fun s => s.data.all (fun c => c != ' ') && decide (7 < s.data.length)
    authority := fun u => String.mk ((u.text.data.drop 7).takeWhile (fun c => c != '/'))
    host := fun u => String.mk (((u.text.data.drop 7).takeWhile (fun c => c != '/')).takeWhile
      (fun c => c != ':'))
    urlToString := fun u => u.text
    PrepareCurrentProtocolModule := prepared
    StartSession := fun _ _ url => (started, url, if started then "" else "login failed") }

/-- The fields of a direct login of "Jane Doe" to `example.org:9000`. -/
def directLoginFields : List (String × String) :=
  [("Username", "Jane Doe"), ("Password", "secret"), ("WorldAddress", "example.org:9000")]

/-- The fields of an authenticated login through `auth.example.org:10001`. -/
def authenticatedLoginFields : List (String × String) :=
  [("Username", "jane"), ("Password", "secret"), ("WorldAddress", "example.org:9000"),
   ("AuthenticationAddress", "auth.example.org:10001")]

/-- The fields of an authenticated login whose authentication address is not a URL. -/
def badAuthenticationFields : List (String × String) :=
  [("Username", "jane"), ("Password", "secret"), ("WorldAddress", "example.org:9000"),
   ("AuthenticationAddress", "not a url")]

end RexLogic

/-! # Theorems -/

namespace OpenSimProtocol

theorem length_ne_zero_of_ne_empty (s : String) (hs : s ≠ "") : (s.length != 0) = true := by
  have : s.length ≠ 0 := by
    intro h0
    apply hs
    have hd : s.data = [] := List.length_eq_zero.mp h0
    exact String.ext hd
  simpa using this

theorem readSession_ok (r : List (String × XMLRPCValue)) (ts : ConnectionThreadState)
    (sid aid : String) (c : Int)
    (hsid : r.lookup "session_id" = some (.str sid))
    (haid : r.lookup "agent_id" = some (.str aid))
    (hc : r.lookup "circuit_code" = some (.int c)) :
    readSession r ts =
      ({ ts with parameters := { ts.parameters with
          sessionID := ⟨sid⟩, agentID := ⟨aid⟩, circuitCode := c } }, .ok ()) := by
  simp [readSession, GetReplyString, GetReplyInt, hsid, haid, hc, RexUUID.FromString]

theorem readSession_no_code (r : List (String × XMLRPCValue)) (ts : ConnectionThreadState)
    (hc : r.lookup "circuit_code" = none) :
    ∃ ts1 e, readSession r ts = (ts1, .error e) := by
  unfold readSession
  cases h1 : GetReplyString r "session_id" with
  | error e => exact ⟨_, _, rfl⟩
  | ok sid =>
    cases h2 : GetReplyString r "agent_id" with
    | error e => exact ⟨_, _, rfl⟩
    | ok aid =>
      simp [GetReplyInt, hc]

theorem callsIssued_append (a b : List Event) :
    callsIssued (a ++ b) = callsIssued a ++ callsIssued b := by
  induction a with
  | nil => rfl
  | cons e es ih => cases e <;> simp [callsIssued, ih]

theorem callsSent_append (a b : List Event) :
    callsSent (a ++ b) = callsSent a ++ callsSent b := by
  induction a with
  | nil => rfl
  | cons e es ih => cases e <;> simp [callsSent, ih]

/-- One `PerformXMLRPCLogin` opens exactly one call, whatever the peer does. -/
theorem perform_callsIssued (h : Host) (n : Nat) (t : XMLRPCLoginThread)
    (ts : ConnectionThreadState) :
    callsIssued (t.PerformXMLRPCLogin h n ts).log =
      [((buildCall h t ts.parameters.sessionHash).address,
        (buildCall h t ts.parameters.sessionHash).port,
        (buildCall h t ts.parameters.sessionHash).method)] := by
  unfold XMLRPCLoginThread.PerformXMLRPCLogin
  simp only []
  split
  · rfl
  · rfl
  · rfl
  · split
    · rfl
    · split <;> rfl

/-- One `PerformXMLRPCLogin` reaches `Send` at most once, with the call it built. -/
theorem perform_callsSent (h : Host) (n : Nat) (t : XMLRPCLoginThread)
    (ts : ConnectionThreadState) :
    callsSent (t.PerformXMLRPCLogin h n ts).log = []
    ∨ callsSent (t.PerformXMLRPCLogin h n ts).log = [buildCall h t ts.parameters.sessionHash] := by
  unfold XMLRPCLoginThread.PerformXMLRPCLogin
  simp only []
  split
  · left; rfl
  · left; rfl
  · right; rfl
  · split
    · right; rfl
    · split <;> (right; rfl)

/-- One `PerformXMLRPCLogin` reaches `Send` exactly when neither `Connect`/`CreateCall`
nor an `AddMember` threw, and then with the call it built. -/
theorem perform_callsSent_exact (h : Host) (n : Nat) (t : XMLRPCLoginThread)
    (ts : ConnectionThreadState) :
    callsSent (t.PerformXMLRPCLogin h n ts).log
      = if (h.rpc n (buildCall h t ts.parameters.sessionHash)).reachesSend
        then [buildCall h t ts.parameters.sessionHash] else [] := by
  unfold XMLRPCLoginThread.PerformXMLRPCLogin
  simp only []
  split
  · rename_i hr
    simp [hr, RpcOutcome.reachesSend, callsSent]
  · rename_i hr
    simp [hr, RpcOutcome.reachesSend, callsSent]
  · rename_i hr
    simp [hr, RpcOutcome.reachesSend, callsSent]
  · rename_i hr
    simp only [hr, RpcOutcome.reachesSend, if_true]
    split
    · rfl
    · split <;> rfl

/-- A round that returned `true` had its call sent. -/
theorem perform_ok_sent (h : Host) (n : Nat) (t : XMLRPCLoginThread)
    (ts : ConnectionThreadState) (hok : (t.PerformXMLRPCLogin h n ts).ret = .ok true) :
    callsSent (t.PerformXMLRPCLogin h n ts).log = [buildCall h t ts.parameters.sessionHash] := by
  unfold XMLRPCLoginThread.PerformXMLRPCLogin at hok ⊢
  simp only [] at hok ⊢
  split
  · rename_i hr
    simp [hr] at hok
  · rename_i hr
    simp [hr] at hok
  · rfl
  · split
    · rfl
    · split <;> rfl

/-- No `PerformXMLRPCLogin` writes the phase: its log has no `setState`. -/
theorem perform_no_setState (h : Host) (n : Nat) (t : XMLRPCLoginThread)
    (ts : ConnectionThreadState) (s : State) :
    Event.setState s ∉ (t.PerformXMLRPCLogin h n ts).log := by
  unfold XMLRPCLoginThread.PerformXMLRPCLogin
  simp only []
  split
  · simp
  · simp
  · simp
  · split
    · simp
    · split <;> simp

/-- With authentication on, the reply is never read to the result `false`: a round
fails only through an exception. -/
theorem readReply_auth_ne_false (t : XMLRPCLoginThread) (r : List (String × XMLRPCValue))
    (ts ts1 : ConnectionThreadState) (hauth : t.authentication_ = true) :
    readReply t r ts ≠ (ts1, .ok false) := by
  unfold readReply
  simp only [hauth]
  by_cases hm : t.callMethod_ = "login_to_simulator"
  · simp [hm]
    split <;> simp
  · simp [hm]
    split <;> simp

/-- C1: a direct login whose reply carries `circuit_code = 0` (with a session id, an agent
id and a message) ends in `STATE_XMLRPC_REPLY_RECEIVED` with `circuitCode = 0`: the
failed check stores the message but the result is overwritten with `true`. -/
theorem C1_zero_circuit_code_ends_in_reply_received :
    (directWorker.operatorCall (scriptedHost [.reply replyZeroCircuitCode])).phase
      = some State.STATE_XMLRPC_REPLY_RECEIVED
    ∧ ((directWorker.operatorCall (scriptedHost [.reply replyZeroCircuitCode])).parameters.map
        (·.circuitCode)) = some 0
    ∧ (directWorker.operatorCall (scriptedHost [.reply replyZeroCircuitCode])).errorMessage
      = some "bad circuit" := by
  decide

/-- C2: a worker set up for a direct login (authentication off) whose reply has no
`circuit_code` and has the message field `m` ends in `STATE_LOGIN_FAILED` with
`errorMessage = m`. -/
theorem C2_missing_circuit_code_fails_with_message (h : Host) (t : XMLRPCLoginThread)
    (ts : ConnectionThreadState) (r : List (String × XMLRPCValue)) (m : String)
    (hbegin : t.beginLogin_ = true) (hts : t.threadState_ = some ts)
    (hauth : t.authentication_ = false)
    (hreply : h.rpc 0 (buildCall h t ts.parameters.sessionHash) = .reply r)
    (hcode : r.lookup "circuit_code" = none)
    (hmsg : r.lookup "message" = some (.str m)) :
    (t.operatorCall h).phase = some State.STATE_LOGIN_FAILED
    ∧ (t.operatorCall h).errorMessage = some m
    ∧ (t.operatorCall h).completion = Completion.returned := by
  obtain ⟨ts1, e, he⟩ := readSession_no_code r
    { ts with state := State.STATE_WAITING_FOR_XMLRPC_REPLY } hcode
  simp [XMLRPCLoginThread.operatorCall, XMLRPCLoginThread.PerformXMLRPCLogin, hbegin, hts,
    hauth, hreply, readReply, he, GetReplyString, hmsg, RunResult.phase,
    RunResult.errorMessage]

/-- Witness of C2: the scenario reply without `circuit_code`, message "no circuit". -/
theorem C2_missing_circuit_code_fails_with_message_witness :
    (directWorker.operatorCall (scriptedHost [.reply replyWithoutCircuitCode])).phase
      = some State.STATE_LOGIN_FAILED
    ∧ (directWorker.operatorCall (scriptedHost [.reply replyWithoutCircuitCode])).errorMessage
      = some "no circuit"
    ∧ (directWorker.operatorCall (scriptedHost [.reply replyWithoutCircuitCode])).completion
      = Completion.returned :=
  C2_missing_circuit_code_fails_with_message
    (scriptedHost [.reply replyWithoutCircuitCode]) directWorker
    { blankState with state := State.STATE_INIT_XMLRPC } replyWithoutCircuitCode "no circuit"
    (by decide) (by decide) (by decide) (by decide) (by decide) (by decide)

/-- C3: a worker set up for a direct login whose reply has non-empty `session_id` and
`agent_id`, `circuit_code = c` with `c ≠ 0`, a non-empty `sim_ip = ip` and
`sim_port = p > 0` ends in `STATE_XMLRPC_REPLY_RECEIVED` with `circuitCode = c` and
`gridUrl = ip ++ ":" ++ decimal p`. -/
theorem C3_direct_login_success (h : Host) (t : XMLRPCLoginThread)
    (ts : ConnectionThreadState) (r : List (String × XMLRPCValue))
    (sid aid ip : String) (c p : Int)
    (hbegin : t.beginLogin_ = true) (hts : t.threadState_ = some ts)
    (hauth : t.authentication_ = false)
    (hreply : h.rpc 0 (buildCall h t ts.parameters.sessionHash) = .reply r)
    (hsid : r.lookup "session_id" = some (.str sid)) (hsid0 : sid ≠ "")
    (haid : r.lookup "agent_id" = some (.str aid)) (haid0 : aid ≠ "")
    (hc : r.lookup "circuit_code" = some (.int c)) (hc0 : c ≠ 0)
    (hip : r.lookup "sim_ip" = some (.str ip)) (hip0 : ip ≠ "")
    (hp : r.lookup "sim_port" = some (.int p)) (hp0 : 0 < p) :
    (t.operatorCall h).phase = some State.STATE_XMLRPC_REPLY_RECEIVED
    ∧ ((t.operatorCall h).parameters.map (·.circuitCode)) = some c
    ∧ ((t.operatorCall h).parameters.map (·.gridUrl)) = some (ip ++ ":" ++ toString p)
    ∧ (t.operatorCall h).completion = Completion.returned := by
  have hlen := length_ne_zero_of_ne_empty ip hip0
  have hs := readSession_ok r { ts with state := State.STATE_WAITING_FOR_XMLRPC_REPLY }
    sid aid c hsid haid hc
  simp [XMLRPCLoginThread.operatorCall, XMLRPCLoginThread.PerformXMLRPCLogin, hbegin, hts,
    hauth, hreply, readReply, hs, readGridUrl, validateLogin, GetReplyString, GetReplyInt,
    hip, hp, hp0, hlen, RexUUID.ToString, hsid0, haid0, hc0, RunResult.phase,
    RunResult.parameters, String.append_assoc]

/-- Witness of C3: the scenario `sim_ip = "10.0.0.5"`, `sim_port = 9010`,
`circuit_code = 7` gives `gridUrl = "10.0.0.5:9010"` and `circuitCode = 7`. -/
theorem C3_direct_login_success_witness :
    (directWorker.operatorCall (scriptedHost [.reply scenarioReply])).phase
      = some State.STATE_XMLRPC_REPLY_RECEIVED
    ∧ ((directWorker.operatorCall (scriptedHost [.reply scenarioReply])).parameters.map
        (·.circuitCode)) = some 7
    ∧ ((directWorker.operatorCall (scriptedHost [.reply scenarioReply])).parameters.map
        (·.gridUrl)) = some "10.0.0.5:9010"
    ∧ (directWorker.operatorCall (scriptedHost [.reply scenarioReply])).completion
      = Completion.returned :=
  C3_direct_login_success (scriptedHost [.reply scenarioReply]) directWorker
    { blankState with state := State.STATE_INIT_XMLRPC } scenarioReply "S1" "A1" "10.0.0.5"
    7 9010
    (by decide) (by decide) (by decide) (by decide) (by decide) (by decide) (by decide)
    (by decide) (by decide) (by decide) (by decide) (by decide) (by decide) (by decide)

/-- What a failed round leaves behind when the peer did reply: the reply has a message
field and that message is the error text of the record. -/
theorem perform_failed_message (h : Host) (n : Nat) (t : XMLRPCLoginThread)
    (ts : ConnectionThreadState) (r : List (String × XMLRPCValue))
    (hauth : t.authentication_ = true)
    (hreply : h.rpc n (buildCall h t ts.parameters.sessionHash) = .reply r)
    (hfail : (t.PerformXMLRPCLogin h n ts).ret = .ok false) :
    ∃ m, r.lookup "message" = some (.str m)
      ∧ (t.PerformXMLRPCLogin h n ts).ts.errorMessage = m := by
  unfold XMLRPCLoginThread.PerformXMLRPCLogin at hfail ⊢
  simp only [hreply] at hfail ⊢
  cases hr : readReply t r ts with
  | mk ts1 res =>
    cases res with
    | ok b =>
      simp only [hr] at hfail
      have hb : b = false := by simpa using hfail
      subst hb
      exact absurd hr (readReply_auth_ne_false t r ts ts1 hauth)
    | error e =>
      simp only [hr] at hfail ⊢
      cases hm : GetReplyString r "message" with
      | error e2 => simp [hm] at hfail
      | ok m =>
        refine ⟨m, ?_, ?_⟩
        · unfold GetReplyString at hm
          split at hm
          · rename_i s hs
            simp at hm
            rw [hs, hm]
          · simp at hm
        · simp

/-- An authenticated run whose first `PerformXMLRPCLogin` returns `false` opens exactly
one call, the one to the authentication address, ends in `STATE_LOGIN_FAILED`, and when
the peer replied, the error text of the record is the message field of that reply. -/
theorem operatorCall_first_round_false (h : Host) (t : XMLRPCLoginThread)
    (ts : ConnectionThreadState)
    (hbegin : t.beginLogin_ = true) (hts : t.threadState_ = some ts)
    (hauth : t.authentication_ = true) (hmethod : t.callMethod_ = "ClientAuthentication")
    (hfail : (t.PerformXMLRPCLogin h 0
      { ts with state := State.STATE_WAITING_FOR_XMLRPC_REPLY }).ret = .ok false) :
    callsIssued (t.operatorCall h).log
        = [(t.authenticationAddress_, t.authenticationPort_, "ClientAuthentication")]
    ∧ (t.operatorCall h).phase = some State.STATE_LOGIN_FAILED
    ∧ (t.operatorCall h).completion = Completion.returned
    ∧ ∀ r, h.rpc 0 (buildCall h t ts.parameters.sessionHash) = .reply r →
        ∃ m, r.lookup "message" = some (.str m) ∧ (t.operatorCall h).errorMessage = some m := by
  have hcalls := perform_callsIssued h 0 t { ts with state := State.STATE_WAITING_FOR_XMLRPC_REPLY }
  have hrun : t.operatorCall h =
      { thread := { t with
          threadState_ := some { (t.PerformXMLRPCLogin h 0
            { ts with state := State.STATE_WAITING_FOR_XMLRPC_REPLY }).ts with
              state := State.STATE_LOGIN_FAILED }
          beginLogin_ := false }
        log := Event.setState State.STATE_WAITING_FOR_XMLRPC_REPLY ::
          (t.PerformXMLRPCLogin h 0
            { ts with state := State.STATE_WAITING_FOR_XMLRPC_REPLY }).log
          ++ [.setState State.STATE_LOGIN_FAILED]
        completion := .returned } := by
    simp [XMLRPCLoginThread.operatorCall, hbegin, hts, hfail]
  rw [hrun]
  refine ⟨?_, rfl, rfl, ?_⟩
  · have : callsIssued (Event.setState State.STATE_WAITING_FOR_XMLRPC_REPLY ::
          (t.PerformXMLRPCLogin h 0
            { ts with state := State.STATE_WAITING_FOR_XMLRPC_REPLY }).log
          ++ [.setState State.STATE_LOGIN_FAILED])
        = callsIssued (t.PerformXMLRPCLogin h 0
            { ts with state := State.STATE_WAITING_FOR_XMLRPC_REPLY }).log := by
      simp [callsIssued, callsIssued_append]
    rw [this, hcalls]
    simp [buildCall, hauth, hmethod]
  · intro r hr
    obtain ⟨m, hm, he⟩ := perform_failed_message h 0 t
      { ts with state := State.STATE_WAITING_FOR_XMLRPC_REPLY } r hauth hr hfail
    exact ⟨m, hm, by simp [RunResult.errorMessage, he]⟩

/-- C4: an authenticated login whose `ClientAuthentication` round is refused by a reply
that has no `message` field opens the one call to the authentication address and no
`login_to_simulator` call, and does not end in `STATE_LOGIN_FAILED`: the read of
`message` inside the `catch` block throws, the exception leaves `operator()`, the phase
stays `STATE_WAITING_FOR_XMLRPC_REPLY`, `beginLogin_` stays set and the error text is
not written.  The same refusal with a message ends in `STATE_LOGIN_FAILED` with that
message. -/
theorem C4_refused_round_without_message_stays_waiting :
    callsIssued (authWorker.operatorCall
        (scriptedHost [.reply authenticationRefusedWithoutMessage])).log
      = [("auth.example.org", "10001", "ClientAuthentication")]
    ∧ (authWorker.operatorCall
        (scriptedHost [.reply authenticationRefusedWithoutMessage])).phase
      = some State.STATE_WAITING_FOR_XMLRPC_REPLY
    ∧ (authWorker.operatorCall
        (scriptedHost [.reply authenticationRefusedWithoutMessage])).completion
      = Completion.uncaught (.noSuchReply "message")
    ∧ (authWorker.operatorCall
        (scriptedHost [.reply authenticationRefusedWithoutMessage])).thread.beginLogin_ = true
    ∧ (authWorker.operatorCall
        (scriptedHost [.reply authenticationRefusedWithoutMessage])).errorMessage = some ""
    ∧ (authWorker.operatorCall (scriptedHost [.reply authenticationRefused])).phase
      = some State.STATE_LOGIN_FAILED
    ∧ (authWorker.operatorCall (scriptedHost [.reply authenticationRefused])).errorMessage
      = some "wrong password" := by
  decide

theorem readSession_state (r : List (String × XMLRPCValue)) (ts : ConnectionThreadState) :
    (readSession r ts).1.state = ts.state := by
  unfold readSession
  repeat' split
  all_goals rfl

theorem readGridUrl_state (r : List (String × XMLRPCValue)) (ts : ConnectionThreadState) :
    (readGridUrl r ts).1.state = ts.state := by
  unfold readGridUrl
  repeat' split
  all_goals rfl

theorem validateLogin_state (r : List (String × XMLRPCValue)) (ts : ConnectionThreadState) :
    (validateLogin r ts).1.state = ts.state := by
  unfold validateLogin
  repeat' split
  all_goals rfl

theorem readAuthentication_state (r : List (String × XMLRPCValue))
    (ts : ConnectionThreadState) : (readAuthentication r ts).1.state = ts.state := by
  unfold readAuthentication
  repeat' split
  all_goals rfl

/-- Reading a reply never writes the phase. -/
theorem readReply_state (t : XMLRPCLoginThread) (r : List (String × XMLRPCValue))
    (ts : ConnectionThreadState) : (readReply t r ts).1.state = ts.state := by
  unfold readReply
  split
  · split
    · rename_i ts1 e he
      have := readSession_state r ts
      rw [he] at this
      exact this
    · rename_i ts1 he
      have h1 := readSession_state r ts
      rw [he] at h1
      split
      · rename_i ts2 e he2
        have h2 := readGridUrl_state r ts1
        rw [he2] at h2
        exact h2.trans h1
      · rename_i ts2 he2
        have h2 := readGridUrl_state r ts1
        rw [he2] at h2
        exact (validateLogin_state r ts2).trans (h2.trans h1)
  · split
    · split
      · rename_i ts1 e he
        have := readAuthentication_state r ts
        rw [he] at this
        exact this
      · rename_i ts1 he
        have := readAuthentication_state r ts
        rw [he] at this
        exact this
    · split
      · split
        · rename_i ts1 e he
          have := readSession_state r ts
          rw [he] at this
          exact this
        · rename_i ts1 he
          have := readSession_state r ts
          rw [he] at this
          exact this
      · rfl

/-- `PerformXMLRPCLogin` never writes the phase. -/
theorem perform_state (h : Host) (n : Nat) (t : XMLRPCLoginThread)
    (ts : ConnectionThreadState) : (t.PerformXMLRPCLogin h n ts).ts.state = ts.state := by
  unfold XMLRPCLoginThread.PerformXMLRPCLogin
  simp only []
  split
  · rfl
  · rfl
  · rfl
  · rename_i fields hf
    have hs := readReply_state t fields ts
    split
    · rename_i ts1 b hb
      rw [hb] at hs
      exact hs
    · rename_i ts1 e he
      rw [he] at hs
      split
      · exact hs
      · exact hs

/-- The shape of a run without authentication: the write of the waiting phase, the
events of the single round, and at most one closing write of a terminal phase. -/
theorem operatorCall_direct (h : Host) (t : XMLRPCLoginThread) (ts : ConnectionThreadState)
    (hbegin : t.beginLogin_ = true) (hts : t.threadState_ = some ts)
    (hauth : t.authentication_ = false) :
    ∃ tail, (t.operatorCall h).log
        = Event.setState State.STATE_WAITING_FOR_XMLRPC_REPLY ::
          ((t.PerformXMLRPCLogin h 0
            { ts with state := State.STATE_WAITING_FOR_XMLRPC_REPLY }).log ++ tail)
      ∧ callsIssued tail = [] ∧ callsSent tail = []
      ∧ Event.setState State.STATE_XMLRPC_AUTH_REPLY_RECEIVED ∉ tail
      ∧ (t.operatorCall h).phase ≠ some State.STATE_XMLRPC_AUTH_REPLY_RECEIVED := by
  have hst := perform_state h 0 t { ts with state := State.STATE_WAITING_FOR_XMLRPC_REPLY }
  unfold XMLRPCLoginThread.operatorCall
  simp only [hbegin, hts, hauth, if_true]
  cases hret : (t.PerformXMLRPCLogin h 0
      { ts with state := State.STATE_WAITING_FOR_XMLRPC_REPLY }).ret with
  | error e =>
    refine ⟨[], by simp, rfl, rfl, by simp, ?_⟩
    simp [RunResult.phase, hst]
  | ok b =>
    cases b
    · refine ⟨[.setState State.STATE_LOGIN_FAILED], by simp, rfl, rfl, by simp, ?_⟩
      simp [RunResult.phase]
    · refine ⟨[.setState State.STATE_XMLRPC_REPLY_RECEIVED], by simp, rfl, rfl, by simp, ?_⟩
      simp [RunResult.phase]

end OpenSimProtocol

namespace KristalliProtocol

/-- The manager of `connectedManager` is the one the operations produce. -/
theorem connectedManager_reached (addr : String) :
    (KristalliProtocolModule.new.Connect (acceptingNetwork 1) addr 2345).map
        (KristalliProtocolModule.transportNotify ConnectionState.ConnectionOK)
      = some (connectedManager addr) := by
  rfl

/-- C6: `Connect "10.0.0.2"` on a manager connected to "10.0.0.1" leaves the stored target
address empty and makes its connection attempt with the empty address: `Disconnect`
clears `serverIp` after `Connect` has stored the new address in it. -/
theorem C6_connect_to_other_address_loses_target :
    ((connectedManager "10.0.0.1").Connect (acceptingNetwork 2) "10.0.0.2" 2345).map
        (·.serverIp) = some ""
    ∧ ((connectedManager "10.0.0.1").Connect (acceptingNetwork 2) "10.0.0.2" 2345).map
        (·.log) = some
          [NetEvent.Connect "10.0.0.1" 2345 SocketTransportLayer.SocketOverUDP,
           NetEvent.CloseMessageConnection 1,
           NetEvent.Connect "" 2345 SocketTransportLayer.SocketOverUDP] := by
  decide

/-- C7: when `Connect addr2` is called on a connected manager whose connection prints an
end point different from `addr2`, the manager calls `CloseMessageConnection` on that
connection and then `network.Connect` once, in that order, and makes no other call; the
attempt uses table entry 0 and the address that `Disconnect` left in `serverIp`. -/
theorem C7_connect_closes_before_connecting (net : NetworkConnect) (addr2 : String)
    (port : Nat) (m : KristalliProtocolModule) (c : MessageConnection)
    (hconn : m.serverConnection = some c)
    (hok : c.state = ConnectionState.ConnectionOK)
    (hne : c.endPoint ≠ addr2) :
    m.Connect net addr2 port = some
      { serverConnection := net "" 2345 SocketTransportLayer.SocketOverUDP
        nextPortAttempt := 0
        serverIp := ""
        reconnectTimer := m.reconnectTimer
        log := m.log ++ [NetEvent.CloseMessageConnection c.id,
          NetEvent.Connect "" 2345 SocketTransportLayer.SocketOverUDP] } := by
  simp [KristalliProtocolModule.Connect, KristalliProtocolModule.Connected,
    KristalliProtocolModule.Disconnect, KristalliProtocolModule.PerformConnection,
    hconn, hok, hne, destinationPorts]

/-- Witness of C7: the manager connected to "10.0.0.1" is told to connect to "10.0.0.2". -/
theorem C7_connect_closes_before_connecting_witness :
    (connectedManager "10.0.0.1").Connect (acceptingNetwork 2) "10.0.0.2" 2345 = some
      { serverConnection := acceptingNetwork 2 "" 2345 SocketTransportLayer.SocketOverUDP
        nextPortAttempt := 0
        serverIp := ""
        reconnectTimer := (connectedManager "10.0.0.1").reconnectTimer
        log := (connectedManager "10.0.0.1").log ++ [NetEvent.CloseMessageConnection 1,
          NetEvent.Connect "" 2345 SocketTransportLayer.SocketOverUDP] } :=
  C7_connect_closes_before_connecting (acceptingNetwork 2) "10.0.0.2" 2345
    (connectedManager "10.0.0.1")
    { id := 1, endPoint := "10.0.0.1", state := ConnectionState.ConnectionOK }
    rfl rfl (by decide)

/-- C8: when `Connect addr` is called on a connected manager whose connection prints the
end point `addr`, the only change is that `addr` is stored as the target: the
connection, the candidate index, the timer and the log of calls (so no
`CloseMessageConnection` and no `network.Connect`) are as before. -/
theorem C8_connect_same_address_changes_nothing (net : NetworkConnect) (addr : String)
    (port : Nat) (m : KristalliProtocolModule) (c : MessageConnection)
    (hconn : m.serverConnection = some c)
    (hok : c.state = ConnectionState.ConnectionOK)
    (heq : c.endPoint = addr) :
    m.Connect net addr port = some { m with serverIp := addr } := by
  simp [KristalliProtocolModule.Connect, KristalliProtocolModule.Connected, hconn, hok, heq]

/-- Witness of C8: the manager connected to "10.0.0.1" is told to connect there again. -/
theorem C8_connect_same_address_changes_nothing_witness :
    (connectedManager "10.0.0.1").Connect (acceptingNetwork 2) "10.0.0.1" 2345
      = some { connectedManager "10.0.0.1" with serverIp := "10.0.0.1" } :=
  C8_connect_same_address_changes_nothing (acceptingNetwork 2) "10.0.0.1" 2345
    (connectedManager "10.0.0.1")
    { id := 1, endPoint := "10.0.0.1", state := ConnectionState.ConnectionOK }
    rfl rfl rfl

/-- The members after `Disconnect`. -/
theorem disconnect_members (m : KristalliProtocolModule) :
    m.Disconnect.serverConnection = none
    ∧ m.Disconnect.nextPortAttempt = 0
    ∧ m.Disconnect.serverIp = ""
    ∧ m.Disconnect.reconnectTimer = m.reconnectTimer := by
  cases hc : m.serverConnection with
  | none => simp [KristalliProtocolModule.Disconnect, hc]
  | some c => simp [KristalliProtocolModule.Disconnect, hc]

/-- C9: from every state, `Disconnect` leaves no connection, candidate index 0 and an
empty target address; it calls `CloseMessageConnection` on the previous connection when
there was one and makes no other call; and a second `Disconnect` changes nothing. -/
theorem C9_disconnect_resets (m : KristalliProtocolModule) :
    m.Disconnect.serverConnection = none
    ∧ m.Disconnect.nextPortAttempt = 0
    ∧ m.Disconnect.serverIp = ""
    ∧ m.Disconnect.log = m.log ++
        (match m.serverConnection with
          | some c => [NetEvent.CloseMessageConnection c.id]
          | none => [])
    ∧ m.Disconnect.reconnectTimer = m.reconnectTimer
    ∧ m.Disconnect.Disconnect = m.Disconnect := by
  cases hc : m.serverConnection with
  | none => simp [KristalliProtocolModule.Disconnect, hc]
  | some c => simp [KristalliProtocolModule.Disconnect, hc]

/-- An `Update` of a manager without connection and without target address changes
nothing. -/
theorem update_idle (net : NetworkConnect) (now : Nat) (m : KristalliProtocolModule)
    (hc : m.serverConnection = none) (hip : m.serverIp = "") :
    m.Update net now = some m := by
  simp [KristalliProtocolModule.Update, hc, hip]

/-- C10: from every state, after `Disconnect` any sequence of `Update` calls leaves the
manager exactly as `Disconnect` left it: the timer is not started, no call is made (so
no `PerformConnection`), and the candidate index stays 0. -/
theorem C10_updates_after_disconnect_do_nothing (m : KristalliProtocolModule)
    (ticks : List Tick) :
    m.Disconnect.Updates ticks = some m.Disconnect
    ∧ (m.Disconnect.Updates ticks).map (·.reconnectTimer) = some m.reconnectTimer
    ∧ (m.Disconnect.Updates ticks).map (·.log) = some m.Disconnect.log
    ∧ (m.Disconnect.Updates ticks).map (·.nextPortAttempt) = some 0 := by
  have hd := disconnect_members m
  have key : m.Disconnect.Updates ticks = some m.Disconnect := by
    induction ticks with
    | nil => rfl
    | cons k ks ih =>
      simp [KristalliProtocolModule.Updates, update_idle k.net k.now m.Disconnect hd.1 hd.2.2.1, ih]
  rw [key]
  simp [hd.2.1, hd.2.2.2]

/-! ## The retry path of `Update` -/

theorem attempts_append (a b : List NetEvent) :
    attempts (a ++ b) = attempts a ++ attempts b := by
  induction a with
  | nil => rfl
  | cons e es ih => cases e <;> simp [attempts, ih]

/-- Every index of the form `(i + 1) % cNumPortChoices` is inside the table. -/
theorem next_candidate_exists (i : Nat) :
    ∃ d, destinationPorts[(i + 1) % cNumPortChoices]? = some d := by
  have hlt : (i + 1) % cNumPortChoices < destinationPorts.length :=
    Nat.mod_lt _ (by decide)
  exact ⟨destinationPorts[(i + 1) % cNumPortChoices], List.getElem?_eq_getElem hlt⟩

/-- `PerformConnection` on a manager that is not connected: one `network.Connect` with
the current candidate, and the old pointer is overwritten. -/
theorem performConnection_not_connected (net : NetworkConnect) (m : KristalliProtocolModule)
    (d : DestinationPort) (hnc : m.Connected = false)
    (hd : destinationPorts[m.nextPortAttempt]? = some d) :
    m.PerformConnection net = some { m with
      serverConnection := net m.serverIp d.portNumber d.transport
      log := m.log ++ [NetEvent.Connect m.serverIp d.portNumber d.transport] } := by
  unfold KristalliProtocolModule.PerformConnection
  simp only [hnc]
  cases hc : m.serverConnection <;> simp [hd]

/-- A lost connection is not a connected one. -/
theorem not_connected_of_lost (m : KristalliProtocolModule) (hl : m.connectionLost = true) :
    m.Connected = false := by
  unfold KristalliProtocolModule.connectionLost at hl
  unfold KristalliProtocolModule.Connected
  cases hc : m.serverConnection with
  | none => rfl
  | some c =>
    rw [hc] at hl
    cases hs : c.state <;> simp_all

/-- The retry branch of `Update` when the timer has fired. -/
theorem update_fired (net : NetworkConnect) (now : Nat) (m : KristalliProtocolModule)
    (d : DestinationPort)
    (hl : m.connectionLost = true) (hip : m.serverIp ≠ "")
    (hen : m.reconnectTimer.enabled = true) (hal : m.reconnectTimer.alarmTime < now)
    (hd : destinationPorts[(m.nextPortAttempt + 1) % cNumPortChoices]? = some d) :
    m.Update net now = some
      { serverConnection := net m.serverIp d.portNumber d.transport
        nextPortAttempt := (m.nextPortAttempt + 1) % cNumPortChoices
        serverIp := m.serverIp
        reconnectTimer := { m.reconnectTimer with enabled := false }
        log := m.log ++ m.messagesProcessed
          ++ [NetEvent.TimerTest, NetEvent.Connect m.serverIp d.portNumber d.transport] } := by
  have hlen := OpenSimProtocol.length_ne_zero_of_ne_empty m.serverIp hip
  have hnc := not_connected_of_lost m hl
  unfold KristalliProtocolModule.connectionLost at hl
  unfold KristalliProtocolModule.Connected at hnc
  cases hc : m.serverConnection with
  | none =>
    simp [KristalliProtocolModule.Update, KristalliProtocolModule.messagesProcessed,
      KristalliProtocolModule.PerformConnection, KristalliProtocolModule.Connected,
      PolledTimer.Test, hc, hlen, hen, hal, hd]
  | some c =>
    rw [hc] at hl hnc
    simp only [] at hl hnc
    simp [KristalliProtocolModule.Update, KristalliProtocolModule.messagesProcessed,
      KristalliProtocolModule.PerformConnection, KristalliProtocolModule.Connected,
      PolledTimer.Test, hc, hlen, hen, hal, hd, hl, hnc]

/-- The retry branch of `Update` when the timer is not armed. -/
theorem update_arms (net : NetworkConnect) (now : Nat) (m : KristalliProtocolModule)
    (hl : m.connectionLost = true) (hip : m.serverIp ≠ "")
    (hen : m.reconnectTimer.enabled = false) :
    m.Update net now = some
      { m with
        reconnectTimer := { enabled := true, alarmTime := now + cReconnectTimeout }
        log := m.log ++ m.messagesProcessed
          ++ [NetEvent.TimerTest, NetEvent.StartMSecs cReconnectTimeout] } := by
  have hlen := OpenSimProtocol.length_ne_zero_of_ne_empty m.serverIp hip
  unfold KristalliProtocolModule.connectionLost at hl
  cases hc : m.serverConnection with
  | none =>
    simp [KristalliProtocolModule.Update, KristalliProtocolModule.messagesProcessed,
      PolledTimer.Test, PolledTimer.Enabled, PolledTimer.StartMSecs, hc, hlen, hen]
  | some c =>
    rw [hc] at hl
    simp only [] at hl
    simp [KristalliProtocolModule.Update, KristalliProtocolModule.messagesProcessed,
      PolledTimer.Test, PolledTimer.Enabled, PolledTimer.StartMSecs, hc, hlen, hen, hl]

/-- The retry branch of `Update` when the timer is armed and has not fired. -/
theorem update_waits (net : NetworkConnect) (now : Nat) (m : KristalliProtocolModule)
    (hl : m.connectionLost = true) (hip : m.serverIp ≠ "")
    (hen : m.reconnectTimer.enabled = true) (hal : ¬ m.reconnectTimer.alarmTime < now) :
    m.Update net now = some
      { m with log := m.log ++ m.messagesProcessed ++ [NetEvent.TimerTest] } := by
  have hlen := OpenSimProtocol.length_ne_zero_of_ne_empty m.serverIp hip
  unfold KristalliProtocolModule.connectionLost at hl
  cases hc : m.serverConnection with
  | none =>
    simp [KristalliProtocolModule.Update, KristalliProtocolModule.messagesProcessed,
      PolledTimer.Test, PolledTimer.Enabled, hc, hlen, hen, hal]
  | some c =>
    rw [hc] at hl
    simp only [] at hl
    simp [KristalliProtocolModule.Update, KristalliProtocolModule.messagesProcessed,
      PolledTimer.Test, PolledTimer.Enabled, hc, hlen, hen, hal, hl]

/-- An `Update` outside the retry path: the connection is not lost, or no address is
stored. -/
theorem update_no_retry (net : NetworkConnect) (now : Nat) (m : KristalliProtocolModule)
    (h : m.connectionLost = false ∨ m.serverIp = "") :
    m.Update net now = some { m with log := m.log ++ m.messagesProcessed } := by
  unfold KristalliProtocolModule.connectionLost at h
  cases hc : m.serverConnection with
  | none =>
    rw [hc] at h
    simp only [] at h
    rcases h with h | h
    · exact absurd h (by decide)
    · simp [KristalliProtocolModule.Update, KristalliProtocolModule.messagesProcessed, hc, h]
      cases m
      simp_all
  | some c =>
    rw [hc] at h
    simp only [] at h
    rcases h with h | h
    · simp [KristalliProtocolModule.Update, KristalliProtocolModule.messagesProcessed, hc, h]
    · simp [KristalliProtocolModule.Update, KristalliProtocolModule.messagesProcessed, hc, h]

theorem attempts_messagesProcessed (m : KristalliProtocolModule) :
    attempts m.messagesProcessed = [] := by
  unfold KristalliProtocolModule.messagesProcessed
  cases m.serverConnection <;> rfl

/-- What one `Update` does to the candidate index and to the list of attempts: either no
attempt and the same index, or one attempt with the next candidate and the index
advanced. -/
theorem update_advance (net : NetworkConnect) (now : Nat) (m : KristalliProtocolModule) :
    ∃ m1 added, m.Update net now = some m1 ∧ m1.log = m.log ++ added
      ∧ ((attempts added = [] ∧ m1.nextPortAttempt = m.nextPortAttempt)
        ∨ (attempts added = candidatesAfter m.nextPortAttempt 1
            ∧ m1.nextPortAttempt = (m.nextPortAttempt + 1) % cNumPortChoices)) := by
  have hpm := attempts_messagesProcessed m
  by_cases hret : m.connectionLost = true ∧ m.serverIp ≠ ""
  · obtain ⟨hl, hip⟩ := hret
    by_cases hen : m.reconnectTimer.enabled = true
    · by_cases hal : m.reconnectTimer.alarmTime < now
      · obtain ⟨d, hd⟩ := next_candidate_exists m.nextPortAttempt
        refine ⟨_, m.messagesProcessed
          ++ [NetEvent.TimerTest, NetEvent.Connect m.serverIp d.portNumber d.transport],
          update_fired net now m d hl hip hen hal hd, ?_, ?_⟩
        · simp only [List.append_assoc]
        · right
          simp [attempts_append, hpm, attempts, candidatesAfter, hd]
      · refine ⟨_, m.messagesProcessed ++ [NetEvent.TimerTest],
          update_waits net now m hl hip hen hal, ?_, ?_⟩
        · simp only [List.append_assoc]
        · left
          simp [attempts_append, hpm, attempts]
    · have hen2 : m.reconnectTimer.enabled = false := by simpa using hen
      refine ⟨_, m.messagesProcessed
        ++ [NetEvent.TimerTest, NetEvent.StartMSecs cReconnectTimeout],
        update_arms net now m hl hip hen2, ?_, ?_⟩
      · simp only [List.append_assoc]
      · left
        simp [attempts_append, hpm, attempts]
  · have h2 : m.connectionLost = false ∨ m.serverIp = "" := by
      by_cases hl : m.connectionLost = true
      · right
        by_contra hne
        exact hret ⟨hl, hne⟩
      · left
        simpa using hl
    exact ⟨_, _, update_no_retry net now m h2, rfl, Or.inl ⟨hpm, rfl⟩⟩

theorem candidatesAfter_length (i k : Nat) : (candidatesAfter i k).length = k := by
  induction k generalizing i with
  | zero => rfl
  | succ k ih =>
    obtain ⟨d, hd⟩ := next_candidate_exists i
    simp [candidatesAfter, hd, ih]

/-- What a sequence of `Update` calls does to the candidate index and to the list of
attempts: after `k` attempts the index has advanced `k` times and the attempts are the
`k` table entries selected on the way. -/
theorem updates_advance (ticks : List Tick) (m : KristalliProtocolModule)
    (hi : m.nextPortAttempt < cNumPortChoices) :
    ∃ m1 added k, m.Updates ticks = some m1 ∧ m1.log = m.log ++ added
      ∧ attempts added = candidatesAfter m.nextPortAttempt k
      ∧ m1.nextPortAttempt = (m.nextPortAttempt + k) % cNumPortChoices := by
  induction ticks generalizing m with
  | nil =>
    exact ⟨m, [], 0, rfl, by simp, rfl, by simp [Nat.mod_eq_of_lt hi]⟩
  | cons t ts ih =>
    obtain ⟨m1, a1, hu, hlog1, hcase⟩ := update_advance t.net t.now m
    have hN : cNumPortChoices = 2 := rfl
    have hi1 : m1.nextPortAttempt < cNumPortChoices := by
      rcases hcase with ⟨_, he⟩ | ⟨_, he⟩
      · rw [he]; exact hi
      · rw [he]; exact Nat.mod_lt _ (by decide)
    obtain ⟨m2, a2, k, hus, hlog2, hatt, hidx⟩ := ih m1 hi1
    have hrun : m.Updates (t :: ts) = some m2 := by
      simp [KristalliProtocolModule.Updates, hu, hus]
    have hlog : m2.log = m.log ++ (a1 ++ a2) := by
      rw [hlog2, hlog1, List.append_assoc]
    rcases hcase with ⟨ha, he⟩ | ⟨ha, he⟩
    · refine ⟨m2, a1 ++ a2, k, hrun, hlog, ?_, ?_⟩
      · rw [attempts_append, ha, hatt, he]
        rfl
      · rw [hidx, he]
    · refine ⟨m2, a1 ++ a2, k + 1, hrun, hlog, ?_, ?_⟩
      · rw [attempts_append, ha, hatt, he]
        simp [candidatesAfter]
      · rw [hidx, he, hN]
        omega

/-- A full cycle from a valid index selects every table entry exactly once. -/
theorem candidatesAfter_cycle (i : Nat) (hi : i < cNumPortChoices) :
    (candidatesAfter i cNumPortChoices).Perm destinationPorts := by
  have hN : cNumPortChoices = 2 := rfl
  rw [hN] at hi
  interval_cases i <;> decide

/-- C11: from a candidate index inside the table, every sequence of `Update` calls is
defined, and when it has made exactly `cNumPortChoices` timer-fired retries (connection
attempts), the index is back at its starting value and the candidates tried are the
table entries, each exactly once. -/
theorem C11_full_cycle_returns_to_start (m : KristalliProtocolModule) (ticks : List Tick)
    (hi : m.nextPortAttempt < cNumPortChoices) :
    (∃ m1, m.Updates ticks = some m1)
    ∧ ∀ m1, m.Updates ticks = some m1 →
        (attempts (m1.log.drop m.log.length)).length = cNumPortChoices →
        m1.nextPortAttempt = m.nextPortAttempt
        ∧ (attempts (m1.log.drop m.log.length)).Perm destinationPorts
        ∧ destinationPorts.Nodup := by
  obtain ⟨m2, added, k, hrun, hlog, hatt, hidx⟩ := updates_advance ticks m hi
  refine ⟨⟨m2, hrun⟩, ?_⟩
  intro m1 h1 hlen
  rw [hrun] at h1
  injection h1 with h1
  subst h1
  have hdrop : m2.log.drop m.log.length = added := by
    rw [hlog]
    simp
  rw [hdrop] at hlen ⊢
  have hk : k = cNumPortChoices := by
    rw [hatt, candidatesAfter_length] at hlen
    exact hlen
  subst hk
  refine ⟨?_, ?_, by decide⟩
  · rw [hidx]
    simp [Nat.mod_eq_of_lt hi]
  · rw [hatt]
    exact candidatesAfter_cycle m.nextPortAttempt hi

/-- Witness of C11: a refused `Connect` followed by four ticks in which the timer is
armed and fires twice; the two retries try TCP 2345 and then UDP 2345 and the index is 0
again. -/
theorem C11_full_cycle_returns_to_start_witness :
    ∃ m1, (refusedManager "10.0.0.1").Updates twoRetries = some m1
      ∧ attempts (m1.log.drop (refusedManager "10.0.0.1").log.length)
          = [{ transport := SocketTransportLayer.SocketOverTCP, portNumber := 2345 },
             { transport := SocketTransportLayer.SocketOverUDP, portNumber := 2345 }]
      ∧ m1.nextPortAttempt = 0
      ∧ (attempts (m1.log.drop (refusedManager "10.0.0.1").log.length)).Perm
          destinationPorts := by
  have hcycle := C11_full_cycle_returns_to_start (refusedManager "10.0.0.1") twoRetries
    (by decide)
  obtain ⟨m1, hm1⟩ := hcycle.1
  have hval : (refusedManager "10.0.0.1").Updates twoRetries = some
      { serverConnection := none
        nextPortAttempt := 0
        serverIp := "10.0.0.1"
        reconnectTimer := { enabled := false, alarmTime := 10002 }
        log := [NetEvent.Connect "10.0.0.1" 2345 SocketTransportLayer.SocketOverUDP,
          NetEvent.TimerTest, NetEvent.StartMSecs 5000, NetEvent.TimerTest,
          NetEvent.Connect "10.0.0.1" 2345 SocketTransportLayer.SocketOverTCP,
          NetEvent.TimerTest, NetEvent.StartMSecs 5000, NetEvent.TimerTest,
          NetEvent.Connect "10.0.0.1" 2345 SocketTransportLayer.SocketOverUDP] } := by
    decide
  have heq := hm1.symm.trans hval
  injection heq with heq
  subst heq
  have hatt : attempts (List.drop (refusedManager "10.0.0.1").log.length
      [NetEvent.Connect "10.0.0.1" 2345 SocketTransportLayer.SocketOverUDP,
          NetEvent.TimerTest, NetEvent.StartMSecs 5000, NetEvent.TimerTest,
          NetEvent.Connect "10.0.0.1" 2345 SocketTransportLayer.SocketOverTCP,
          NetEvent.TimerTest, NetEvent.StartMSecs 5000, NetEvent.TimerTest,
          NetEvent.Connect "10.0.0.1" 2345 SocketTransportLayer.SocketOverUDP])
      = [{ transport := SocketTransportLayer.SocketOverTCP, portNumber := 2345 },
         { transport := SocketTransportLayer.SocketOverUDP, portNumber := 2345 }] := by
    decide
  have hres := hcycle.2 _ hval (by rw [hatt]; rfl)
  exact ⟨_, hval, hatt, hres.1, hres.2.1⟩

theorem timer_test_true (t : PolledTimer) (now : Nat) (h : (t.Test now).1 = true) :
    t.enabled = true ∧ t.alarmTime < now := by
  unfold PolledTimer.Test at h
  by_cases hc : (t.enabled && decide (t.alarmTime < now)) = true
  · simpa using hc
  · simp [hc] at h

theorem timer_test_false (t : PolledTimer) (now : Nat) (h : (t.Test now).1 = false)
    (hen : t.enabled = true) : ¬ t.alarmTime < now := by
  unfold PolledTimer.Test at h
  intro hlt
  simp [hen, hlt] at h

/-- C12: in `Update`, with a target address stored and the connection missing, closed or
pending: when the timer test succeeds, the candidate index becomes
`(index + 1) % cNumPortChoices` and exactly one `network.Connect` is made, with the new
candidate; when the test fails and the timer is not armed, it is started with 5000 ms
and no attempt is made; when the test fails and the timer is armed, nothing changes
(only the test and the message processing are logged). -/
theorem C12_update_retry_path (net : NetworkConnect) (now : Nat)
    (m : KristalliProtocolModule)
    (hl : m.connectionLost = true) (hip : m.serverIp ≠ "") :
    ((m.reconnectTimer.Test now).1 = true →
      ∃ d, destinationPorts[(m.nextPortAttempt + 1) % cNumPortChoices]? = some d
        ∧ m.Update net now = some
          { serverConnection := net m.serverIp d.portNumber d.transport
            nextPortAttempt := (m.nextPortAttempt + 1) % cNumPortChoices
            serverIp := m.serverIp
            reconnectTimer := { m.reconnectTimer with enabled := false }
            log := m.log ++ m.messagesProcessed
              ++ [NetEvent.TimerTest,
                  NetEvent.Connect m.serverIp d.portNumber d.transport] })
    ∧ ((m.reconnectTimer.Test now).1 = false → m.reconnectTimer.Enabled = false →
      m.Update net now = some
        { m with
          reconnectTimer := { enabled := true, alarmTime := now + 5000 }
          log := m.log ++ m.messagesProcessed
            ++ [NetEvent.TimerTest, NetEvent.StartMSecs 5000] })
    ∧ ((m.reconnectTimer.Test now).1 = false → m.reconnectTimer.Enabled = true →
      m.Update net now = some
        { m with log := m.log ++ m.messagesProcessed ++ [NetEvent.TimerTest] }) := by
  refine ⟨?_, ?_, ?_⟩
  · intro ht
    obtain ⟨hen, hal⟩ := timer_test_true _ _ ht
    obtain ⟨d, hd⟩ := next_candidate_exists m.nextPortAttempt
    exact ⟨d, hd, update_fired net now m d hl hip hen hal hd⟩
  · intro _ hen
    exact update_arms net now m hl hip hen
  · intro ht hen
    exact update_waits net now m hl hip hen (timer_test_false _ _ ht hen)

/-- Witness of C12: the armed manager at 5001 (fired: TCP 2345 is tried and the index is
1), the refused manager at 0 (the timer is started) and the armed manager at 3000
(nothing but the test). -/
theorem C12_update_retry_path_witness :
    (∃ d, destinationPorts[((armedManager "10.0.0.1").nextPortAttempt + 1)
          % cNumPortChoices]? = some d
        ∧ (armedManager "10.0.0.1").Update refusingNetwork 5001 = some
          { serverConnection := refusingNetwork "10.0.0.1" d.portNumber d.transport
            nextPortAttempt := 1
            serverIp := "10.0.0.1"
            reconnectTimer := { enabled := false, alarmTime := 5000 }
            log := (armedManager "10.0.0.1").log
              ++ (armedManager "10.0.0.1").messagesProcessed
              ++ [NetEvent.TimerTest, NetEvent.Connect "10.0.0.1" d.portNumber d.transport] })
    ∧ (refusedManager "10.0.0.1").Update refusingNetwork 0 = some (armedManager "10.0.0.1")
    ∧ (armedManager "10.0.0.1").Update refusingNetwork 3000 = some
        { armedManager "10.0.0.1" with
          log := (armedManager "10.0.0.1").log ++ [NetEvent.TimerTest] } :=
  ⟨(C12_update_retry_path refusingNetwork 5001 (armedManager "10.0.0.1")
      (by decide) (by decide)).1 (by decide),
   (C12_update_retry_path refusingNetwork 0 (refusedManager "10.0.0.1")
      (by decide) (by decide)).2.1 (by decide) (by decide),
   (C12_update_retry_path refusingNetwork 3000 (armedManager "10.0.0.1")
      (by decide) (by decide)).2.2 (by decide) (by decide)⟩

/-- C13: in `Update`, when a connection exists and its state is neither
`ConnectionClosed` nor `ConnectionPending`, the only effect is the `ProcessMessages`
call: the candidate index, the timer, the connection and the address are unchanged, and
neither a timer test, nor a timer start, nor a connection attempt is made, whatever the
stored address. -/
theorem C13_update_with_live_connection (net : NetworkConnect) (now : Nat)
    (m : KristalliProtocolModule) (c : MessageConnection)
    (hconn : m.serverConnection = some c)
    (hclosed : c.state ≠ ConnectionState.ConnectionClosed)
    (hpending : c.state ≠ ConnectionState.ConnectionPending) :
    m.Update net now = some { m with log := m.log ++ [NetEvent.ProcessMessages c.id] } := by
  simp [KristalliProtocolModule.Update, hconn, hclosed, hpending]

/-- Witness of C13: the manager connected to "10.0.0.1", at any time after the alarm. -/
theorem C13_update_with_live_connection_witness :
    (connectedManager "10.0.0.1").Update (acceptingNetwork 2) 9000 = some
      { connectedManager "10.0.0.1" with
        log := (connectedManager "10.0.0.1").log ++ [NetEvent.ProcessMessages 1] } :=
  C13_update_with_live_connection (acceptingNetwork 2) 9000 (connectedManager "10.0.0.1")
    { id := 1, endPoint := "10.0.0.1", state := ConnectionState.ConnectionOK }
    rfl (by decide) (by decide)

/-- C14: the candidate table is UDP 2345 followed by TCP 2345, and `Connect` on a new
manager, or on a manager right after `Disconnect`, makes exactly one `network.Connect`,
with UDP and port 2345, whatever its `port` argument is. -/
theorem C14_first_attempt_uses_entry_zero :
    destinationPorts =
      [ { transport := SocketTransportLayer.SocketOverUDP, portNumber := 2345 },
        { transport := SocketTransportLayer.SocketOverTCP, portNumber := 2345 } ]
    ∧ (∀ (net : NetworkConnect) (ip : String) (port : Nat),
        KristalliProtocolModule.new.Connect net ip port = some
          { serverConnection := net ip 2345 SocketTransportLayer.SocketOverUDP
            nextPortAttempt := 0
            serverIp := ip
            reconnectTimer := KristalliProtocolModule.new.reconnectTimer
            log := [NetEvent.Connect ip 2345 SocketTransportLayer.SocketOverUDP] })
    ∧ (∀ (m : KristalliProtocolModule) (net : NetworkConnect) (ip : String) (port : Nat),
        m.Disconnect.Connect net ip port = some
          { serverConnection := net ip 2345 SocketTransportLayer.SocketOverUDP
            nextPortAttempt := 0
            serverIp := ip
            reconnectTimer := m.reconnectTimer
            log := m.Disconnect.log
              ++ [NetEvent.Connect ip 2345 SocketTransportLayer.SocketOverUDP] }) := by
  refine ⟨rfl, ?_, ?_⟩
  · intro net ip port
    simp [KristalliProtocolModule.Connect, KristalliProtocolModule.Connected,
      KristalliProtocolModule.PerformConnection, KristalliProtocolModule.new,
      destinationPorts]
  · intro m net ip port
    obtain ⟨hc, hi, _, ht⟩ := disconnect_members m
    simp [KristalliProtocolModule.Connect, KristalliProtocolModule.Connected,
      KristalliProtocolModule.PerformConnection, hc, hi, ht, destinationPorts]

/-- C15: `Connect` answered with the pending connection 1, an `Update` that arms the
timer and an `Update` after the alarm: the retry stores the new connection 2 over
connection 1, and the log of calls has no `CloseMessageConnection` for connection 1. -/
theorem C15_retry_overwrites_pending_connection :
    KristalliProtocolModule.run
        [Op.Connect (acceptingNetwork 1) "10.0.0.1" 2345,
         Op.Update (acceptingNetwork 2) 0,
         Op.Update (acceptingNetwork 2) 5001]
        KristalliProtocolModule.new
      = some
        { serverConnection := some
            { id := 2, endPoint := "10.0.0.1", state := ConnectionState.ConnectionPending }
          nextPortAttempt := 1
          serverIp := "10.0.0.1"
          reconnectTimer := { enabled := false, alarmTime := 5000 }
          log := [NetEvent.Connect "10.0.0.1" 2345 SocketTransportLayer.SocketOverUDP,
            NetEvent.ProcessMessages 1, NetEvent.TimerTest, NetEvent.StartMSecs 5000,
            NetEvent.ProcessMessages 1, NetEvent.TimerTest,
            NetEvent.Connect "10.0.0.1" 2345 SocketTransportLayer.SocketOverTCP] } := by
  decide

/-- Counterexample to C16: after `Connect`, an `Update` that arms the timer and the
report that the connection is established, the manager is connected and the timer is
still armed (alarm 5000); when the connection is reported closed and `Update` runs at
20000, the retry is made in that very `Update`. -/
theorem C16_timer_stays_armed_when_connected :
    (KristalliProtocolModule.run
        [Op.Connect (acceptingNetwork 1) "10.0.0.1" 2345,
         Op.Update (acceptingNetwork 2) 0,
         Op.transportNotify ConnectionState.ConnectionOK]
        KristalliProtocolModule.new).map (fun m => (m.Connected, m.reconnectTimer))
      = some (true, { enabled := true, alarmTime := 5000 })
    ∧ (KristalliProtocolModule.run
        [Op.Connect (acceptingNetwork 1) "10.0.0.1" 2345,
         Op.Update (acceptingNetwork 2) 0,
         Op.transportNotify ConnectionState.ConnectionOK,
         Op.transportNotify ConnectionState.ConnectionClosed,
         Op.Update (acceptingNetwork 2) 20000]
        KristalliProtocolModule.new).map (fun m => attempts m.log)
      = some [{ transport := SocketTransportLayer.SocketOverUDP, portNumber := 2345 },
              { transport := SocketTransportLayer.SocketOverTCP, portNumber := 2345 }]
    ∧ ∃ m, KristalliProtocolModule.Reachable m ∧ m.Connected = true
        ∧ m.reconnectTimer.enabled = true := by
  refine ⟨by decide, by decide, ?_⟩
  refine ⟨{ serverConnection := some
              { id := 1, endPoint := "10.0.0.1", state := ConnectionState.ConnectionOK }
            nextPortAttempt := 0
            serverIp := "10.0.0.1"
            reconnectTimer := { enabled := true, alarmTime := 5000 }
            log := [NetEvent.Connect "10.0.0.1" 2345 SocketTransportLayer.SocketOverUDP,
              NetEvent.ProcessMessages 1, NetEvent.TimerTest, NetEvent.StartMSecs 5000] },
    ⟨[Op.Connect (acceptingNetwork 1) "10.0.0.1" 2345,
         Op.Update (acceptingNetwork 2) 0,
         Op.transportNotify ConnectionState.ConnectionOK], by decide⟩, by decide, by decide⟩

theorem performConnection_timer (net : NetworkConnect) (m m1 : KristalliProtocolModule)
    (h : m.PerformConnection net = some m1) : m1.reconnectTimer = m.reconnectTimer := by
  unfold KristalliProtocolModule.PerformConnection at h
  cases hco : m.Connected <;> cases hsc : m.serverConnection <;>
    simp only [hco, hsc] at h <;>
    (split at h
     · simp at h
     · injection h with h
       subst h
       rfl)

theorem connect_timer (net : NetworkConnect) (ip : String) (port : Nat)
    (m m1 : KristalliProtocolModule) (h : m.Connect net ip port = some m1) :
    m1.reconnectTimer = m.reconnectTimer := by
  unfold KristalliProtocolModule.Connect at h
  simp only [] at h
  split at h
  · have h2 := performConnection_timer net _ m1 h
    rw [h2]
    split
    · split
      · exact (disconnect_members _).2.2.2
      · rfl
    · rfl
  · injection h with h
    subst h
    split
    · split
      · exact (disconnect_members _).2.2.2
      · rfl
    · rfl

/-- C16 as amended: whatever input is applied to the manager, the reconnect timer changes
only in an `Update` that observes a missing, closed or pending connection with a stored
address, and there only in two ways: a timer that is not armed is armed for
`now + 5000`, and an armed timer whose alarm time has passed is disarmed by firing.  No
other input, the report of an established connection included, touches the timer. -/
theorem C16_timer_changes_only_on_retry_path (op : Op) (m m1 : KristalliProtocolModule)
    (h : m.step op = some m1) :
    m1.reconnectTimer = m.reconnectTimer
    ∨ ∃ net now, op = Op.Update net now ∧ m.connectionLost = true ∧ m.serverIp ≠ ""
        ∧ ((m.reconnectTimer.enabled = false
              ∧ m1.reconnectTimer = { enabled := true, alarmTime := now + 5000 })
          ∨ (m.reconnectTimer.enabled = true ∧ m.reconnectTimer.alarmTime < now
              ∧ m1.reconnectTimer = { m.reconnectTimer with enabled := false })) := by
  cases op with
  | Connect net ip port =>
    left
    exact connect_timer net ip port m m1 h
  | Disconnect =>
    left
    simp only [KristalliProtocolModule.step] at h
    injection h with h
    subst h
    exact (disconnect_members m).2.2.2
  | transportNotify s =>
    left
    simp only [KristalliProtocolModule.step] at h
    injection h with h
    subst h
    rfl
  | Update net now =>
    simp only [KristalliProtocolModule.step] at h
    by_cases hret : m.connectionLost = true ∧ m.serverIp ≠ ""
    · obtain ⟨hl, hip⟩ := hret
      by_cases hen : m.reconnectTimer.enabled = true
      · by_cases hal : m.reconnectTimer.alarmTime < now
        · obtain ⟨d, hd⟩ := next_candidate_exists m.nextPortAttempt
          rw [update_fired net now m d hl hip hen hal hd] at h
          injection h with h
          subst h
          right
          exact ⟨net, now, rfl, hl, hip, Or.inr ⟨hen, hal, rfl⟩⟩
        · rw [update_waits net now m hl hip hen hal] at h
          injection h with h
          subst h
          left
          rfl
      · have hen2 : m.reconnectTimer.enabled = false := by simpa using hen
        rw [update_arms net now m hl hip hen2] at h
        injection h with h
        subst h
        right
        exact ⟨net, now, rfl, hl, hip, Or.inl ⟨hen2, rfl⟩⟩
    · have h2 : m.connectionLost = false ∨ m.serverIp = "" := by
        by_cases hl : m.connectionLost = true
        · right
          by_contra hne
          exact hret ⟨hl, hne⟩
        · left
          simpa using hl
      rw [update_no_retry net now m h2] at h
      injection h with h
      subst h
      left
      rfl

/-- Witness of C16 as amended: the `Update` at 0 of the refused manager arms the timer
for 5000. -/
theorem C16_timer_changes_only_on_retry_path_witness :
    (armedManager "10.0.0.1").reconnectTimer = (refusedManager "10.0.0.1").reconnectTimer
    ∨ ∃ net now, Op.Update refusingNetwork 0 = Op.Update net now
        ∧ (refusedManager "10.0.0.1").connectionLost = true
        ∧ (refusedManager "10.0.0.1").serverIp ≠ ""
        ∧ (((refusedManager "10.0.0.1").reconnectTimer.enabled = false
              ∧ (armedManager "10.0.0.1").reconnectTimer
                = { enabled := true, alarmTime := now + 5000 })
          ∨ ((refusedManager "10.0.0.1").reconnectTimer.enabled = true
              ∧ (refusedManager "10.0.0.1").reconnectTimer.alarmTime < now
              ∧ (armedManager "10.0.0.1").reconnectTimer
                = { (refusedManager "10.0.0.1").reconnectTimer with enabled := false })) :=
  C16_timer_changes_only_on_retry_path (Op.Update refusingNetwork 0)
    (refusedManager "10.0.0.1") (armedManager "10.0.0.1") (by decide)

end KristalliProtocol

namespace OpenSimProtocol

/-- The reply is never read to the result `false`, with or without authentication: a
round that received a reply fails only through an exception. -/
theorem readReply_ne_false (t : XMLRPCLoginThread) (r : List (String × XMLRPCValue))
    (ts ts1 : ConnectionThreadState) : readReply t r ts ≠ (ts1, .ok false) := by
  cases hauth : t.authentication_ with
  | true => exact readReply_auth_ne_false t r ts ts1 hauth
  | false =>
    unfold readReply
    simp only [hauth]
    simp only [Bool.not_false, if_true]
    split
    · simp
    · split
      · simp
      · unfold validateLogin
        split
        · split <;> simp
        · simp

/-- What a failed round leaves behind when the peer did reply, with or without
authentication: the reply has a message field and that message is the error text. -/
theorem perform_failed_message_any (h : Host) (n : Nat) (t : XMLRPCLoginThread)
    (ts : ConnectionThreadState) (r : List (String × XMLRPCValue))
    (hreply : h.rpc n (buildCall h t ts.parameters.sessionHash) = .reply r)
    (hfail : (t.PerformXMLRPCLogin h n ts).ret = .ok false) :
    ∃ m, r.lookup "message" = some (.str m)
      ∧ (t.PerformXMLRPCLogin h n ts).ts.errorMessage = m := by
  unfold XMLRPCLoginThread.PerformXMLRPCLogin at hfail ⊢
  simp only [hreply] at hfail ⊢
  cases hr : readReply t r ts with
  | mk ts1 res =>
    cases res with
    | ok b =>
      simp only [hr] at hfail
      have hb : b = false := by simpa using hfail
      subst hb
      exact absurd hr (readReply_ne_false t r ts ts1)
    | error e =>
      simp only [hr] at hfail ⊢
      cases hm : GetReplyString r "message" with
      | error e2 => simp [hm] at hfail
      | ok m =>
        refine ⟨m, ?_, ?_⟩
        · unfold GetReplyString at hm
          split at hm
          · rename_i s hs
            simp at hm
            rw [hs, hm]
          · simp at hm
        · simp

/-- The ways a run can end in `STATE_LOGIN_FAILED`: the first round returned `false`, or
(with authentication) the first round returned `true` and the second returned `false`;
the error text of the record is the one the failing round left. -/
theorem operatorCall_failed_cases (h : Host) (t : XMLRPCLoginThread)
    (ts : ConnectionThreadState)
    (hbegin : t.beginLogin_ = true) (hts : t.threadState_ = some ts)
    (hfailed : (t.operatorCall h).phase = some State.STATE_LOGIN_FAILED) :
    ((t.PerformXMLRPCLogin h 0
        { ts with state := State.STATE_WAITING_FOR_XMLRPC_REPLY }).ret = .ok false
      ∧ (t.operatorCall h).errorMessage = some (t.PerformXMLRPCLogin h 0
          { ts with state := State.STATE_WAITING_FOR_XMLRPC_REPLY }).ts.errorMessage)
    ∨ ((t.PerformXMLRPCLogin h 0
        { ts with state := State.STATE_WAITING_FOR_XMLRPC_REPLY }).ret = .ok true
      ∧ (XMLRPCLoginThread.PerformXMLRPCLogin h 1
          { t with callMethod_ := "login_to_simulator" }
          { (t.PerformXMLRPCLogin h 0
              { ts with state := State.STATE_WAITING_FOR_XMLRPC_REPLY }).ts with
            state := State.STATE_XMLRPC_AUTH_REPLY_RECEIVED }).ret = .ok false
      ∧ (t.operatorCall h).errorMessage = some (XMLRPCLoginThread.PerformXMLRPCLogin h 1
          { t with callMethod_ := "login_to_simulator" }
          { (t.PerformXMLRPCLogin h 0
              { ts with state := State.STATE_WAITING_FOR_XMLRPC_REPLY }).ts with
            state := State.STATE_XMLRPC_AUTH_REPLY_RECEIVED }).ts.errorMessage) := by
  have hst1 := perform_state h 0 t { ts with state := State.STATE_WAITING_FOR_XMLRPC_REPLY }
  have hst2 := perform_state h 1 { t with callMethod_ := "login_to_simulator" }
    { (t.PerformXMLRPCLogin h 0
        { ts with state := State.STATE_WAITING_FOR_XMLRPC_REPLY }).ts with
      state := State.STATE_XMLRPC_AUTH_REPLY_RECEIVED }
  unfold XMLRPCLoginThread.operatorCall at hfailed ⊢
  simp only [hbegin, hts, if_true, RunResult.phase, RunResult.errorMessage] at hfailed hst2 ⊢
  cases hr1 : (t.PerformXMLRPCLogin h 0
      { ts with state := State.STATE_WAITING_FOR_XMLRPC_REPLY }).ret with
  | error e =>
    simp [hr1, hst1] at hfailed
  | ok b =>
    cases b with
    | false =>
      left
      simp [hr1]
    | true =>
      right
      simp only [hr1] at hfailed ⊢
      cases hauth : t.authentication_ with
      | false => simp [hauth] at hfailed
      | true =>
        simp only [hauth, Bool.not_true, Bool.and_false, Bool.and_self, Bool.false_eq_true,
          if_false, if_true] at hfailed hst2 ⊢
        generalize XMLRPCLoginThread.PerformXMLRPCLogin h 1 _ _ = r2 at hfailed hst2 ⊢
        cases hr2 : r2.ret with
        | error e =>
          simp [hr2, hst2] at hfailed
        | ok b2 =>
          cases b2 with
          | true => simp [hr2] at hfailed
          | false => simp [hr2]

/-- Counterexample to C17: a direct login whose client cannot be initialised, one whose
`Send` fails, and one whose reply has only an empty message all end in
`STATE_LOGIN_FAILED` with an empty `errorMessage`. -/
theorem C17_failed_with_empty_error_text :
    ((directWorker.operatorCall (scriptedHost [.initError "no route to host"])).phase
        = some State.STATE_LOGIN_FAILED
      ∧ (directWorker.operatorCall (scriptedHost [.initError "no route to host"])).errorMessage
        = some "")
    ∧ ((directWorker.operatorCall (scriptedHost [.sendError "connection reset"])).phase
        = some State.STATE_LOGIN_FAILED
      ∧ (directWorker.operatorCall (scriptedHost [.sendError "connection reset"])).errorMessage
        = some "")
    ∧ ((directWorker.operatorCall (scriptedHost [.reply replyWithEmptyMessage])).phase
        = some State.STATE_LOGIN_FAILED
      ∧ (directWorker.operatorCall (scriptedHost [.reply replyWithEmptyMessage])).errorMessage
        = some "") := by
  decide

/-- C17 as amended: when a set-up worker ends in `STATE_LOGIN_FAILED` and the peer replied
to the round that failed (the first round, or the second round after a successful
authentication round), that reply has a message field and `errorMessage` is that
message, as it was sent. -/
theorem C17_failed_after_reply_has_reply_message (h : Host) (t : XMLRPCLoginThread)
    (ts : ConnectionThreadState)
    (hbegin : t.beginLogin_ = true) (hts : t.threadState_ = some ts)
    (hfailed : (t.operatorCall h).phase = some State.STATE_LOGIN_FAILED) :
    (∀ r,
      (t.PerformXMLRPCLogin h 0
        { ts with state := State.STATE_WAITING_FOR_XMLRPC_REPLY }).ret = .ok false →
      h.rpc 0 (buildCall h t ts.parameters.sessionHash) = .reply r →
      ∃ m, r.lookup "message" = some (.str m) ∧ (t.operatorCall h).errorMessage = some m)
    ∧ (∀ r,
      (t.PerformXMLRPCLogin h 0
        { ts with state := State.STATE_WAITING_FOR_XMLRPC_REPLY }).ret = .ok true →
      h.rpc 1 (buildCall h { t with callMethod_ := "login_to_simulator" }
        (t.PerformXMLRPCLogin h 0
          { ts with state := State.STATE_WAITING_FOR_XMLRPC_REPLY }).ts.parameters.sessionHash)
        = .reply r →
      ∃ m, r.lookup "message" = some (.str m) ∧ (t.operatorCall h).errorMessage = some m) := by
  rcases operatorCall_failed_cases h t ts hbegin hts hfailed with ⟨h1, he⟩ | ⟨h1, h2, he⟩
  · constructor
    · intro r _ hr
      obtain ⟨m, hm, hem⟩ := perform_failed_message_any h 0 t
        { ts with state := State.STATE_WAITING_FOR_XMLRPC_REPLY } r hr h1
      exact ⟨m, hm, by rw [he, hem]⟩
    · intro r hok _
      rw [h1] at hok
      cases hok
  · constructor
    · intro r hno _
      rw [h1] at hno
      cases hno
    · intro r _ hr
      obtain ⟨m, hm, hem⟩ := perform_failed_message_any h 1
        { t with callMethod_ := "login_to_simulator" }
        { (t.PerformXMLRPCLogin h 0
            { ts with state := State.STATE_WAITING_FOR_XMLRPC_REPLY }).ts with
          state := State.STATE_XMLRPC_AUTH_REPLY_RECEIVED } r hr h2
      exact ⟨m, hm, by rw [he, hem]⟩

/-- Witness of C17 as amended: the direct login whose reply has no `circuit_code` fails
with the message of that reply; the authenticated login whose second round is refused
fails with the message of the second reply. -/
theorem C17_failed_after_reply_has_reply_message_witness :
    (∃ m, replyWithoutCircuitCode.lookup "message" = some (.str m)
      ∧ (directWorker.operatorCall (scriptedHost [.reply replyWithoutCircuitCode])).errorMessage
        = some m)
    ∧ (∃ m, authenticationRefused.lookup "message" = some (.str m)
      ∧ (authWorker.operatorCall (scriptedHost
          [.reply authenticationGranted, .reply authenticationRefused])).errorMessage
        = some m) :=
  ⟨(C17_failed_after_reply_has_reply_message (scriptedHost [.reply replyWithoutCircuitCode])
      directWorker { blankState with state := State.STATE_INIT_XMLRPC }
      rfl rfl (by decide)).1 replyWithoutCircuitCode rfl rfl,
   (C17_failed_after_reply_has_reply_message
      (scriptedHost [.reply authenticationGranted, .reply authenticationRefused])
      authWorker { blankState with state := State.STATE_INIT_XMLRPC }
      rfl rfl (by decide)).2 authenticationRefused rfl rfl⟩

/-- C18: a direct login whose reply is an empty mapping (no login field and no message
field): the exception thrown by `GetReply("message")` inside the `catch` block leaves
`operator()`, so the run does not return, the phase stays
`STATE_WAITING_FOR_XMLRPC_REPLY` and `beginLogin_` stays set. -/
theorem C18_reply_without_message_escapes :
    (directWorker.operatorCall (scriptedHost [.reply []])).completion
      = Completion.uncaught (XMLRPCException.noSuchReply "message")
    ∧ (directWorker.operatorCall (scriptedHost [.reply []])).phase
      = some State.STATE_WAITING_FOR_XMLRPC_REPLY
    ∧ (directWorker.operatorCall (scriptedHost [.reply []])).thread.beginLogin_ = true := by
  decide

/-- C19: `GetState` on a worker that has not been set up returns `STATE_DISCONNECTED`,
for a new worker and for any worker with `ready_` unset whatever its pointer holds, so
the record is not consulted; right after `SetupXMLRPCLogin`, on any worker and with any
arguments, `GetState` returns `STATE_INIT_XMLRPC`. -/
theorem C19_getState_before_and_after_setup :
    (∀ b : Bool, (XMLRPCLoginThread.new b).GetState = some State.STATE_DISCONNECTED)
    ∧ (∀ (t : XMLRPCLoginThread) (record : Option ConnectionThreadState),
        ({ t with ready_ := false, threadState_ := record }).GetState
          = some State.STATE_DISCONNECTED)
    ∧ (∀ (t : XMLRPCLoginThread)
        (first_name last_name password worldAddress worldPort callMethod : String)
        (thread_state : ConnectionThreadState)
        (authentication_login authentication_address authentication_port : String)
        (authentication : Bool),
        (t.SetupXMLRPCLogin first_name last_name password worldAddress worldPort callMethod
          thread_state authentication_login authentication_address authentication_port
          authentication).GetState = some State.STATE_INIT_XMLRPC) := by
  refine ⟨?_, ?_, ?_⟩
  · intro b
    rfl
  · intro t record
    rfl
  · intros
    rfl

end OpenSimProtocol

namespace RexLogic

theorem http_data : "http://".data = ['h', 't', 't', 'p', ':', '/', '/'] := rfl

/-- An address that begins with "http://" is left as it is. -/
theorem schemeInserted_of_http (rest : String) :
    schemeInserted ("http://" ++ rest) = ("http://" ++ rest, []) := by
  have hmid : midRef07 ("http://" ++ rest) = "http://" := by
    apply String.ext
    simp [midRef07, String.data_append, http_data]
  simp [schemeInserted, hmid]

/-- An address that does not begin with "http://" gets it in front. -/
theorem schemeInserted_of_other (s : String) (h : ¬ ∃ rest, s = "http://" ++ rest) :
    schemeInserted s = ("http://" ++ s, ["http:// was missing from url, corrected"]) := by
  have hmid : midRef07 s ≠ "http://" := by
    intro hm
    apply h
    refine ⟨String.mk (s.data.drop 7), ?_⟩
    apply String.ext
    have hd : s.data.take 7 = "http://".data := congrArg String.data hm
    rw [String.data_append, ← hd]
    simp
  simp [schemeInserted, hmid]

/-- Counterexample to C20: the address "https://example.org" carries a scheme and is not
passed on unchanged: the URL built from it is "http://https://example.org". -/
theorem C20_https_address_gets_http_in_front :
    (ValidateServerUrl (fun _ => true) "https://example.org").1.text
      = "http://https://example.org"
    ∧ (ValidateServerUrl (fun _ => true) "https://example.org").1.text
      ≠ "https://example.org" := by
  decide

/-- C20 as amended: `ValidateServerUrl` builds its URL from the address with "http://"
put in front exactly when the address does not begin with "http://": an address that
begins with "http://" is taken unchanged, every other address (one with another scheme
included) gets "http://" in front, and doing this to an address to which it has been
done changes nothing. -/
theorem C20_http_inserted_unless_present (urlValid : String → Bool) :
    (∀ s, (ValidateServerUrl urlValid s).1
        = if urlValid (schemeInserted s).1 then
            { text := (schemeInserted s).1, isValid := true }
          else QUrl.empty)
    ∧ (∀ rest, (schemeInserted ("http://" ++ rest)).1 = "http://" ++ rest)
    ∧ (∀ s, (¬ ∃ rest, s = "http://" ++ rest) → (schemeInserted s).1 = "http://" ++ s)
    ∧ (∀ s, (schemeInserted (schemeInserted s).1).1 = (schemeInserted s).1) := by
  refine ⟨?_, ?_, ?_, ?_⟩
  · intro s
    unfold ValidateServerUrl QUrl.ofString
    cases hv : urlValid (schemeInserted s).1 <;> simp [hv]
  · intro rest
    rw [schemeInserted_of_http]
  · intro s hs
    rw [schemeInserted_of_other s hs]
  · intro s
    by_cases hs : ∃ rest, s = "http://" ++ rest
    · obtain ⟨rest, rfl⟩ := hs
      rw [schemeInserted_of_http, schemeInserted_of_http]
    · rw [schemeInserted_of_other s hs, schemeInserted_of_http]

/-- Witness of C20 as amended: "https://example.org" does not begin with "http://" and
becomes "http://https://example.org". -/
theorem C20_http_inserted_unless_present_witness :
    (¬ ∃ rest, "https://example.org" = "http://" ++ rest)
    ∧ (schemeInserted "https://example.org").1 = "http://" ++ "https://example.org" := by
  have hno : ¬ ∃ rest, "https://example.org" = "http://" ++ rest := by
    rintro ⟨rest, h⟩
    have hd := congrArg (fun x => x.data.take 5) h
    simp [String.data_append, http_data] at hd
  exact ⟨hno, (C20_http_inserted_unless_present (fun _ => true)).2.2.1
    "https://example.org" hno⟩

/-- C21: `ProcessRealXtendLogin` with a valid world address and the authentication
address "not a url", which is invalid after sanitation: `LoginStarted` is emitted and
`InstantiateWorldSession` is called, with an empty authentication URL in the
credentials. -/
theorem C21_invalid_authentication_url_does_not_stop_login :
    (ValidateServerUrl (exampleServices true true).urlValid "not a url").1.isValid = false
    ∧ HandlerEvent.LoginStarted ∈
        ((OpenSimLoginHandler.new []).ProcessRealXtendLogin (exampleServices true true)
          badAuthenticationFields).log
    ∧ HandlerEvent.InstantiateWorldSession ∈
        ((OpenSimLoginHandler.new []).ProcessRealXtendLogin (exampleServices true true)
          badAuthenticationFields).log
    ∧ ((OpenSimLoginHandler.new []).ProcessRealXtendLogin (exampleServices true true)
          badAuthenticationFields).credentials_
        = some (Credentials.RealXtend "jane" "secret" QUrl.empty) := by
  decide

/-- C22: an authenticated login through "auth.example.org:10001" that starts its
session: when the key `auth_server` did not exist it is created with the host
"auth.example.org", when it existed it is updated to the authority
"auth.example.org:10001"; the keys `rex_server` and `auth_name` get the same value
both ways. -/
theorem C22_auth_server_differs_between_create_and_update :
    ((OpenSimLoginHandler.new []).ProcessRealXtendLogin (exampleServices true true)
        authenticatedLoginFields).config
      = [("rex_server", "example.org:9000"), ("auth_server", "auth.example.org"),
         ("auth_name", "jane")]
    ∧ ((OpenSimLoginHandler.new
          [("rex_server", "old"), ("auth_server", "old"), ("auth_name", "old")]).ProcessRealXtendLogin
        (exampleServices true true) authenticatedLoginFields).config
      = [("rex_server", "example.org:9000"), ("auth_server", "auth.example.org:10001"),
         ("auth_name", "jane")] := by
  decide

theorem saveSetting_members (hd : OpenSimLoginHandler) (key a b : String) :
    (hd.saveSetting key a b).credentials_ = hd.credentials_
    ∧ (hd.saveSetting key a b).server_entry_point_url_ = hd.server_entry_point_url_
    ∧ (hd.saveSetting key a b).opensim_world_session_ = hd.opensim_world_session_
    ∧ (hd.saveSetting key a b).realxtend_world_session_ = hd.realxtend_world_session_
    ∧ (hd.saveSetting key a b).liveCredentials = hd.liveCredentials
    ∧ (hd.saveSetting key a b).liveOpenSimSessions = hd.liveOpenSimSessions
    ∧ (hd.saveSetting key a b).liveRealXtendSessions = hd.liveRealXtendSessions
    ∧ (hd.saveSetting key a b).log.filter HandlerEvent.isCredentialsEvent
        = hd.log.filter HandlerEvent.isCredentialsEvent
    ∧ (∀ e, e ∈ hd.log → e ∈ (hd.saveSetting key a b).log) := by
  unfold OpenSimLoginHandler.saveSetting
  split <;> simp [HandlerEvent.isCredentialsEvent] <;> tauto

/-- The predicate `Tidy` looks at the pointers and the counts only. -/
theorem tidy_saveSetting (hd : OpenSimLoginHandler) (key a b : String) (h : hd.Tidy) :
    (hd.saveSetting key a b).Tidy := by
  obtain ⟨h1, _, h3, h4, h5, h6, h7, _, _⟩ := saveSetting_members hd key a b
  unfold OpenSimLoginHandler.Tidy at h ⊢
  rw [h1, h3, h4, h5, h6, h7]
  exact h

/-- `InstantiateWorldSession` does not touch the credential object. -/
theorem os_instantiate_credentials (w : Services) (hd : OpenSimLoginHandler) :
    (hd.InstantiateWorldSession w).credentials_ = hd.credentials_
    ∧ (hd.InstantiateWorldSession w).log.filter HandlerEvent.isCredentialsEvent
        = hd.log.filter HandlerEvent.isCredentialsEvent := by
  unfold OpenSimLoginHandler.InstantiateWorldSession
  simp only []
  repeat' split
  all_goals
    simp [(saveSetting_members _ _ _ _).1, (saveSetting_members _ _ _ _).2.2.2.2.2.2.2.1,
      HandlerEvent.isCredentialsEvent, *]

theorem held_some {α : Type} (a : α) : held (some a) = 1 := rfl

theorem held_none {α : Type} : held (none : Option α) = 0 := rfl

theorem held_le_one {α : Type} (pointer : Option α) : held pointer ≤ 1 := by
  cases pointer <;> simp [held]

/-- `InstantiateWorldSession` keeps the handler tidy: a session is created only after
the one held was deleted. -/
theorem os_instantiate_tidy (w : Services) (hd : OpenSimLoginHandler) (h : hd.Tidy) :
    (hd.InstantiateWorldSession w).Tidy := by
  obtain ⟨h1, h2, h3⟩ := h
  unfold OpenSimLoginHandler.InstantiateWorldSession
  simp only []
  repeat' split
  all_goals first
    | exact ⟨h1, h2, h3⟩
    | (repeat' apply tidy_saveSetting
       unfold OpenSimLoginHandler.Tidy
       simp_all [held])

/-- The members after `SAFE_DELETE(credentials_); credentials_ = new ...`. -/
theorem replaceCredentials_members (hd : OpenSimLoginHandler) (fresh : Credentials) :
    (hd.replaceCredentials fresh).credentials_ = some fresh
    ∧ (hd.replaceCredentials fresh).opensim_world_session_ = hd.opensim_world_session_
    ∧ (hd.replaceCredentials fresh).realxtend_world_session_ = hd.realxtend_world_session_
    ∧ (hd.replaceCredentials fresh).config = hd.config
    ∧ (hd.replaceCredentials fresh).log = hd.log
        ++ (match hd.credentials_ with
            | some old => [HandlerEvent.deleteCredentials old.kind]
            | none => [])
        ++ [HandlerEvent.newCredentials fresh.kind]
    ∧ (hd.Tidy → (hd.replaceCredentials fresh).Tidy) := by
  unfold OpenSimLoginHandler.replaceCredentials OpenSimLoginHandler.Tidy
  cases hc : hd.credentials_ with
  | none => simp_all [held]
  | some old => simp_all [held]

/-! ## The parts of a user name -/

theorem logged_no_credentials (lines : List String) :
    (logged lines).filter HandlerEvent.isCredentialsEvent = [] := by
  induction lines with
  | nil => rfl
  | cons l ls ih =>
    simp [logged, HandlerEvent.isCredentialsEvent]

/-- What `ProcessOpenSimLogin` does to the credential object, to the log of credential
events and to tidiness. -/
theorem processOpenSimLogin_credentials (w : Services) (map : List (String × String))
    (hd : OpenSimLoginHandler) :
    (hd.ProcessOpenSimLogin w map).credentials_
      = some (if (splitOnSpace (mapValue map "Username")).length = 2 then
          Credentials.OpenSim ((splitOnSpace (mapValue map "Username")).getD 0 "")
            ((splitOnSpace (mapValue map "Username")).getD 1 "") (mapValue map "Password")
        else Credentials.OpenSim "" "" "")
    ∧ (hd.ProcessOpenSimLogin w map).log.filter HandlerEvent.isCredentialsEvent
      = hd.log.filter HandlerEvent.isCredentialsEvent
        ++ (match hd.credentials_ with
            | some old => [HandlerEvent.deleteCredentials old.kind]
            | none => [])
        ++ [HandlerEvent.newCredentials CredentialsKind.OpenSim]
    ∧ (hd.Tidy → (hd.ProcessOpenSimLogin w map).Tidy) := by
  obtain ⟨hr1, hr2, hr3, hr4, hr5, hr6⟩ :=
    replaceCredentials_members hd (Credentials.OpenSim "" "" "")
  have hfilter : (hd.replaceCredentials (Credentials.OpenSim "" "" "")).log.filter
      HandlerEvent.isCredentialsEvent
      = hd.log.filter HandlerEvent.isCredentialsEvent
        ++ (match hd.credentials_ with
            | some old => [HandlerEvent.deleteCredentials old.kind]
            | none => [])
        ++ [HandlerEvent.newCredentials CredentialsKind.OpenSim] := by
    rw [hr5]
    cases hd.credentials_ <;>
      simp [List.filter_append, HandlerEvent.isCredentialsEvent, Credentials.kind]
  unfold OpenSimLoginHandler.ProcessOpenSimLogin
  simp only [beq_iff_eq]
  by_cases hlen : (splitOnSpace (mapValue map "Username")).length = 2
  · simp only [hlen, if_true]
    split
    · refine ⟨?_, ?_, ?_⟩
      · rw [(os_instantiate_credentials w _).1]
      · rw [(os_instantiate_credentials w _).2]
        simp only [List.filter_append, logged_no_credentials, hfilter]
        simp [HandlerEvent.isCredentialsEvent]
      · intro ht
        apply os_instantiate_tidy
        have h2 := hr6 ht
        unfold OpenSimLoginHandler.Tidy at h2 ⊢
        simp only [hr1, held_some] at h2
        simpa [held_some] using h2
    · refine ⟨rfl, ?_, ?_⟩
      · simp only [List.filter_append, logged_no_credentials, hfilter]
        simp
      · intro ht
        have h2 := hr6 ht
        unfold OpenSimLoginHandler.Tidy at h2 ⊢
        simp only [hr1, held_some] at h2
        simpa [held_some] using h2
  · simp only [hlen, if_false]
    refine ⟨hr1, ?_, ?_⟩
    · simp only [List.filter_append, hfilter]
      simp [HandlerEvent.isCredentialsEvent]
    · intro ht
      exact hr6 ht

/-- What `ProcessRealXtendLogin` does to the credential object, to the log of credential
events and to tidiness. -/
theorem processRealXtendLogin_credentials (w : Services) (map : List (String × String))
    (hd : OpenSimLoginHandler) :
    (hd.ProcessRealXtendLogin w map).credentials_
      = some (Credentials.RealXtend (mapValue map "Username") (mapValue map "Password")
          (ValidateServerUrl w.urlValid (mapValue map "AuthenticationAddress")).1)
    ∧ (hd.ProcessRealXtendLogin w map).log.filter HandlerEvent.isCredentialsEvent
      = hd.log.filter HandlerEvent.isCredentialsEvent
        ++ (match hd.credentials_ with
            | some old => [HandlerEvent.deleteCredentials old.kind]
            | none => [])
        ++ [HandlerEvent.newCredentials CredentialsKind.RealXtend]
    ∧ (hd.Tidy → (hd.ProcessRealXtendLogin w map).Tidy) := by
  obtain ⟨hr1, hr2, hr3, hr4, hr5, hr6⟩ :=
    replaceCredentials_members hd (Credentials.RealXtend "" "" QUrl.empty)
  have hfilter : (hd.replaceCredentials (Credentials.RealXtend "" "" QUrl.empty)).log.filter
      HandlerEvent.isCredentialsEvent
      = hd.log.filter HandlerEvent.isCredentialsEvent
        ++ (match hd.credentials_ with
            | some old => [HandlerEvent.deleteCredentials old.kind]
            | none => [])
        ++ [HandlerEvent.newCredentials CredentialsKind.RealXtend] := by
    rw [hr5]
    cases hd.credentials_ <;>
      simp [List.filter_append, HandlerEvent.isCredentialsEvent, Credentials.kind]
  unfold OpenSimLoginHandler.ProcessRealXtendLogin
  simp only []
  split
  · refine ⟨?_, ?_, ?_⟩
    · rw [(os_instantiate_credentials w _).1]
    · rw [(os_instantiate_credentials w _).2]
      simp only [List.filter_append, logged_no_credentials, hfilter]
      simp [HandlerEvent.isCredentialsEvent]
    · intro ht
      apply os_instantiate_tidy
      have h2 := hr6 ht
      unfold OpenSimLoginHandler.Tidy at h2 ⊢
      simp only [hr1, held_some] at h2
      simpa [held_some] using h2
  · refine ⟨rfl, ?_, ?_⟩
    · simp only [List.filter_append, logged_no_credentials, hfilter]
      simp
    · intro ht
      have h2 := hr6 ht
      unfold OpenSimLoginHandler.Tidy at h2 ⊢
      simp only [hr1, held_some] at h2
      simpa [held_some] using h2

/-- `InstantiateWorldSession` of the URL handler: the credential object and the log of
credential events are untouched, and tidiness is kept. -/
theorem taiga_instantiate_frame (w : Services) (hd : TaigaLoginHandler) :
    (hd.InstantiateWorldSession w).credentials_ = hd.credentials_
    ∧ (hd.InstantiateWorldSession w).log.filter HandlerEvent.isCredentialsEvent
        = hd.log.filter HandlerEvent.isCredentialsEvent
    ∧ (hd.Tidy → (hd.InstantiateWorldSession w).Tidy) := by
  unfold TaigaLoginHandler.InstantiateWorldSession TaigaLoginHandler.Tidy
  simp only []
  repeat' split
  all_goals simp_all [HandlerEvent.isCredentialsEvent, held]

/-- The statement `SetIdentityUrl` changes the identity URL of the object held and
nothing else. -/
theorem setIdentityUrl_some (hd hd1 : TaigaLoginHandler) (url : String)
    (h : hd.SetIdentityUrl url = some hd1) :
    hd1 = { hd with credentials_ := some (Credentials.Taiga url) }
    ∧ ∃ old, hd.credentials_ = some (Credentials.Taiga old) := by
  unfold TaigaLoginHandler.SetIdentityUrl at h
  split at h
  · rename_i old hold
    injection h with h
    exact ⟨h.symm, old, hold⟩
  · cases h

theorem taiga_tidy_setCredentials (hd : TaigaLoginHandler) (old url : String)
    (log : List HandlerEvent) (entry : QUrl)
    (hold : hd.credentials_ = some (Credentials.Taiga old)) (ht : hd.Tidy) :
    TaigaLoginHandler.Tidy { hd with credentials_ := some (Credentials.Taiga url),
                                     server_entry_point_url_ := entry, log := log } := by
  unfold TaigaLoginHandler.Tidy at ht ⊢
  rw [hold] at ht
  exact ht

/-- What `ProcessCommandParameterLogin` does to the credential object. -/
theorem processCommandParameterLogin_credentials (w : Services) (url : String)
    (hd hd1 : TaigaLoginHandler)
    (h : hd.ProcessCommandParameterLogin w url = some hd1) :
    hd1.credentials_ = some (Credentials.Taiga "NotNeeded")
    ∧ hd1.log.filter HandlerEvent.isCredentialsEvent
        = hd.log.filter HandlerEvent.isCredentialsEvent
    ∧ (hd.Tidy → hd1.Tidy) := by
  unfold TaigaLoginHandler.ProcessCommandParameterLogin at h
  simp only [] at h
  split at h
  · cases h
  · rename_i hd2 hset
    obtain ⟨h2, old, hold⟩ := setIdentityUrl_some _ _ _ hset
    subst h2
    split at h
    · injection h with h
      subst h
      obtain ⟨f1, f2, f3⟩ := taiga_instantiate_frame w
        { hd with credentials_ := some (Credentials.Taiga "NotNeeded")
                  server_entry_point_url_ := (ValidateServerUrl w.urlValid url).1
                  log := hd.log ++ logged (ValidateServerUrl w.urlValid url).2
                    ++ [HandlerEvent.LoginStarted] }
      refine ⟨f1, ?_, ?_⟩
      · rw [f2]
        simp [List.filter_append, logged_no_credentials, HandlerEvent.isCredentialsEvent]
      · intro ht
        exact f3 (taiga_tidy_setCredentials hd old _ _ _ hold ht)
    · injection h with h
      subst h
      refine ⟨rfl, ?_, ?_⟩
      · simp [List.filter_append, logged_no_credentials]
      · intro ht
        exact taiga_tidy_setCredentials hd old _ _ _ hold ht

/-- What `ProcessWebLogin` does to the credential object. -/
theorem processWebLogin_credentials (w : Services) (returnValue : String)
    (hd hd1 : TaigaLoginHandler)
    (h : hd.ProcessWebLogin w returnValue = some hd1) :
    hd1.credentials_ = some (Credentials.Taiga
        (midRef returnValue (lastIndexOfFrom "&".data returnValue.data 0 (-1) + 1)
          (returnValue.data.length - 1)))
    ∧ hd1.log.filter HandlerEvent.isCredentialsEvent
        = hd.log.filter HandlerEvent.isCredentialsEvent
    ∧ (hd.Tidy → hd1.Tidy) := by
  unfold TaigaLoginHandler.ProcessWebLogin at h
  simp only [] at h
  split at h
  · cases h
  · rename_i hd2 hset
    obtain ⟨h2, old, hold⟩ := setIdentityUrl_some _ _ _ hset
    subst h2
    split at h
    · injection h with h
      subst h
      obtain ⟨f1, f2, f3⟩ := taiga_instantiate_frame w
        { hd with
          credentials_ := some (Credentials.Taiga
            (midRef returnValue (lastIndexOfFrom "&".data returnValue.data 0 (-1) + 1)
              (returnValue.data.length - 1)))
          server_entry_point_url_ := (ValidateServerUrl w.urlValid
            (midRef returnValue (indexOfFrom "http://".data returnValue.data 0)
              (indexOfFrom "?".data returnValue.data 0
                - indexOfFrom "http://".data returnValue.data 0))).1
          log := hd.log ++ logged (ValidateServerUrl w.urlValid
            (midRef returnValue (indexOfFrom "http://".data returnValue.data 0)
              (indexOfFrom "?".data returnValue.data 0
                - indexOfFrom "http://".data returnValue.data 0))).2
            ++ [HandlerEvent.LoginStarted] }
      refine ⟨f1, ?_, ?_⟩
      · rw [f2]
        simp [List.filter_append, logged_no_credentials, HandlerEvent.isCredentialsEvent]
      · intro ht
        exact f3 (taiga_tidy_setCredentials hd old _ _ _ hold ht)
    · injection h with h
      subst h
      refine ⟨rfl, ?_, ?_⟩
      · simp [List.filter_append, logged_no_credentials]
      · intro ht
        exact taiga_tidy_setCredentials hd old _ _ _ hold ht

/-! ## Session events of the entry points -/

theorem saveSetting_sessions (hd : OpenSimLoginHandler) (key a b : String) :
    (hd.saveSetting key a b).log.filter HandlerEvent.isSessionEvent
      = hd.log.filter HandlerEvent.isSessionEvent := by
  unfold OpenSimLoginHandler.saveSetting
  split <;> simp [HandlerEvent.isSessionEvent]

theorem logged_no_sessions (lines : List String) :
    (logged lines).filter HandlerEvent.isSessionEvent = [] := by
  induction lines with
  | nil => rfl
  | cons l ls ih =>
    simp [logged, HandlerEvent.isSessionEvent]

/-- The session events of `OpenSimLoginHandler::InstantiateWorldSession`: with
credentials of one of its two classes and a prepared protocol module, the session held
for that class is deleted and then a new one is created; otherwise there are none. -/
theorem os_instantiate_sessions (w : Services) (hd : OpenSimLoginHandler) :
    (hd.InstantiateWorldSession w).log.filter HandlerEvent.isSessionEvent
      = hd.log.filter HandlerEvent.isSessionEvent
        ++ (match hd.credentials_ with
            | some (.OpenSim _ _ _) =>
              if w.PrepareCurrentProtocolModule then
                discardThenCreate SessionKind.OpenSim hd.opensim_world_session_
              else []
            | some (.RealXtend _ _ _) =>
              if w.PrepareCurrentProtocolModule then
                discardThenCreate SessionKind.RealXtend hd.realxtend_world_session_
              else []
            | _ => []) := by
  unfold OpenSimLoginHandler.InstantiateWorldSession
  simp only []
  repeat' split
  all_goals
    simp_all [saveSetting_sessions, HandlerEvent.isSessionEvent, discardThenCreate,
      List.filter_append]

theorem replaceCredentials_sessions (hd : OpenSimLoginHandler) (fresh : Credentials) :
    (hd.replaceCredentials fresh).log.filter HandlerEvent.isSessionEvent
      = hd.log.filter HandlerEvent.isSessionEvent := by
  rw [(replaceCredentials_members hd fresh).2.2.2.2.1]
  cases hd.credentials_ <;> simp [List.filter_append, HandlerEvent.isSessionEvent]

/-- The session events of `ProcessOpenSimLogin`. -/
theorem processOpenSimLogin_sessions (w : Services) (map : List (String × String))
    (hd : OpenSimLoginHandler) :
    (hd.ProcessOpenSimLogin w map).log.filter HandlerEvent.isSessionEvent
      = hd.log.filter HandlerEvent.isSessionEvent
        ++ (if (splitOnSpace (mapValue map "Username")).length = 2
              ∧ (ValidateServerUrl w.urlValid (mapValue map "WorldAddress")).1.isValid = true
              ∧ w.PrepareCurrentProtocolModule = true
            then discardThenCreate SessionKind.OpenSim hd.opensim_world_session_
            else []) := by
  obtain ⟨hr1, hr2, hr3, hr4, hr5, hr6⟩ :=
    replaceCredentials_members hd (Credentials.OpenSim "" "" "")
  have hrs := replaceCredentials_sessions hd (Credentials.OpenSim "" "" "")
  unfold OpenSimLoginHandler.ProcessOpenSimLogin
  simp only [beq_iff_eq]
  by_cases hlen : (splitOnSpace (mapValue map "Username")).length = 2
  · simp only [hlen, if_true, true_and]
    by_cases hv : (ValidateServerUrl w.urlValid (mapValue map "WorldAddress")).1.isValid = true
    · simp only [hv, if_true, true_and]
      rw [os_instantiate_sessions]
      dsimp only
      rw [hr2]
      simp only [List.filter_append, logged_no_sessions, hrs]
      cases hp : w.PrepareCurrentProtocolModule <;> simp [HandlerEvent.isSessionEvent]
    · simp only [hv, Bool.false_eq_true, if_false, false_and]
      simp only [List.filter_append, logged_no_sessions, hrs]
  · simp only [hlen, if_false, false_and]
    simp only [List.filter_append, hrs]
    simp [HandlerEvent.isSessionEvent]

/-- The session events of `ProcessRealXtendLogin`. -/
theorem processRealXtendLogin_sessions (w : Services) (map : List (String × String))
    (hd : OpenSimLoginHandler) :
    (hd.ProcessRealXtendLogin w map).log.filter HandlerEvent.isSessionEvent
      = hd.log.filter HandlerEvent.isSessionEvent
        ++ (if (ValidateServerUrl w.urlValid (mapValue map "WorldAddress")).1.isValid = true
              ∧ w.PrepareCurrentProtocolModule = true
            then discardThenCreate SessionKind.RealXtend hd.realxtend_world_session_
            else []) := by
  obtain ⟨hr1, hr2, hr3, hr4, hr5, hr6⟩ :=
    replaceCredentials_members hd (Credentials.RealXtend "" "" QUrl.empty)
  have hrs := replaceCredentials_sessions hd (Credentials.RealXtend "" "" QUrl.empty)
  unfold OpenSimLoginHandler.ProcessRealXtendLogin
  simp only []
  by_cases hv : (ValidateServerUrl w.urlValid (mapValue map "WorldAddress")).1.isValid = true
  · simp only [hv, if_true, true_and]
    rw [os_instantiate_sessions]
    dsimp only
    rw [hr3]
    simp only [List.filter_append, logged_no_sessions, hrs]
    cases hp : w.PrepareCurrentProtocolModule <;> simp [HandlerEvent.isSessionEvent]
  · simp only [hv, Bool.false_eq_true, if_false, false_and]
    simp only [List.filter_append, logged_no_sessions, hrs]
    simp

/-- The session events of `TaigaLoginHandler::InstantiateWorldSession`. -/
theorem taiga_instantiate_sessions (w : Services) (hd : TaigaLoginHandler) :
    (hd.InstantiateWorldSession w).log.filter HandlerEvent.isSessionEvent
      = hd.log.filter HandlerEvent.isSessionEvent
        ++ (if w.PrepareCurrentProtocolModule then
              discardThenCreate SessionKind.Taiga hd.taiga_world_session_
            else []) := by
  unfold TaigaLoginHandler.InstantiateWorldSession
  simp only []
  repeat' split
  all_goals
    simp_all [HandlerEvent.isSessionEvent, discardThenCreate, List.filter_append]

/-- The session events of `ProcessCommandParameterLogin`. -/
theorem processCommandParameterLogin_sessions (w : Services) (url : String)
    (hd hd1 : TaigaLoginHandler)
    (h : hd.ProcessCommandParameterLogin w url = some hd1) :
    hd1.log.filter HandlerEvent.isSessionEvent
      = hd.log.filter HandlerEvent.isSessionEvent
        ++ (if (ValidateServerUrl w.urlValid url).1.isValid = true
              ∧ w.PrepareCurrentProtocolModule = true
            then discardThenCreate SessionKind.Taiga hd.taiga_world_session_
            else []) := by
  unfold TaigaLoginHandler.ProcessCommandParameterLogin at h
  simp only [] at h
  split at h
  · cases h
  · rename_i hd2 hset
    obtain ⟨h2, old, hold⟩ := setIdentityUrl_some _ _ _ hset
    subst h2
    split at h
    · rename_i hv
      injection h with h
      subst h
      have hv2 : (ValidateServerUrl w.urlValid url).1.isValid = true := hv
      rw [taiga_instantiate_sessions]
      simp only [hv2, true_and]
      simp only [List.filter_append, logged_no_sessions]
      cases hp : w.PrepareCurrentProtocolModule <;> simp [HandlerEvent.isSessionEvent]
    · rename_i hv
      injection h with h
      subst h
      have hv2 : ¬ (ValidateServerUrl w.urlValid url).1.isValid = true := hv
      simp only [hv2, false_and, if_false]
      simp [List.filter_append, logged_no_sessions]

/-- The session events of `ProcessWebLogin`. -/
theorem processWebLogin_sessions (w : Services) (returnValue : String)
    (hd hd1 : TaigaLoginHandler)
    (h : hd.ProcessWebLogin w returnValue = some hd1) :
    hd1.log.filter HandlerEvent.isSessionEvent
      = hd.log.filter HandlerEvent.isSessionEvent
        ++ (if (ValidateServerUrl w.urlValid
                (midRef returnValue (indexOfFrom "http://".data returnValue.data 0)
                  (indexOfFrom "?".data returnValue.data 0
                    - indexOfFrom "http://".data returnValue.data 0))).1.isValid = true
              ∧ w.PrepareCurrentProtocolModule = true
            then discardThenCreate SessionKind.Taiga hd.taiga_world_session_
            else []) := by
  unfold TaigaLoginHandler.ProcessWebLogin at h
  simp only [] at h
  split at h
  · cases h
  · rename_i hd2 hset
    obtain ⟨h2, old, hold⟩ := setIdentityUrl_some _ _ _ hset
    subst h2
    split at h
    · rename_i hv
      injection h with h
      subst h
      have hv2 : (ValidateServerUrl w.urlValid
                (midRef returnValue (indexOfFrom "http://".data returnValue.data 0)
                  (indexOfFrom "?".data returnValue.data 0
                    - indexOfFrom "http://".data returnValue.data 0))).1.isValid = true := hv
      rw [taiga_instantiate_sessions]
      simp only [hv2, true_and]
      simp only [List.filter_append, logged_no_sessions]
      cases hp : w.PrepareCurrentProtocolModule <;> simp [HandlerEvent.isSessionEvent]
    · rename_i hv
      injection h with h
      subst h
      have hv2 : ¬ (ValidateServerUrl w.urlValid
                (midRef returnValue (indexOfFrom "http://".data returnValue.data 0)
                  (indexOfFrom "?".data returnValue.data 0
                    - indexOfFrom "http://".data returnValue.data 0))).1.isValid = true := hv
      simp only [hv2, false_and, if_false]
      simp [List.filter_append, logged_no_sessions]

/-- Counterexample to C24: two URL logins in a row on a new `TaigaLoginHandler`, by
`ProcessCommandParameterLogin` and then by `ProcessWebLogin`: the only credential event
of the whole log is the creation in the constructor; no credential object is discarded
and none is built by either entry point. -/
theorem C24_url_logins_reuse_the_credential_object :
    (((TaigaLoginHandler.new []).ProcessCommandParameterLogin (exampleServices true true)
        "world.example.org:9000").bind
      (fun hd => hd.ProcessWebLogin (exampleServices true true)
        "http://world.example.org:9000?first&http://id.example.org/jane")).map
      (fun hd => (hd.log.filter HandlerEvent.isCredentialsEvent, hd.credentials_))
    = some ([HandlerEvent.newCredentials CredentialsKind.Taiga],
        some (Credentials.Taiga "http://id.example.org/jane")) := by
  decide

/-- C24 as amended: `ProcessOpenSimLogin` and `ProcessRealXtendLogin` delete the
credential object held and create one of their variant, whose fields are the same
whatever the handler held before; `ProcessCommandParameterLogin` and `ProcessWebLogin`
create and delete no credential object and overwrite the identity URL of the one held;
a call that creates a world session (user name in two parts for the direct login, valid
entry point URL, protocol module prepared) first deletes the session object of that
variant the handler held, if any, and then creates the new one, and a call that creates
none deletes none; and all four keep the handler tidy: the objects created and not
deleted are those the pointers hold, at most one credential object and one world session
per variant. -/
theorem C24_credentials_replaced_sessions_single (w : Services) :
    (∀ (map : List (String × String)) (hd : OpenSimLoginHandler),
      (hd.ProcessOpenSimLogin w map).log.filter HandlerEvent.isCredentialsEvent
        = hd.log.filter HandlerEvent.isCredentialsEvent
          ++ (match hd.credentials_ with
              | some old => [HandlerEvent.deleteCredentials old.kind]
              | none => [])
          ++ [HandlerEvent.newCredentials CredentialsKind.OpenSim]
      ∧ (hd.ProcessOpenSimLogin w map).credentials_.map Credentials.kind
          = some CredentialsKind.OpenSim
      ∧ (∀ other : OpenSimLoginHandler, (other.ProcessOpenSimLogin w map).credentials_
          = (hd.ProcessOpenSimLogin w map).credentials_)
      ∧ (hd.ProcessOpenSimLogin w map).log.filter HandlerEvent.isSessionEvent
        = hd.log.filter HandlerEvent.isSessionEvent
          ++ (if (splitOnSpace (mapValue map "Username")).length = 2
                ∧ (ValidateServerUrl w.urlValid (mapValue map "WorldAddress")).1.isValid = true
                ∧ w.PrepareCurrentProtocolModule = true
              then discardThenCreate SessionKind.OpenSim hd.opensim_world_session_
              else [])
      ∧ (hd.Tidy → (hd.ProcessOpenSimLogin w map).Tidy))
    ∧ (∀ (map : List (String × String)) (hd : OpenSimLoginHandler),
      (hd.ProcessRealXtendLogin w map).log.filter HandlerEvent.isCredentialsEvent
        = hd.log.filter HandlerEvent.isCredentialsEvent
          ++ (match hd.credentials_ with
              | some old => [HandlerEvent.deleteCredentials old.kind]
              | none => [])
          ++ [HandlerEvent.newCredentials CredentialsKind.RealXtend]
      ∧ (hd.ProcessRealXtendLogin w map).credentials_.map Credentials.kind
          = some CredentialsKind.RealXtend
      ∧ (∀ other : OpenSimLoginHandler, (other.ProcessRealXtendLogin w map).credentials_
          = (hd.ProcessRealXtendLogin w map).credentials_)
      ∧ (hd.ProcessRealXtendLogin w map).log.filter HandlerEvent.isSessionEvent
        = hd.log.filter HandlerEvent.isSessionEvent
          ++ (if (ValidateServerUrl w.urlValid (mapValue map "WorldAddress")).1.isValid = true
                ∧ w.PrepareCurrentProtocolModule = true
              then discardThenCreate SessionKind.RealXtend hd.realxtend_world_session_
              else [])
      ∧ (hd.Tidy → (hd.ProcessRealXtendLogin w map).Tidy))
    ∧ (∀ (url : String) (hd hd1 : TaigaLoginHandler),
      hd.ProcessCommandParameterLogin w url = some hd1 →
      hd1.log.filter HandlerEvent.isCredentialsEvent
        = hd.log.filter HandlerEvent.isCredentialsEvent
      ∧ hd1.credentials_ = some (Credentials.Taiga "NotNeeded")
      ∧ hd1.log.filter HandlerEvent.isSessionEvent
        = hd.log.filter HandlerEvent.isSessionEvent
          ++ (if (ValidateServerUrl w.urlValid url).1.isValid = true
                ∧ w.PrepareCurrentProtocolModule = true
              then discardThenCreate SessionKind.Taiga hd.taiga_world_session_
              else [])
      ∧ (hd.Tidy → hd1.Tidy))
    ∧ (∀ (returnValue : String) (hd hd1 : TaigaLoginHandler),
      hd.ProcessWebLogin w returnValue = some hd1 →
      hd1.log.filter HandlerEvent.isCredentialsEvent
        = hd.log.filter HandlerEvent.isCredentialsEvent
      ∧ hd1.credentials_ = some (Credentials.Taiga
          (midRef returnValue (lastIndexOfFrom "&".data returnValue.data 0 (-1) + 1)
            (returnValue.data.length - 1)))
      ∧ hd1.log.filter HandlerEvent.isSessionEvent
        = hd.log.filter HandlerEvent.isSessionEvent
          ++ (if (ValidateServerUrl w.urlValid
                  (midRef returnValue (indexOfFrom "http://".data returnValue.data 0)
                    (indexOfFrom "?".data returnValue.data 0
                      - indexOfFrom "http://".data returnValue.data 0))).1.isValid = true
                ∧ w.PrepareCurrentProtocolModule = true
              then discardThenCreate SessionKind.Taiga hd.taiga_world_session_
              else [])
      ∧ (hd.Tidy → hd1.Tidy))
    ∧ (∀ config, (OpenSimLoginHandler.new config).Tidy ∧ (TaigaLoginHandler.new config).Tidy)
    ∧ (∀ hd : OpenSimLoginHandler, hd.Tidy →
        hd.liveCredentials ≤ 1 ∧ hd.liveOpenSimSessions ≤ 1 ∧ hd.liveRealXtendSessions ≤ 1)
    ∧ (∀ hd : TaigaLoginHandler, hd.Tidy → hd.liveCredentials ≤ 1 ∧ hd.liveSessions ≤ 1) := by
  refine ⟨?_, ?_, ?_, ?_, ?_, ?_, ?_⟩
  · intro map hd
    obtain ⟨h1, h2, h3⟩ := processOpenSimLogin_credentials w map hd
    refine ⟨h2, ?_, ?_, processOpenSimLogin_sessions w map hd, h3⟩
    · rw [h1]
      split <;> rfl
    · intro other
      rw [h1, (processOpenSimLogin_credentials w map other).1]
  · intro map hd
    obtain ⟨h1, h2, h3⟩ := processRealXtendLogin_credentials w map hd
    refine ⟨h2, ?_, ?_, processRealXtendLogin_sessions w map hd, h3⟩
    · rw [h1]
      rfl
    · intro other
      rw [h1, (processRealXtendLogin_credentials w map other).1]
  · intro url hd hd1 h
    obtain ⟨h1, h2, h3⟩ := processCommandParameterLogin_credentials w url hd hd1 h
    exact ⟨h2, h1, processCommandParameterLogin_sessions w url hd hd1 h, h3⟩
  · intro returnValue hd hd1 h
    obtain ⟨h1, h2, h3⟩ := processWebLogin_credentials w returnValue hd hd1 h
    exact ⟨h2, h1, processWebLogin_sessions w returnValue hd hd1 h, h3⟩
  · intro config
    exact ⟨⟨rfl, rfl, rfl⟩, ⟨rfl, rfl⟩⟩
  · rintro hd ⟨h1, h2, h3⟩
    rw [h1, h2, h3]
    exact ⟨held_le_one _, held_le_one _, held_le_one _⟩
  · rintro hd ⟨h1, h2⟩
    rw [h1, h2]
    exact ⟨held_le_one _, held_le_one _⟩

/-- Witness of C24 as amended: a second direct login on a handler that has completed
one deletes the first session before it creates the second and is tidy, and the URL login
of a new URL handler creates one session and keeps the handler tidy with the identity URL
"NotNeeded". -/
theorem C24_credentials_replaced_sessions_single_witness :
    (((OpenSimLoginHandler.new []).ProcessOpenSimLogin (exampleServices true true)
        directLoginFields).ProcessOpenSimLogin (exampleServices true true)
        directLoginFields).Tidy
    ∧ (((OpenSimLoginHandler.new []).ProcessOpenSimLogin (exampleServices true true)
        directLoginFields).ProcessOpenSimLogin (exampleServices true true)
        directLoginFields).log.filter HandlerEvent.isSessionEvent
      = [HandlerEvent.newSession SessionKind.OpenSim,
         HandlerEvent.deleteSession SessionKind.OpenSim,
         HandlerEvent.newSession SessionKind.OpenSim]
    ∧ ∃ hd1, (TaigaLoginHandler.new []).ProcessCommandParameterLogin
          (exampleServices true true) "world.example.org:9000" = some hd1
        ∧ hd1.credentials_ = some (Credentials.Taiga "NotNeeded")
        ∧ hd1.log.filter HandlerEvent.isSessionEvent
            = [HandlerEvent.newSession SessionKind.Taiga]
        ∧ hd1.Tidy := by
  have hall := C24_credentials_replaced_sessions_single (exampleServices true true)
  have hnew := (hall.2.2.2.2.1 []).1
  have hfirst := (hall.1 directLoginFields (OpenSimLoginHandler.new [])).2.2.2.2 hnew
  have hsecond := (hall.1 directLoginFields _).2.2.2.2 hfirst
  have hs2 := (hall.1 directLoginFields
    ((OpenSimLoginHandler.new []).ProcessOpenSimLogin (exampleServices true true)
      directLoginFields)).2.2.2.1
  refine ⟨hsecond, hs2.trans (by decide), ?_⟩
  cases hrun : (TaigaLoginHandler.new []).ProcessCommandParameterLogin
      (exampleServices true true) "world.example.org:9000" with
  | none => exact absurd hrun (by decide)
  | some hd1 =>
    obtain ⟨_, hc, hs, ht⟩ := hall.2.2.1 "world.example.org:9000" (TaigaLoginHandler.new [])
      hd1 hrun
    exact ⟨hd1, rfl, hc, hs.trans (by decide), ht (hall.2.2.2.2.1 []).2⟩

end RexLogic

namespace KristalliProtocol

/-- `PerformConnection` keeps the candidate index, and returns whenever the index is
inside the table. -/
theorem performConnection_index (net : NetworkConnect) (m : KristalliProtocolModule)
    (hi : m.nextPortAttempt < cNumPortChoices) :
    ∃ m1, m.PerformConnection net = some m1 ∧ m1.nextPortAttempt = m.nextPortAttempt := by
  have hlt : m.nextPortAttempt < destinationPorts.length := hi
  have hd : destinationPorts[m.nextPortAttempt]? = some destinationPorts[m.nextPortAttempt] :=
    List.getElem?_eq_getElem hlt
  unfold KristalliProtocolModule.PerformConnection
  cases hco : m.Connected <;> cases hsc : m.serverConnection <;> simp [hd]

/-- `Connect` returns whenever the index is inside the table, and leaves it inside. -/
theorem connect_index (net : NetworkConnect) (ip : String) (port : Nat)
    (m : KristalliProtocolModule) (hi : m.nextPortAttempt < cNumPortChoices) :
    ∃ m1, m.Connect net ip port = some m1 ∧ m1.nextPortAttempt < cNumPortChoices := by
  unfold KristalliProtocolModule.Connect
  simp only []
  have hmid : ∀ m0 : KristalliProtocolModule, m0.nextPortAttempt < cNumPortChoices →
      ∃ m1, (if (!m0.Connected) = true then m0.PerformConnection net else some m0) = some m1
        ∧ m1.nextPortAttempt < cNumPortChoices := by
    intro m0 h0
    split
    · obtain ⟨m1, h1, h2⟩ := performConnection_index net m0 h0
      exact ⟨m1, h1, by rw [h2]; exact h0⟩
    · exact ⟨m0, rfl, h0⟩
  apply hmid
  split
  · split
    · rw [(disconnect_members _).2.1]
      decide
    · exact hi
  · exact hi

/-- Every input applied to a manager whose index is inside the table is defined and
leaves the index inside the table. -/
theorem step_index (op : Op) (m : KristalliProtocolModule)
    (hi : m.nextPortAttempt < cNumPortChoices) :
    ∃ m1, m.step op = some m1 ∧ m1.nextPortAttempt < cNumPortChoices := by
  cases op with
  | Connect net ip port => exact connect_index net ip port m hi
  | Disconnect =>
    refine ⟨m.Disconnect, rfl, ?_⟩
    rw [(disconnect_members m).2.1]
    decide
  | transportNotify s => exact ⟨m.transportNotify s, rfl, hi⟩
  | Update net now =>
    obtain ⟨m1, added, hu, _, hcase⟩ := update_advance net now m
    refine ⟨m1, hu, ?_⟩
    rcases hcase with ⟨_, he⟩ | ⟨_, he⟩
    · rw [he]; exact hi
    · rw [he]; exact Nat.mod_lt _ (by decide)

/-- Every run from a manager whose index is inside the table is defined and ends with
the index inside the table. -/
theorem run_index (ops : List Op) (m : KristalliProtocolModule)
    (hi : m.nextPortAttempt < cNumPortChoices) :
    ∃ m1, KristalliProtocolModule.run ops m = some m1
      ∧ m1.nextPortAttempt < cNumPortChoices := by
  induction ops generalizing m with
  | nil => exact ⟨m, rfl, hi⟩
  | cons op ops ih =>
    obtain ⟨m1, hs, h1⟩ := step_index op m hi
    obtain ⟨m2, hr, h2⟩ := ih m1 h1
    exact ⟨m2, by simp [KristalliProtocolModule.run, hs, hr], h2⟩

/-- C30: every sequence of `Connect`, `Disconnect` and `Update` calls (and transport
notifications) applied to a new manager is defined, and in every state reached the
candidate index is below `cNumPortChoices`, so that `PerformConnection` reads
`destinationPorts[nextPortAttempt]` inside the table and returns. -/
theorem C30_candidate_index_stays_in_table :
    (∀ ops, ∃ m, KristalliProtocolModule.run ops KristalliProtocolModule.new = some m)
    ∧ ∀ m, KristalliProtocolModule.Reachable m →
        m.nextPortAttempt < cNumPortChoices
        ∧ (∃ d, destinationPorts[m.nextPortAttempt]? = some d)
        ∧ ∀ net, ∃ m1, m.PerformConnection net = some m1 := by
  have hnew : KristalliProtocolModule.new.nextPortAttempt < cNumPortChoices := by decide
  constructor
  · intro ops
    obtain ⟨m, hm, _⟩ := run_index ops KristalliProtocolModule.new hnew
    exact ⟨m, hm⟩
  · rintro m ⟨ops, hops⟩
    obtain ⟨m1, hm1, hi⟩ := run_index ops KristalliProtocolModule.new hnew
    rw [hops] at hm1
    injection hm1 with hm1
    subst hm1
    refine ⟨hi, ⟨destinationPorts[m.nextPortAttempt], List.getElem?_eq_getElem hi⟩, ?_⟩
    intro net
    obtain ⟨m2, h2, _⟩ := performConnection_index net m hi
    exact ⟨m2, h2⟩

/-- Witness of C30: the state after a refused `Connect`, an arming `Update` and a retry
is reachable; its index is 1. -/
theorem C30_candidate_index_stays_in_table_witness :
    KristalliProtocolModule.Reachable
        { serverConnection := none
          nextPortAttempt := 1
          serverIp := "10.0.0.1"
          reconnectTimer := { enabled := false, alarmTime := 5000 }
          log := [NetEvent.Connect "10.0.0.1" 2345 SocketTransportLayer.SocketOverUDP,
            NetEvent.TimerTest, NetEvent.StartMSecs 5000, NetEvent.TimerTest,
            NetEvent.Connect "10.0.0.1" 2345 SocketTransportLayer.SocketOverTCP] }
    ∧ (1 < cNumPortChoices
      ∧ (∃ d, destinationPorts[1]? = some d)
      ∧ ∀ net, ∃ m1, KristalliProtocolModule.PerformConnection net
          { serverConnection := none
            nextPortAttempt := 1
            serverIp := "10.0.0.1"
            reconnectTimer := { enabled := false, alarmTime := 5000 }
            log := [NetEvent.Connect "10.0.0.1" 2345 SocketTransportLayer.SocketOverUDP,
              NetEvent.TimerTest, NetEvent.StartMSecs 5000, NetEvent.TimerTest,
              NetEvent.Connect "10.0.0.1" 2345 SocketTransportLayer.SocketOverTCP] }
          = some m1) :=
  have hreach : KristalliProtocolModule.Reachable
        { serverConnection := none
          nextPortAttempt := 1
          serverIp := "10.0.0.1"
          reconnectTimer := { enabled := false, alarmTime := 5000 }
          log := [NetEvent.Connect "10.0.0.1" 2345 SocketTransportLayer.SocketOverUDP,
            NetEvent.TimerTest, NetEvent.StartMSecs 5000, NetEvent.TimerTest,
            NetEvent.Connect "10.0.0.1" 2345 SocketTransportLayer.SocketOverTCP] } :=
    ⟨[Op.Connect refusingNetwork "10.0.0.1" 2345, Op.Update refusingNetwork 0,
      Op.Update refusingNetwork 5001], by decide⟩
  ⟨hreach, C30_candidate_index_stays_in_table.2 _ hreach⟩

end KristalliProtocol

namespace OpenSimProtocol

theorem readSession_gridUrl (r : List (String × XMLRPCValue)) (ts : ConnectionThreadState) :
    (readSession r ts).1.parameters.gridUrl = ts.parameters.gridUrl := by
  unfold readSession
  repeat' split
  all_goals rfl

/-- The call that `PerformXMLRPCLogin` sends, when it sends one, is the call `buildCall`
describes. -/
theorem perform_sent_is_buildCall (h : Host) (n : Nat) (t : XMLRPCLoginThread)
    (ts : ConnectionThreadState) (c : XMLRPCCall)
    (hc : c ∈ callsSent (t.PerformXMLRPCLogin h n ts).log) :
    c = buildCall h t ts.parameters.sessionHash := by
  rcases perform_callsSent h n t ts with h0 | h1
  · rw [h0] at hc
    cases hc
  · rw [h1] at hc
    simpa using hc

/-- C26: in every call `PerformXMLRPCLogin` sends, the member `mac` is the MD5 digest of
the MAC-address string and `id0` the MD5 digest of the hardware-id string; when the call
carries identity fields (method `login_to_simulator`, or `ClientAuthentication` with
authentication), the member `passwd` is "$1$" followed by the MD5 digest of the
password; and the call depends on the password through its digest only: a worker that
differs in nothing but a password with the same digest sends the same call. -/
theorem C26_password_and_hardware_ids_are_sent_hashed (h : Host) (n : Nat)
    (t : XMLRPCLoginThread) (ts : ConnectionThreadState) (c : XMLRPCCall)
    (hc : c ∈ callsSent (t.PerformXMLRPCLogin h n ts).log) :
    c.members.lookup "mac" = some (.str (h.md5 h.macAddress))
    ∧ c.members.lookup "id0" = some (.str (h.md5 h.id0))
    ∧ ((t.callMethod_ = "login_to_simulator"
          ∨ (t.authentication_ = true ∧ t.callMethod_ = "ClientAuthentication")) →
        c.members.lookup "passwd" = some (.str ("$1$" ++ h.md5 t.password_)))
    ∧ (∀ pw, h.md5 pw = h.md5 t.password_ →
        buildCall h { t with password_ := pw } ts.parameters.sessionHash = c) := by
  have hcb := perform_sent_is_buildCall h n t ts c hc
  subst hcb
  refine ⟨?_, ?_, ?_, ?_⟩
  · unfold buildCall identityMembers commonMembers
    simp only []
    repeat' split
    all_goals simp [List.lookup]
  · unfold buildCall identityMembers commonMembers
    simp only []
    repeat' split
    all_goals simp [List.lookup]
  · intro hbranch
    unfold buildCall identityMembers commonMembers
    simp only []
    cases hauth : t.authentication_ <;> rcases hbranch with hm | ⟨ha, hm⟩ <;>
      simp_all [List.lookup]
  · intro pw hpw
    simp [buildCall, identityMembers, hpw]

/-- Witness of C26: the call of the direct scenario carries the three digests of the
scripted host. -/
theorem C26_password_and_hardware_ids_are_sent_hashed_witness :
    (buildCall (scriptedHost [.reply scenarioReply]) directWorker "").members.lookup "mac"
      = some (.str "md5(00:11:22:33:44:55)")
    ∧ (buildCall (scriptedHost [.reply scenarioReply]) directWorker "").members.lookup "id0"
      = some (.str "md5(disk0)")
    ∧ (buildCall (scriptedHost [.reply scenarioReply]) directWorker "").members.lookup "passwd"
      = some (.str "$1$md5(secret)") := by
  have hw := C26_password_and_hardware_ids_are_sent_hashed
    (scriptedHost [.reply scenarioReply]) 0 directWorker
    { blankState with state := State.STATE_WAITING_FOR_XMLRPC_REPLY }
    (buildCall (scriptedHost [.reply scenarioReply]) directWorker "") (by decide)
  exact ⟨hw.1, hw.2.1, hw.2.2.1 (Or.inl rfl)⟩

end OpenSimProtocol

namespace OpenSimProtocol

/-- The log of an authenticated run whose first round succeeded: the first round, the
write of the authentication phase, the second round, and at most one closing write. -/
theorem operatorCall_auth_log (h : Host) (t : XMLRPCLoginThread) (ts : ConnectionThreadState)
    (hbegin : t.beginLogin_ = true) (hts : t.threadState_ = some ts)
    (hauth : t.authentication_ = true)
    (hok : (t.PerformXMLRPCLogin h 0
      { ts with state := State.STATE_WAITING_FOR_XMLRPC_REPLY }).ret = .ok true) :
    ∃ tail, (t.operatorCall h).log
        = Event.setState State.STATE_WAITING_FOR_XMLRPC_REPLY ::
            (t.PerformXMLRPCLogin h 0
              { ts with state := State.STATE_WAITING_FOR_XMLRPC_REPLY }).log
          ++ [Event.setState State.STATE_XMLRPC_AUTH_REPLY_RECEIVED]
          ++ ((XMLRPCLoginThread.PerformXMLRPCLogin h 1
                { t with callMethod_ := "login_to_simulator" }
                { (t.PerformXMLRPCLogin h 0
                    { ts with state := State.STATE_WAITING_FOR_XMLRPC_REPLY }).ts with
                  state := State.STATE_XMLRPC_AUTH_REPLY_RECEIVED }).log ++ tail)
        ∧ callsIssued tail = [] ∧ callsSent tail = [] := by
  unfold XMLRPCLoginThread.operatorCall
  simp only [hbegin, hts, hauth, hok, Bool.not_true, Bool.and_false, Bool.and_self,
    Bool.false_eq_true, if_false, if_true]
  split
  · exact ⟨[], by simp, rfl, rfl⟩
  · rename_i b hb
    exact ⟨[.setState (if b = true then State.STATE_XMLRPC_REPLY_RECEIVED
      else State.STATE_LOGIN_FAILED)], by simp, rfl, rfl⟩

/-- A successful authentication round: the result and the stored session hash. -/
theorem perform_authentication_ok (h : Host) (n : Nat) (t : XMLRPCLoginThread)
    (ts : ConnectionThreadState) (r : List (String × XMLRPCValue)) (sh g a : String)
    (hauth : t.authentication_ = true) (hmethod : t.callMethod_ = "ClientAuthentication")
    (hreply : h.rpc n (buildCall h t ts.parameters.sessionHash) = .reply r)
    (hsh : r.lookup "sessionHash" = some (.str sh))
    (hg : r.lookup "gridUrl" = some (.str g))
    (ha : r.lookup "avatarStorageUrl" = some (.str a)) :
    (t.PerformXMLRPCLogin h n ts).ret = .ok true
    ∧ (t.PerformXMLRPCLogin h n ts).ts.parameters.sessionHash = sh
    ∧ callsSent (t.PerformXMLRPCLogin h n ts).log = [buildCall h t ts.parameters.sessionHash] := by
  simp [XMLRPCLoginThread.PerformXMLRPCLogin, hreply, readReply, hauth, hmethod,
    readAuthentication, GetReplyString, hsh, hg, ha, callsSent]

/-- C5: a worker set up with authentication off opens exactly one call in a run, to the
world address and port; that call is sent unless `Connect`, `CreateCall` or an
`AddMember` threw, and no other call is sent; and the run never writes
`STATE_XMLRPC_AUTH_REPLY_RECEIVED`.  A worker set up with authentication on whose first
round succeeds has opened and sent its first call, writes
`STATE_XMLRPC_AUTH_REPLY_RECEIVED`, and then opens a second call, with method
`login_to_simulator`, to the world address and port, which is sent unless `Connect`,
`CreateCall` or an `AddMember` threw. -/
theorem C5_one_round_without_authentication_two_with (h : Host) (t : XMLRPCLoginThread)
    (ts : ConnectionThreadState)
    (hbegin : t.beginLogin_ = true) (hts : t.threadState_ = some ts) :
    (t.authentication_ = false →
      callsIssued (t.operatorCall h).log = [(t.worldAddress_, t.worldPort_, t.callMethod_)]
      ∧ callsSent (t.operatorCall h).log
          = (if (h.rpc 0 (buildCall h t ts.parameters.sessionHash)).reachesSend
             then [buildCall h t ts.parameters.sessionHash] else [])
      ∧ (buildCall h t ts.parameters.sessionHash).address = t.worldAddress_
      ∧ (buildCall h t ts.parameters.sessionHash).port = t.worldPort_
      ∧ Event.setState State.STATE_XMLRPC_AUTH_REPLY_RECEIVED ∉ (t.operatorCall h).log
      ∧ (t.operatorCall h).phase ≠ some State.STATE_XMLRPC_AUTH_REPLY_RECEIVED)
    ∧ (t.authentication_ = true →
      (t.PerformXMLRPCLogin h 0
        { ts with state := State.STATE_WAITING_FOR_XMLRPC_REPLY }).ret = .ok true →
      ∃ before after,
        (t.operatorCall h).log
          = before ++ [Event.setState State.STATE_XMLRPC_AUTH_REPLY_RECEIVED] ++ after
        ∧ callsIssued before = [((buildCall h t ts.parameters.sessionHash).address,
            (buildCall h t ts.parameters.sessionHash).port, t.callMethod_)]
        ∧ callsSent before = [buildCall h t ts.parameters.sessionHash]
        ∧ callsIssued after = [(t.worldAddress_, t.worldPort_, "login_to_simulator")]
        ∧ callsSent after
            = (if (h.rpc 1 (buildCall h { t with callMethod_ := "login_to_simulator" }
                  (t.PerformXMLRPCLogin h 0
                    { ts with state := State.STATE_WAITING_FOR_XMLRPC_REPLY }
                  ).ts.parameters.sessionHash)).reachesSend
               then [buildCall h { t with callMethod_ := "login_to_simulator" }
                  (t.PerformXMLRPCLogin h 0
                    { ts with state := State.STATE_WAITING_FOR_XMLRPC_REPLY }
                  ).ts.parameters.sessionHash]
               else [])) := by
  constructor
  · intro hauth
    have hcalls := perform_callsIssued h 0 t
      { ts with state := State.STATE_WAITING_FOR_XMLRPC_REPLY }
    have hsent := perform_callsSent_exact h 0 t
      { ts with state := State.STATE_WAITING_FOR_XMLRPC_REPLY }
    have hset := perform_no_setState h 0 t
      { ts with state := State.STATE_WAITING_FOR_XMLRPC_REPLY }
      State.STATE_XMLRPC_AUTH_REPLY_RECEIVED
    have haddr : ((buildCall h t ts.parameters.sessionHash).address,
        (buildCall h t ts.parameters.sessionHash).port,
        (buildCall h t ts.parameters.sessionHash).method)
        = (t.worldAddress_, t.worldPort_, t.callMethod_) := by
      simp [buildCall, hauth]
    simp only [] at hcalls hsent hset
    rw [haddr] at hcalls
    obtain ⟨tail, hlog, htc, hts2, htn, hph⟩ := operatorCall_direct h t ts hbegin hts hauth
    rw [hlog]
    refine ⟨?_, ?_, ?_, ?_, ?_, hph⟩
    · simp [callsIssued, callsIssued_append, hcalls, htc]
    · show callsSent ((t.PerformXMLRPCLogin h 0
          { ts with state := State.STATE_WAITING_FOR_XMLRPC_REPLY }).log ++ tail) = _
      rw [callsSent_append, hts2, List.append_nil]
      exact hsent
    · simp [buildCall, hauth]
    · simp [buildCall, hauth]
    · simp [hset, htn]
  · intro hauth hok
    have hcalls1 := perform_callsIssued h 0 t
      { ts with state := State.STATE_WAITING_FOR_XMLRPC_REPLY }
    have hsent1 := perform_ok_sent h 0 t
      { ts with state := State.STATE_WAITING_FOR_XMLRPC_REPLY } hok
    have hcalls2 := perform_callsIssued h 1 { t with callMethod_ := "login_to_simulator" }
      { (t.PerformXMLRPCLogin h 0
          { ts with state := State.STATE_WAITING_FOR_XMLRPC_REPLY }).ts with
        state := State.STATE_XMLRPC_AUTH_REPLY_RECEIVED }
    have hsent2 := perform_callsSent_exact h 1 { t with callMethod_ := "login_to_simulator" }
      { (t.PerformXMLRPCLogin h 0
          { ts with state := State.STATE_WAITING_FOR_XMLRPC_REPLY }).ts with
        state := State.STATE_XMLRPC_AUTH_REPLY_RECEIVED }
    have haddr2 : ∀ sh, ((buildCall h { t with callMethod_ := "login_to_simulator" } sh).address,
        (buildCall h { t with callMethod_ := "login_to_simulator" } sh).port,
        (buildCall h { t with callMethod_ := "login_to_simulator" } sh).method)
        = (t.worldAddress_, t.worldPort_, "login_to_simulator") := by
      intro sh
      simp [buildCall, hauth]
    rw [haddr2] at hcalls2
    obtain ⟨tail, hlog, htc, htsent⟩ := operatorCall_auth_log h t ts hbegin hts hauth hok
    refine ⟨_, _, hlog, ?_, ?_, ?_, ?_⟩
    · show callsIssued (t.PerformXMLRPCLogin h 0
          { ts with state := State.STATE_WAITING_FOR_XMLRPC_REPLY }).log = _
      rw [hcalls1]
      rfl
    · exact hsent1
    · rw [callsIssued_append, hcalls2, htc]
      rfl
    · rw [callsSent_append, htsent, List.append_nil]
      exact hsent2

/-- Witness of C5: the direct scenario opens and sends the single call to
`example.org:9000`; the authenticated scenario, granted by the authentication peer,
sends the `ClientAuthentication` call and then the `login_to_simulator` call to
`example.org:9000`. -/
theorem C5_one_round_without_authentication_two_with_witness :
    (callsIssued (directWorker.operatorCall (scriptedHost [.reply scenarioReply])).log
        = [("example.org", "9000", "login_to_simulator")]
      ∧ callsSent (directWorker.operatorCall (scriptedHost [.reply scenarioReply])).log
          = [buildCall (scriptedHost [.reply scenarioReply]) directWorker ""]
      ∧ Event.setState State.STATE_XMLRPC_AUTH_REPLY_RECEIVED
          ∉ (directWorker.operatorCall (scriptedHost [.reply scenarioReply])).log
      ∧ (directWorker.operatorCall (scriptedHost [.reply scenarioReply])).phase
          ≠ some State.STATE_XMLRPC_AUTH_REPLY_RECEIVED)
    ∧ ∃ before after,
        (authWorker.operatorCall
            (scriptedHost [.reply authenticationGranted, .reply scenarioReply])).log
          = before ++ [Event.setState State.STATE_XMLRPC_AUTH_REPLY_RECEIVED] ++ after
        ∧ callsIssued before = [("auth.example.org", "10001", "ClientAuthentication")]
        ∧ callsSent before
            = [buildCall (scriptedHost [.reply authenticationGranted, .reply scenarioReply])
                authWorker ""]
        ∧ callsIssued after = [("example.org", "9000", "login_to_simulator")]
        ∧ callsSent after
            = [buildCall (scriptedHost [.reply authenticationGranted, .reply scenarioReply])
                { authWorker with callMethod_ := "login_to_simulator" } "H1"] := by
  have hd := (C5_one_round_without_authentication_two_with (scriptedHost [.reply scenarioReply])
      directWorker { blankState with state := State.STATE_INIT_XMLRPC } rfl rfl).1 rfl
  have ha := (C5_one_round_without_authentication_two_with
      (scriptedHost [.reply authenticationGranted, .reply scenarioReply])
      authWorker { blankState with state := State.STATE_INIT_XMLRPC } rfl rfl).2 rfl rfl
  obtain ⟨before, after, h1, h2, h3, h4, h5⟩ := ha
  exact ⟨⟨hd.1, hd.2.1, hd.2.2.2.2.1, hd.2.2.2.2.2⟩, before, after, h1, h2, h3, h4, h5⟩

theorem readSession_sessionHash (r : List (String × XMLRPCValue)) (ts : ConnectionThreadState) :
    (readSession r ts).1.parameters.sessionHash = ts.parameters.sessionHash := by
  unfold readSession
  repeat' split
  all_goals rfl

/-- The `login_to_simulator` round of an authenticated login does not write the stored
session hash. -/
theorem perform_login_round_sessionHash (h : Host) (n : Nat) (t : XMLRPCLoginThread)
    (ts : ConnectionThreadState)
    (hauth : t.authentication_ = true) (hmethod : t.callMethod_ = "login_to_simulator") :
    (t.PerformXMLRPCLogin h n ts).ts.parameters.sessionHash = ts.parameters.sessionHash := by
  have hs := readSession_sessionHash
  unfold XMLRPCLoginThread.PerformXMLRPCLogin
  simp only []
  split
  · rfl
  · rfl
  · rfl
  · rename_i fields hf
    have hrd : (readReply t fields ts).1.parameters.sessionHash = ts.parameters.sessionHash := by
      unfold readReply
      simp only [hauth, hmethod, Bool.not_true, Bool.false_eq_true, if_false, bne_self_eq_false,
        Bool.and_false, Bool.true_and, beq_self_eq_true, if_true]
      split
      · rename_i ts1 e he
        have := hs fields ts
        rw [he] at this
        exact this
      · rename_i ts1 he
        have := hs fields ts
        rw [he] at this
        exact this
    split
    · rename_i ts1 b hb
      rw [hb] at hrd
      exact hrd
    · rename_i ts1 e he
      rw [he] at hrd
      split
      · exact hrd
      · exact hrd

/-- The record an authenticated run leaves when its first round succeeded: the record of
the second round, with or without a closing write of the phase. -/
theorem operatorCall_auth_record (h : Host) (t : XMLRPCLoginThread) (ts : ConnectionThreadState)
    (hbegin : t.beginLogin_ = true) (hts : t.threadState_ = some ts)
    (hauth : t.authentication_ = true)
    (hok : (t.PerformXMLRPCLogin h 0
      { ts with state := State.STATE_WAITING_FOR_XMLRPC_REPLY }).ret = .ok true) :
    (t.operatorCall h).parameters
      = some (XMLRPCLoginThread.PerformXMLRPCLogin h 1
                { t with callMethod_ := "login_to_simulator" }
                { (t.PerformXMLRPCLogin h 0
                    { ts with state := State.STATE_WAITING_FOR_XMLRPC_REPLY }).ts with
                  state := State.STATE_XMLRPC_AUTH_REPLY_RECEIVED }).ts.parameters := by
  unfold XMLRPCLoginThread.operatorCall RunResult.parameters
  simp only [hbegin, hts, hauth, hok, Bool.not_true, Bool.and_false, Bool.and_self,
    Bool.false_eq_true, if_false, if_true]
  split <;> rfl

/-- C27: in an authenticated login whose `ClientAuthentication` round is answered with a
session hash `sh` (and the two URLs), the run stores `sh`, opens a second call to the
world address and port with method `login_to_simulator`, and the calls it sends are the
`ClientAuthentication` call followed, unless `Connect`, `CreateCall` or an `AddMember`
of the second round threw, by the call built with `sh`: its address and port are the
world address and port, its member `sessionhash` is `sh`, its `account` is
`login ++ "@" ++ authAddress ++ ":" ++ authPort` and its `AuthenticationAddress` is
`authAddress ++ ":" ++ authPort`. -/
theorem C27_second_round_carries_session_hash (h : Host) (t : XMLRPCLoginThread)
    (ts : ConnectionThreadState) (r : List (String × XMLRPCValue)) (sh g a : String)
    (hbegin : t.beginLogin_ = true) (hts : t.threadState_ = some ts)
    (hauth : t.authentication_ = true) (hmethod : t.callMethod_ = "ClientAuthentication")
    (hreply : h.rpc 0 (buildCall h t ts.parameters.sessionHash) = .reply r)
    (hsh : r.lookup "sessionHash" = some (.str sh))
    (hg : r.lookup "gridUrl" = some (.str g))
    (ha : r.lookup "avatarStorageUrl" = some (.str a)) :
    callsIssued (t.operatorCall h).log
        = [(t.authenticationAddress_, t.authenticationPort_, "ClientAuthentication"),
           (t.worldAddress_, t.worldPort_, "login_to_simulator")]
    ∧ callsSent (t.operatorCall h).log
        = buildCall h t ts.parameters.sessionHash ::
          (if (h.rpc 1 (buildCall h { t with callMethod_ := "login_to_simulator" } sh)).reachesSend
           then [buildCall h { t with callMethod_ := "login_to_simulator" } sh] else [])
    ∧ (t.operatorCall h).parameters.map (·.sessionHash) = some sh
    ∧ (buildCall h { t with callMethod_ := "login_to_simulator" } sh).address
        = t.worldAddress_
    ∧ (buildCall h { t with callMethod_ := "login_to_simulator" } sh).port = t.worldPort_
    ∧ (buildCall h { t with callMethod_ := "login_to_simulator" } sh).method
        = "login_to_simulator"
    ∧ (buildCall h { t with callMethod_ := "login_to_simulator" } sh).members.lookup
        "sessionhash" = some (.str sh)
    ∧ (buildCall h { t with callMethod_ := "login_to_simulator" } sh).members.lookup
        "account" = some (.str (t.authenticationLogin_ ++ "@" ++ t.authenticationAddress_
          ++ ":" ++ t.authenticationPort_))
    ∧ (buildCall h { t with callMethod_ := "login_to_simulator" } sh).members.lookup
        "AuthenticationAddress"
        = some (.str (t.authenticationAddress_ ++ ":" ++ t.authenticationPort_)) := by
  obtain ⟨hok, hhash, hsent1⟩ := perform_authentication_ok h 0 t
    { ts with state := State.STATE_WAITING_FOR_XMLRPC_REPLY } r sh g a hauth hmethod
    hreply hsh hg ha
  obtain ⟨tail, hlog, htc, hts2⟩ := operatorCall_auth_log h t ts hbegin hts hauth hok
  have hrec := operatorCall_auth_record h t ts hbegin hts hauth hok
  have hcalls1 := perform_callsIssued h 0 t
    { ts with state := State.STATE_WAITING_FOR_XMLRPC_REPLY }
  have hcalls2 := perform_callsIssued h 1 { t with callMethod_ := "login_to_simulator" }
    { (t.PerformXMLRPCLogin h 0
        { ts with state := State.STATE_WAITING_FOR_XMLRPC_REPLY }).ts with
      state := State.STATE_XMLRPC_AUTH_REPLY_RECEIVED }
  have hsent2 := perform_callsSent_exact h 1 { t with callMethod_ := "login_to_simulator" }
    { (t.PerformXMLRPCLogin h 0
        { ts with state := State.STATE_WAITING_FOR_XMLRPC_REPLY }).ts with
      state := State.STATE_XMLRPC_AUTH_REPLY_RECEIVED }
  have hkeep := perform_login_round_sessionHash h 1 { t with callMethod_ := "login_to_simulator" }
    { (t.PerformXMLRPCLogin h 0
        { ts with state := State.STATE_WAITING_FOR_XMLRPC_REPLY }).ts with
      state := State.STATE_XMLRPC_AUTH_REPLY_RECEIVED } hauth rfl
  have hhash2 : ({ (t.PerformXMLRPCLogin h 0
        { ts with state := State.STATE_WAITING_FOR_XMLRPC_REPLY }).ts with
      state := State.STATE_XMLRPC_AUTH_REPLY_RECEIVED } : ConnectionThreadState).parameters.sessionHash
      = sh := hhash
  rw [hhash2] at hsent2 hkeep
  have haddr1 : ((buildCall h t ts.parameters.sessionHash).address,
      (buildCall h t ts.parameters.sessionHash).port,
      (buildCall h t ts.parameters.sessionHash).method)
      = (t.authenticationAddress_, t.authenticationPort_, "ClientAuthentication") := by
    simp [buildCall, hauth, hmethod]
  have haddr2 : ∀ s2, ((buildCall h { t with callMethod_ := "login_to_simulator" } s2).address,
      (buildCall h { t with callMethod_ := "login_to_simulator" } s2).port,
      (buildCall h { t with callMethod_ := "login_to_simulator" } s2).method)
      = (t.worldAddress_, t.worldPort_, "login_to_simulator") := by
    intro s2
    simp [buildCall]
  refine ⟨?_, ?_, ?_, ?_, ?_, ?_, ?_, ?_, ?_⟩
  · rw [hlog, callsIssued_append, callsIssued_append, callsIssued_append, htc,
      List.append_nil, hcalls2, haddr2]
    show callsIssued (t.PerformXMLRPCLogin h 0
      { ts with state := State.STATE_WAITING_FOR_XMLRPC_REPLY }).log ++ [] ++ _ = _
    rw [hcalls1]
    exact congrArg (fun x => [x, (t.worldAddress_, t.worldPort_, "login_to_simulator")]) haddr1
  · rw [hlog, callsSent_append, callsSent_append, callsSent_append, hts2,
      List.append_nil, hsent2]
    show callsSent (t.PerformXMLRPCLogin h 0
      { ts with state := State.STATE_WAITING_FOR_XMLRPC_REPLY }).log ++ [] ++ _ = _
    rw [hsent1]
    rfl
  · rw [hrec]
    exact congrArg some hkeep
  · simp [buildCall]
  · simp [buildCall]
  · simp [buildCall]
  · simp [buildCall, identityMembers, hauth, List.lookup]
  · simp [buildCall, identityMembers, hauth, List.lookup]
  · simp [buildCall, identityMembers, hauth, List.lookup]

/-- Witness of C27: the authenticated scenario, granted with session hash "H1": both
calls are sent and the second carries "H1". -/
theorem C27_second_round_carries_session_hash_witness :
    callsIssued (authWorker.operatorCall
        (scriptedHost [.reply authenticationGranted, .reply scenarioReply])).log
      = [("auth.example.org", "10001", "ClientAuthentication"),
         ("example.org", "9000", "login_to_simulator")]
    ∧ callsSent (authWorker.operatorCall
        (scriptedHost [.reply authenticationGranted, .reply scenarioReply])).log
      = [buildCall (scriptedHost [.reply authenticationGranted, .reply scenarioReply])
           authWorker "",
         buildCall (scriptedHost [.reply authenticationGranted, .reply scenarioReply])
           { authWorker with callMethod_ := "login_to_simulator" } "H1"]
    ∧ (authWorker.operatorCall
        (scriptedHost [.reply authenticationGranted, .reply scenarioReply])).parameters.map
        (·.sessionHash) = some "H1"
    ∧ (buildCall (scriptedHost [.reply authenticationGranted, .reply scenarioReply])
        { authWorker with callMethod_ := "login_to_simulator" } "H1").members.lookup
        "sessionhash" = some (.str "H1")
    ∧ (buildCall (scriptedHost [.reply authenticationGranted, .reply scenarioReply])
        { authWorker with callMethod_ := "login_to_simulator" } "H1").members.lookup
        "account" = some (.str "jane@auth.example.org:10001")
    ∧ (buildCall (scriptedHost [.reply authenticationGranted, .reply scenarioReply])
        { authWorker with callMethod_ := "login_to_simulator" } "H1").members.lookup
        "AuthenticationAddress" = some (.str "auth.example.org:10001") := by
  have hw := C27_second_round_carries_session_hash
    (scriptedHost [.reply authenticationGranted, .reply scenarioReply]) authWorker
    { blankState with state := State.STATE_INIT_XMLRPC } authenticationGranted
    "H1" "http://grid.example.org" "http://avatar.example.org"
    rfl rfl rfl rfl rfl rfl rfl rfl
  exact ⟨hw.1, hw.2.1, hw.2.2.1, hw.2.2.2.2.2.2.1, hw.2.2.2.2.2.2.2.1, hw.2.2.2.2.2.2.2.2⟩

/-- C28: the condition that guards the "http://" put in front of `loginuri` is true for
every world address, and in the authenticated scenario with world address
"http://example.org" the `loginuri` of the second call is
"http://http://example.org:9000". -/
theorem C28_loginuri_always_gets_http_in_front :
    (∀ worldAddress : String, loginuriCondition worldAddress = true)
    ∧ (callsSent (authWorkerWithScheme.operatorCall
        (scriptedHost [.reply authenticationGranted, .reply scenarioReply])).log).map
        (fun c => (c.method, c.members.lookup "loginuri"))
      = [("ClientAuthentication", some (.str "http://example.org:9000")),
         ("login_to_simulator", some (.str "http://http://example.org:9000"))] := by
  constructor
  · intro w
    unfold loginuriCondition
    simp only []
    split <;> decide
  · decide

end OpenSimProtocol
